import Mathlib

/-!
# gst-kvazaar: the encode-session pipeline of `gstkvazaarenc.c`

A shallow embedding of the HEVC encoder element: the access-unit extractor
(`gst_kvazaar_enc_bytestream_to_nal`), the option resolver
(`gst_kvazaar_enc_init_encoder` with `parse_roi_array` and
`parse_kvazaar_options`), the pending-frame registry and the
submit/drain/flush state machine (`gst_kvazaar_enc_encode_frame`,
`gst_kvazaar_enc_flush_frames`, `gst_kvazaar_enc_handle_frame`).

Conventions
* bytes are `Nat`; C `int` values are `Int`; `guint32` values are `Nat` kept
  below `2^32` by an explicit `% 4294967296` wherever the C arithmetic wraps;
* the Kvazaar library is an explicit record of functions (`kvz_api`) over an
  engine-instance type `E`; the downstream element is a function giving the
  result of `gst_video_encoder_finish_frame`;
* the calls that leave the element and that the specification speaks of
  (option parser, engine open/close/encode, release of chunks and pictures,
  base-class frame lookup, unmapping, frame-finished callback) are appended
  to the ghost field `calls`; log statements are not modelled;
* `g_assert` and a failing `g_malloc` end the process, a store outside an
  allocated block leaves what C defines, and a thread that takes the object
  lock while it holds it waits for ever (`GST_OBJECT_LOCK` is not
  recursive): functions that can reach one of these return an `Outcome`,
  together with the state at that point.
-/

namespace GstKvazaar

/-! ## Access-unit extractor -/

/-- A `kvz_data_chunk`: the bytes `data[0 .. len)`; `len` is the list length. -/
structure kvz_data_chunk where
  data : List Nat
deriving DecidableEq

/-- The `len` field of a chunk. -/
def kvz_data_chunk.len (c : kvz_data_chunk) : Nat := c.data.length

/-- The loop of `gst_kvazaar_enc_bytestream_to_nal` over the bytes
`input->data[i ..]` still to be read.  `j` is the write index (a C `int`),
`zeros` the zero-run counter, `len` the current `output->len` (a `uint32_t`),
`out` the content of `output->data`.  The `continue` branch performs `j--`
and then the loop increment `j++`, so `j` is unchanged there. -/
def nal_loop : List Nat → Int → Nat → Nat → (Int → Nat) → (Int → Nat) × Nat
  | [], _, _, len, out => (out, len)
  | b :: rest, j, zeros, len, out =>
    if b = 0x00 then
      nal_loop rest (j + 1) (zeros + 1) len (Function.update out j b)
    else if b = 0x03 ∧ zeros = 2 then
      nal_loop rest j 0 ((len + 4294967296 - 1) % 4294967296) out
    else if b = 0x01 ∧ zeros = 3 then
      (out, ((j - 3) % 4294967296).toNat)
    else
      nal_loop rest (j + 1) 0 len (Function.update out j b)

/-- The function `gst_kvazaar_enc_bytestream_to_nal`.  `uninit` is the content
of the freshly allocated output chunk; the result is the chunk
`output->data[0 .. output->len)`. -/
def gst_kvazaar_enc_bytestream_to_nal (uninit : Int → Nat) (input : kvz_data_chunk) :
    kvz_data_chunk :=
  let r := nal_loop (input.data.drop 4) 0 0 ((input.len + 4294967296 - 4) % 4294967296) uninit
  { data := (List.range r.2).map (fun (k : Nat) => r.1 (Int.ofNat k)) }

/-- The sample byte stream `00 00 00 01 AA 00 00 03 01 BB 00 00 00 01 CC`. -/
def sample_stream : kvz_data_chunk :=
  ⟨[0x00, 0x00, 0x00, 0x01, 0xAA, 0x00, 0x00, 0x03, 0x01, 0xBB, 0x00, 0x00, 0x00, 0x01, 0xCC]⟩

/-! ### The extractor as the specification words it -/

/-- The zero-run counter after scanning `l`, starting from counter `z`: a zero
byte increments it, any other byte resets it. -/
def zeroRun (z : Nat) : List Nat → Nat
  | [] => z
  | b :: l => if b = 0 then zeroRun (z + 1) l else zeroRun 0 l

/-- Whether the scan of `l`, starting from counter `z`, reaches a `0x01` byte
while the zero-run counter is exactly 3. -/
def reachesStartCode (z : Nat) : List Nat → Bool
  | [] => false
  | b :: l =>
    if b = 0 then reachesStartCode (z + 1) l
    else if b = 1 ∧ z = 3 then true
    else reachesStartCode 0 l

/-- The bytes of `l` with every `0x03` that is reached with the zero-run
counter exactly 2 removed (counter `z` at the start). -/
def dropEmulation (z : Nat) : List Nat → List Nat
  | [] => []
  | b :: l =>
    if b = 0 then b :: dropEmulation (z + 1) l
    else if b = 3 ∧ z = 2 then dropEmulation 0 l
    else b :: dropEmulation 0 l

/-- Writing the bytes `w` into a buffer at consecutive indices from `j`. -/
def writeBytes (out : Int → Nat) (j : Int) : List Nat → (Int → Nat)
  | [] => out
  | b :: w => writeBytes (Function.update out j b) (j + 1) w

/-! ## Parsing helpers of the option resolver -/

/-- The tokens the successive `strtok` calls return for a string: maximal
runs of characters outside `delim`, empty runs skipped.  `cur` is the token
being read. -/
def strtok_aux (delim : List Char) : List Char → List Char → List (List Char)
  | [], cur => if cur = [] then [] else [cur]
  | c :: rest, cur =>
    if c ∈ delim then
      (if cur = [] then strtok_aux delim rest [] else cur :: strtok_aux delim rest [])
    else strtok_aux delim rest (cur ++ [c])

/-- The sequence of tokens `strtok (s, delim)`, `strtok (NULL, delim)`, ... -/
def strtok (s : List Char) (delim : List Char) : List (List Char) :=
  strtok_aux delim s []

/-- The C `isspace` in the "C" locale. -/
def isspace (c : Char) : Bool :=
  c = ' ' || c = Char.ofNat 9 || c = Char.ofNat 10 || c = Char.ofNat 11 || c = Char.ofNat 12
    || c = Char.ofNat 13

/-- Value of a run of decimal digits. -/
def digitsValue (ds : List Char) : Int :=
  ds.foldl (fun a c => 10 * a + ((c.toNat : Int) - 48)) 0

/-- The C `strtol (numstr, &tail, 10)` on a 64-bit `long`: leading white space,
an optional sign, decimal digits; the value saturates at `LONG_MIN`/`LONG_MAX`;
without a digit nothing is converted and `tail` is `numstr`. -/
def strtol (numstr : List Char) : Int × List Char :=
  let s1 := numstr.dropWhile isspace
  let neg := s1.head? = some '-'
  let s2 := if s1.head? = some '-' ∨ s1.head? = some '+' then s1.tail else s1
  let ds := s2.takeWhile Char.isDigit
  if ds = [] then (0, numstr)
  else
    let v := if neg then - digitsValue ds else digitsValue ds
    let v := if v < -9223372036854775808 then -9223372036854775808
      else if 9223372036854775807 < v then 9223372036854775807 else v
    (v, s2.dropWhile Char.isDigit)

/-- Conversion of a `long` to `int` (two's complement, 32 bits). -/
def long_to_int (v : Int) : Int := (v + 2147483648) % 4294967296 - 2147483648

/-- Conversion of an `int` to `int8_t` (two's complement, 8 bits). -/
def int_to_int8 (v : Int) : Int := (v + 128) % 256 - 128

/-- The function `parse_int`: the return value and the value stored in
`*number`. -/
def parse_int (numstr : List Char) (min max : Int) : Int × Int :=
  let r := strtol numstr
  let d := long_to_int r.1
  if r.2 ≠ [] ∨ d < min ∨ d > max then (0, 0) else (1, d)

/-- The function `parse_int8`: as `parse_int`, the value is stored in an
`int8_t`. -/
def parse_int8 (numstr : List Char) (min max : Int) : Int × Int :=
  let r := strtol numstr
  let d := long_to_int r.1
  if r.2 ≠ [] ∨ d < min ∨ d > max then (0, 0) else (1, int_to_int8 d)

/-- How a call ends: it returns a value, or it does not come to a return that
C defines: the process is ended inside it (`g_assert`, a `g_malloc` that
cannot be served, a NULL engine handle), it stores outside an allocated block
(nothing is defined from there on), or the thread waits for a lock that it
holds itself. -/
inductive Outcome (α : Type) where
  | returned (a : α)
  | aborted
deriving DecidableEq

/-- The `while (token != NULL)` loop of `parse_roi_array` from the token with
index `i` on.  `size` is the number of bytes asked of `g_malloc` for
`coeff_dqps` (the block is NULL for 0 bytes).  `parse_int8` is handed
`&coeff_dqps[i]` and stores through it, also when it rejects the token,
unless the pointer is NULL (`size = 0` and `i = 0`).  A store at an index
outside the block is outside what C defines: the modelled call ends there
(`aborted`).  Otherwise `none` when `parse_int8` rejects a token, else the
values of the tokens in order (their number is the final `i`). -/
def parse_roi_dqps (min max size : Int) : Nat → List (List Char) → Outcome (Option (List Int))
  | _, [] => .returned (some [])
  | i, token :: rest =>
    if ¬ (size = 0 ∧ i = 0) ∧ ¬ ((i : Int) < size) then .aborted
    else if (parse_int8 token min max).1 = 0 then .returned none
    else
      match parse_roi_dqps min max size (i + 1) rest with
      | .aborted => .aborted
      | .returned none => .returned none
      | .returned (some l) => .returned (some ((parse_int8 token min max).2 :: l))

/-- The function `parse_roi_array`.  `none` is the return value 0; `some
(width, height, dqps)` is the return value 1 with the three output
parameters.  `width0` and `height0` are the indeterminate values of the
locals `width` and `height`, read when the string has fewer than two tokens.
A negative `size` makes `g_malloc` fail, which ends the process; the stores
of the delta values are those of `parse_roi_dqps`. -/
def parse_roi_array (width0 height0 : Int) (array : List Char) (min max : Int) :
    Outcome (Option (Int × Int × List Int)) :=
  let tokens := strtok array [',', ';', ':', ' ']
  match tokens with
  | [] =>
    let size := long_to_int (width0 * height0)
    if size < 0 then .aborted
    else if 0 < size then .returned none
    else .returned (some (width0, height0, []))
  | t1 :: [] =>
    if (parse_int t1 min max).1 = 0 then .returned none
    else
      let width := (parse_int t1 min max).2
      let size := long_to_int (width * height0)
      if size < 0 then .aborted
      else if 0 < size then .returned none
      else .returned (some (width, height0, []))
  | t1 :: t2 :: rest =>
    if (parse_int t1 min max).1 = 0 then .returned none
    else if (parse_int t2 min max).1 = 0 then .returned none
    else
      let width := (parse_int t1 min max).2
      let height := (parse_int t2 min max).2
      let size := long_to_int (width * height)
      if size < 0 then .aborted
      else
        match parse_roi_dqps min max size 0 rest with
        | .aborted => .aborted
        | .returned none => .returned none
        | .returned (some dqps) =>
          if (dqps.length : Int) < size then .returned none
          else if (dqps.length : Int) > size then .returned none
          else .returned (some (width, height, dqps))

/-- The `strsep (&value, "=")` of `parse_kvazaar_options`: the name is the
token up to its first `=`, the value what follows it (NULL without `=`). -/
def strsep_eq (token : List Char) : List Char × Option (List Char) :=
  (token.takeWhile (fun c => c != '='),
    match token.dropWhile (fun c => c != '=') with
    | [] => none
    | _ :: v => some v)

/-! ## Data model -/

/-- A `GstFlowReturn` is its integer code. -/
abbrev GstFlowReturn := Int

/-- The flow return `GST_FLOW_OK`. -/
def GST_FLOW_OK : GstFlowReturn := 0
/-- The flow return `GST_FLOW_NOT_NEGOTIATED`. -/
def GST_FLOW_NOT_NEGOTIATED : GstFlowReturn := -4
/-- The flow return `GST_FLOW_ERROR`. -/
def GST_FLOW_ERROR : GstFlowReturn := -5

/-- The raw video formats the element distinguishes. -/
inductive GstVideoFormat where
  | UNKNOWN | I420 | YV12 | I420_10LE | I420_10BE | OTHER
deriving DecidableEq

/-- The fields of `GstVideoInfo` the element reads. -/
structure GstVideoInfo where
  format : GstVideoFormat
  width : Int
  height : Int
  fps_n : Int
  fps_d : Int
  par_n : Int
  par_d : Int
  interlace_mode : Int
deriving DecidableEq

/-- A `GstBuffer` is its bytes. -/
abbrev GstBuffer := List Nat

/-- A `GstVideoCodecFrame`.  `ptr` stands for the address of the object: two
handles are the same frame when their `ptr` agree. -/
structure GstVideoCodecFrame where
  ptr : Nat
  system_frame_number : Nat
  pts : Int
  dts : Int
  input_buffer : GstBuffer
  output_buffer : Option GstBuffer
deriving DecidableEq

/-- A mapped `GstVideoFrame`: the three plane addresses and the stride of
component 0. -/
structure GstVideoFrame where
  plane0 : Nat
  plane1 : Nat
  plane2 : Nat
  stride : Int
deriving DecidableEq

/-- An entry of the pending-frame registry (`FrameData`): the frame handle
and the mapping of its input buffer. -/
structure FrameData where
  frame : Nat
  vframe : GstVideoFrame
deriving DecidableEq

/-- The fields of `kvz_config` the element assigns directly.  Everything else
of the engine configuration is reached through `config_parse` only. -/
structure kvz_config where
  input_format : Int
  framerate_num : Int
  framerate_denom : Int
  width : Int
  height : Int
  qp : Int
  target_bitrate : Int
  intra_period : Int
  vps_period : Int
  calc_psnr : Int
  add_encoder_info : Int
  aud_enable : Int
  ref_frames : Int
  rdo : Int
  ime_algorithm : Int
  signhide_enable : Int
  rdoq_enable : Int
  rdoq_skip : Int
  trskip_enable : Int
  full_intra_search : Int
  mv_rdo : Int
  smp_enable : Int
  amp_enable : Int
  cu_split_termination : Int
  me_early_termination : Int
  roi_width : Int
  roi_height : Int
  roi_dqps : Option (List Int)
deriving DecidableEq

/-- The fields of `kvz_picture` the element fills. -/
structure kvz_picture where
  y : Nat
  u : Nat
  v : Nat
  stride : Int
  pts : Int
  dts : Int
  width : Int
  height : Int
  interlacing : Int
deriving DecidableEq

/-- The field `poc` and `qp` of `kvz_frame_info`. -/
structure kvz_frame_info where
  poc : Int
  qp : Int
deriving DecidableEq

/-- What one `encoder_encode` call hands back: the return code, the chunk list
(`[]` is NULL), `*len_out` (a `uint32_t`), the reconstructed picture and the
frame info. -/
structure kvz_encode_out where
  ret : Int
  chunks_out : List kvz_data_chunk
  len_out : Nat
  img_rec : kvz_picture
  info_out : kvz_frame_info
deriving DecidableEq

/-- The functions of `kvz_api` the element calls, over the type `E` of engine
instances.  `config_parse` gives the changed configuration and its return
value (0 is a rejected option); `encoder_open` gives NULL as `none`. -/
structure kvz_api (E : Type) where
  config_init : kvz_config
  config_parse : kvz_config → String → Option String → kvz_config × Int
  encoder_open : kvz_config → Option E
  encoder_encode : E → Option kvz_picture → E × kvz_encode_out
  encoder_headers : E → Int × kvz_data_chunk × Nat

/-- A call that leaves the element, as recorded in the ghost field `calls`. -/
inductive Call where
  | config_parse (name : String) (value : Option String)
  | encoder_open (cfg : kvz_config)
  | encoder_close
  | encoder_encode (input : Option kvz_picture)
  | chunk_free
  | picture_free
  | get_frame (frame_number : Nat)
  | frame_unmap (frame : Nat)
  | finish_frame (frame : GstVideoCodecFrame)
deriving DecidableEq

/-- Everything outside the element: the engine, the result of
`gst_video_encoder_finish_frame` for a frame, `gst_video_frame_map`, the
caps helper `gst_codec_utils_h265_caps_set_level_tier_and_profile`, the
content of the fresh `kvz_data_chunk` of the extractor and the indeterminate
values of the locals `width` and `height` of `parse_roi_array`. -/
structure Env (E : Type) where
  api : kvz_api E
  finish_frame : GstVideoCodecFrame → GstFlowReturn
  frame_map : GstVideoInfo → GstBuffer → Option GstVideoFrame
  caps_set_level_tier_and_profile : List Nat → Nat → Bool
  chunk_uninit : Int → Nat
  roi_width0 : Int
  roi_height0 : Int

/-- The instance structure `GstKvazaarEnc`.  `frames` is the list of frames
the base class `GstVideoEncoder` holds (oldest first); `calls` is the ghost
record of the calls made so far. -/
structure GstKvazaarEnc (E : Type) where
  frames : List GstVideoCodecFrame
  kvazaarenc : Option E
  kvazaarconfig : kvz_config
  dts_offset : Int
  push_header : Bool
  systeme_frame_number_offset : Nat
  pending_frames : List FrameData
  bitrate : Nat
  qp : Int
  intra_period : Int
  vps_period : Int
  no_psnr : Bool
  no_info : Bool
  preset : Nat
  source_scan_type : Nat
  aud_enable : Bool
  ref_frames : Int
  pu_depth_intra : String
  pu_depth_inter : String
  rdo : Nat
  me : Nat
  deblock : String
  signhide : Bool
  subme : Nat
  sao : Nat
  rdoq : Bool
  rdoq_skip : Bool
  trskip : Bool
  full_intra_search : Bool
  mv_rdo : Bool
  smp : Bool
  amp : Bool
  cu_split_termination : Int
  me_early_termination : Int
  gop : String
  roi : String
  kvz_opts : String
  roi_width : Int
  roi_height : Int
  dqps : Option (List Int)
  deblock_set : Bool
  signhide_set : Bool
  rdoq_set : Bool
  rdoq_skip_set : Bool
  trskip_set : Bool
  full_intra_search_set : Bool
  mv_rdo_set : Bool
  smp_set : Bool
  amp_set : Bool
  gop_set : Bool
  roi_set : Bool
  input_state : Option GstVideoInfo
  reconfig : Bool
  calls : List Call

/-- The enumeration value `GST_KVAZAAR_ENC_NO_PRESET`. -/
def GST_KVAZAAR_ENC_NO_PRESET : Nat := 0
/-- The enumeration value `GST_KVAZAAR_ENC_RDO_DEFAULT`. -/
def GST_KVAZAAR_ENC_RDO_DEFAULT : Nat := 3
/-- The enumeration value `GST_KVAZAAER_ENC_SUBME_DEFAULT`. -/
def GST_KVAZAAER_ENC_SUBME_DEFAULT : Nat := 5
/-- The enumeration value `GST_KVAZAAER_ENC_SAO_DEFAULT`. -/
def GST_KVAZAAER_ENC_SAO_DEFAULT : Nat := 4
/-- The constant `PROP_BITRATE_DEFAULT`. -/
def PROP_BITRATE_DEFAULT : Nat := 0
/-- The constant `PROP_QP_DEFAULT`. -/
def PROP_QP_DEFAULT : Int := 32
/-- The constant `PROP_INTRA_PERIOD_DEFAULT`. -/
def PROP_INTRA_PERIOD_DEFAULT : Int := 0
/-- The constant `PROP_VPS_PERIOD_DEFAULT`. -/
def PROP_VPS_PERIOD_DEFAULT : Int := 0
/-- The constant `PROP_REF_FRAMES_DEFAULT`. -/
def PROP_REF_FRAMES_DEFAULT : Int := 0
/-- The constant `PROP_ME_DEFAULT`. -/
def PROP_ME_DEFAULT : Nat := 31
/-- The constant `PROP_CU_SPLIT_TERM_DEFAULT`. -/
def PROP_CU_SPLIT_TERM_DEFAULT : Int := -1
/-- The constant `PROP_ME_EARLY_TERM_DEFAULT`. -/
def PROP_ME_EARLY_TERM_DEFAULT : Int := -1
/-- The engine constant `KVZ_FORMAT_P420`. -/
def KVZ_FORMAT_P420 : Int := 1

/-- The `value_nick` column of the table `preset_types`. -/
def preset_types : List String :=
  ["none", "ultrafast", "superfast", "veryfast", "faster", "fast", "medium", "slow", "slower",
    "veryslow", "placebo"]

/-- The `value_nick` column of the table `subme_types`. -/
def subme_types : List String := ["0", "1", "2", "3", "4", "default"]

/-- The `value_nick` column of the table `sao_types`. -/
def sao_types : List String := ["off", "edge", "band", "full", "default"]

/-- A C truth value as an `int`. -/
def b2i (b : Bool) : Int := if b then 1 else 0

/-- Conversion of an `int` to `guint32`. -/
def to_guint32 (v : Int) : Nat := (v % 4294967296).toNat

/-- The function `gst_kvazaar_enc_init`; the fields it does not assign are
the zeroes of a fresh GObject instance. -/
def gst_kvazaar_enc_init {E : Type} (api : kvz_api E) : GstKvazaarEnc E :=
  { frames := []
    kvazaarenc := none
    kvazaarconfig := api.config_init
    dts_offset := 0
    push_header := true
    systeme_frame_number_offset := 0
    pending_frames := []
    bitrate := PROP_BITRATE_DEFAULT
    qp := PROP_QP_DEFAULT
    intra_period := PROP_INTRA_PERIOD_DEFAULT
    vps_period := PROP_VPS_PERIOD_DEFAULT
    no_psnr := false
    no_info := false
    preset := GST_KVAZAAR_ENC_NO_PRESET
    source_scan_type := 0
    aud_enable := false
    ref_frames := PROP_REF_FRAMES_DEFAULT
    pu_depth_intra := ""
    pu_depth_inter := ""
    rdo := GST_KVAZAAR_ENC_RDO_DEFAULT
    me := PROP_ME_DEFAULT
    deblock := "true"
    signhide := true
    subme := GST_KVAZAAER_ENC_SUBME_DEFAULT
    sao := GST_KVAZAAER_ENC_SAO_DEFAULT
    rdoq := true
    rdoq_skip := true
    trskip := false
    full_intra_search := false
    mv_rdo := false
    smp := false
    amp := false
    cu_split_termination := PROP_CU_SPLIT_TERM_DEFAULT
    me_early_termination := PROP_ME_EARLY_TERM_DEFAULT
    gop := "lp-g4d3t1"
    roi := ""
    kvz_opts := ""
    roi_width := 0
    roi_height := 0
    dqps := none
    deblock_set := false
    signhide_set := false
    rdoq_set := false
    rdoq_skip_set := false
    trskip_set := false
    full_intra_search_set := false
    mv_rdo_set := false
    smp_set := false
    amp_set := false
    gop_set := false
    roi_set := false
    input_state := none
    reconfig := false
    calls := [] }

/-! ## Frame registry -/

/-- The function `gst_kvazaar_enc_queue_frame`: `none` when the input buffer
cannot be mapped, else the new entry is prepended to `pending_frames`. -/
def gst_kvazaar_enc_queue_frame {E : Type} (env : Env E) (enc : GstKvazaarEnc E)
    (frame : GstVideoCodecFrame) (info : GstVideoInfo) : GstKvazaarEnc E × Option FrameData :=
  match env.frame_map info frame.input_buffer with
  | none => (enc, none)
  | some vframe =>
    let fdata : FrameData := { frame := frame.ptr, vframe := vframe }
    ({ enc with pending_frames := fdata :: enc.pending_frames }, some fdata)

/-- The list walk of `gst_kvazaar_enc_dequeue_frame`: the first entry whose
frame is the handle is unlinked. -/
def dequeue_link (frame : Nat) : List FrameData → List FrameData
  | [] => []
  | fdata :: l => if fdata.frame ≠ frame then fdata :: dequeue_link frame l else l

/-- The function `gst_kvazaar_enc_dequeue_frame`. -/
def gst_kvazaar_enc_dequeue_frame {E : Type} (enc : GstKvazaarEnc E) (frame : Nat) :
    GstKvazaarEnc E :=
  if (enc.pending_frames.any (fun fdata => fdata.frame = frame)) then
    { enc with
      pending_frames := dequeue_link frame enc.pending_frames
      calls := enc.calls ++ [Call.frame_unmap frame] }
  else enc

/-- The function `gst_kvazaar_enc_dequeue_all_frames`. -/
def gst_kvazaar_enc_dequeue_all_frames {E : Type} (enc : GstKvazaarEnc E) : GstKvazaarEnc E :=
  { enc with
    pending_frames := []
    calls := enc.calls ++ enc.pending_frames.map (fun fdata => Call.frame_unmap fdata.frame) }

/-- The function `gst_kvazaar_enc_close_encoder`. -/
def gst_kvazaar_enc_close_encoder {E : Type} (encoder : GstKvazaarEnc E) : GstKvazaarEnc E :=
  match encoder.kvazaarenc with
  | some _ => { encoder with kvazaarenc := none, calls := encoder.calls ++ [Call.encoder_close] }
  | none => encoder

/-! ## Option resolver -/

/-- One call `encoder->api->config_parse (encoder->kvazaarconfig, name, value)`:
the engine changes the configuration in place; the second component is the
return value. -/
def config_parse_call {E : Type} (env : Env E) (encoder : GstKvazaarEnc E) (name : String)
    (value : Option String) : GstKvazaarEnc E × Int :=
  ({ encoder with
      kvazaarconfig := (env.api.config_parse encoder.kvazaarconfig name value).1
      calls := encoder.calls ++ [Call.config_parse name value] },
    (env.api.config_parse encoder.kvazaarconfig name value).2)

/-- The `while (token != NULL)` loop of `parse_kvazaar_options` over the
tokens still to come. -/
def parse_options_loop {E : Type} (env : Env E) :
    List (List Char) → GstKvazaarEnc E → GstKvazaarEnc E × Int
  | [], encoder => (encoder, 0)
  | token :: rest, encoder =>
    if (config_parse_call env encoder (String.mk (strsep_eq token).1)
          ((strsep_eq token).2.map String.mk)).2 = 0 then
      ((config_parse_call env encoder (String.mk (strsep_eq token).1)
          ((strsep_eq token).2.map String.mk)).1, 1)
    else
      parse_options_loop env rest
        (config_parse_call env encoder (String.mk (strsep_eq token).1)
          ((strsep_eq token).2.map String.mk)).1

/-- The function `parse_kvazaar_options`: 0 on success, 1 on failure. -/
def parse_kvazaar_options {E : Type} (env : Env E) (encoder : GstKvazaarEnc E) (array : String) :
    GstKvazaarEnc E × Int :=
  parse_options_loop env (strtok array.toList [',']) encoder

/-- The function `gst_kvazaar_enc_gst_to_kvazaar_video_format`: the return
value and what is stored in `*data` (nothing for an unknown format, where the
return value is `GST_VIDEO_FORMAT_UNKNOWN`). -/
def gst_kvazaar_enc_gst_to_kvazaar_video_format (format : GstVideoFormat) : Int × Option Int :=
  match format with
  | .I420 => (KVZ_FORMAT_P420, some 3)
  | .YV12 => (KVZ_FORMAT_P420, some 3)
  | .I420_10LE => (KVZ_FORMAT_P420, some 3)
  | .I420_10BE => (KVZ_FORMAT_P420, some 3)
  | _ => (0, none)

/-- Storing a configuration in the instance. -/
def with_config {E : Type} (encoder : GstKvazaarEnc E) (cfg : kvz_config) : GstKvazaarEnc E :=
  { encoder with kvazaarconfig := cfg }

/-- First part of `gst_kvazaar_enc_init_encoder`: "set up parameters that
would not be overwritten by preset". -/
def init_encoder_base {E : Type} (encoder : GstKvazaarEnc E) (info : GstVideoInfo) :
    GstKvazaarEnc E :=
  with_config encoder
    { encoder.kvazaarconfig with
      input_format := (gst_kvazaar_enc_gst_to_kvazaar_video_format info.format).1
      framerate_num := info.fps_n
      framerate_denom := info.fps_d
      width := info.width
      height := info.height
      qp := encoder.qp
      target_bitrate := (encoder.bitrate : Int)
      intra_period := encoder.intra_period
      vps_period := encoder.vps_period
      calc_psnr := if encoder.no_psnr then 0 else 1
      add_encoder_info := if encoder.no_info then 0 else 1
      aud_enable := if encoder.aud_enable then 1 else 0 }

/-- The statement `if (c) cfg-field = value;` on the configuration of the
instance `s`; `f` is the assignment. -/
def assign_if {E : Type} (c : Prop) [Decidable c] (s : GstKvazaarEnc E)
    (f : kvz_config → kvz_config) : GstKvazaarEnc E :=
  if c then with_config s (f s.kvazaarconfig) else s

/-- The statement `if (c) encoder->api->config_parse (cfg, name, value);`,
whose return value is not looked at. -/
def parse_if {E : Type} (env : Env E) (c : Prop) [Decidable c] (s : GstKvazaarEnc E)
    (name : String) (value : Option String) : GstKvazaarEnc E :=
  if c then (config_parse_call env s name value).1 else s

/-- Second part of `gst_kvazaar_enc_init_encoder`: "parse preset configuration
only if specified". -/
def init_encoder_preset {E : Type} (env : Env E) (encoder : GstKvazaarEnc E) : GstKvazaarEnc E :=
  parse_if env (encoder.preset ≠ GST_KVAZAAR_ENC_NO_PRESET) encoder "preset"
    (some (preset_types.getD encoder.preset ""))

/-- Third part of `gst_kvazaar_enc_init_encoder`: "set parameters that must be
overwrite preset if specified", one line per `if` of the source, in source
order.  The property fields that are tested and copied are those of
`encoder`: the statements change the configuration only. -/
def init_encoder_overrides {E : Type} (env : Env E) (encoder : GstKvazaarEnc E) :
    GstKvazaarEnc E :=
  let s := assign_if (encoder.ref_frames ≠ 0) encoder
    (fun c => { c with ref_frames := encoder.ref_frames })
  let s := parse_if env (encoder.pu_depth_inter ≠ "") s "pu-depth-inter"
    (some encoder.pu_depth_inter)
  let s := parse_if env (encoder.pu_depth_intra ≠ "") s "pu-depth-intra"
    (some encoder.pu_depth_intra)
  let s := assign_if (encoder.rdo ≠ GST_KVAZAAR_ENC_RDO_DEFAULT) s
    (fun c => { c with rdo := (encoder.rdo : Int) })
  let s := assign_if (encoder.me ≠ PROP_ME_DEFAULT) s
    (fun c => { c with ime_algorithm := (encoder.me : Int) })
  let s := parse_if env (encoder.deblock_set = true) s "deblock" (some encoder.deblock)
  let s := assign_if (encoder.signhide_set = true) s
    (fun c => { c with signhide_enable := b2i encoder.signhide })
  let s := parse_if env (encoder.subme ≠ GST_KVAZAAER_ENC_SUBME_DEFAULT) s "subme"
    (some (subme_types.getD encoder.subme ""))
  let s := parse_if env (encoder.sao ≠ GST_KVAZAAER_ENC_SAO_DEFAULT) s "sao"
    (some (sao_types.getD encoder.sao ""))
  let s := assign_if (encoder.rdoq_set = true) s
    (fun c => { c with rdoq_enable := b2i encoder.rdoq })
  let s := assign_if (encoder.rdoq_skip_set = true) s
    (fun c => { c with rdoq_skip := b2i encoder.rdoq_skip })
  let s := assign_if (encoder.trskip_set = true) s
    (fun c => { c with trskip_enable := b2i encoder.trskip })
  let s := assign_if (encoder.full_intra_search_set = true) s
    (fun c => { c with full_intra_search := b2i encoder.full_intra_search })
  let s := assign_if (encoder.mv_rdo_set = true) s
    (fun c => { c with mv_rdo := b2i encoder.mv_rdo })
  let s := assign_if (encoder.smp_set = true) s
    (fun c => { c with smp_enable := b2i encoder.smp })
  let s := assign_if (encoder.amp_set = true) s
    (fun c => { c with amp_enable := b2i encoder.amp })
  let s := assign_if (encoder.cu_split_termination ≠ PROP_CU_SPLIT_TERM_DEFAULT) s
    (fun c => { c with cu_split_termination := encoder.cu_split_termination })
  let s := assign_if (encoder.me_early_termination ≠ PROP_ME_EARLY_TERM_DEFAULT) s
    (fun c => { c with me_early_termination := encoder.me_early_termination })
  parse_if env (encoder.gop_set = true) s "gop" (some encoder.gop)

/-- The `if (encoder->roi_set)` block of `gst_kvazaar_enc_init_encoder`.  The
return value of `parse_roi_array` is not looked at: after a failed parse the
instance fields `roi_width`, `roi_height` and `dqps` keep their old values and
are copied to the configuration all the same.  The `GST_DEBUG` line of the
block, which reads `encoder->dqps[0]`, is a log statement. -/
def init_encoder_roi {E : Type} (env : Env E) (encoder : GstKvazaarEnc E) :
    GstKvazaarEnc E × Outcome Unit :=
  if encoder.roi_set then
    match parse_roi_array env.roi_width0 env.roi_height0 encoder.roi.toList (-51) 51 with
    | .aborted => (encoder, .aborted)
    | .returned none =>
      (with_config encoder
        { encoder.kvazaarconfig with
          roi_width := encoder.roi_width
          roi_height := encoder.roi_height
          roi_dqps := encoder.dqps }, .returned ())
    | .returned (some r) =>
      (with_config { encoder with roi_width := r.1, roi_height := r.2.1, dqps := some r.2.2 }
        { encoder.kvazaarconfig with
          roi_width := r.1
          roi_height := r.2.1
          roi_dqps := some r.2.2 }, .returned ())
  else (encoder, .returned ())

/-- Last part of `gst_kvazaar_enc_init_encoder`: the option string (its
failure is only logged), the flags, and `encoder_open`. -/
def init_encoder_open {E : Type} (env : Env E) (encoder : GstKvazaarEnc E) :
    GstKvazaarEnc E × Outcome Bool :=
  let encoder := (parse_kvazaar_options env encoder encoder.kvz_opts).1
  let encoder := { encoder with reconfig := false, dts_offset := 0 }
  match env.api.encoder_open encoder.kvazaarconfig with
  | none =>
    ({ encoder with
        kvazaarenc := none
        calls := encoder.calls ++ [Call.encoder_open encoder.kvazaarconfig] }, .returned false)
  | some e =>
    ({ encoder with
        kvazaarenc := some e
        calls := encoder.calls ++ [Call.encoder_open encoder.kvazaarconfig]
        push_header := true }, .returned true)

/-- The function `gst_kvazaar_enc_init_encoder`. -/
def gst_kvazaar_enc_init_encoder {E : Type} (env : Env E) (encoder : GstKvazaarEnc E) :
    GstKvazaarEnc E × Outcome Bool :=
  match encoder.input_state with
  | none => (encoder, .returned false)
  | some info =>
    match init_encoder_roi env
        (init_encoder_overrides env
          (init_encoder_preset env
            (init_encoder_base (gst_kvazaar_enc_close_encoder encoder) info))) with
    | (encoder, .aborted) => (encoder, .aborted)
    | (encoder, .returned _) => init_encoder_open env encoder

/-! ## Encode-session state machine -/

/-- The base-class function `gst_video_encoder_get_frame`: the held frame
with the given system frame number, if any. -/
def gst_video_encoder_get_frame (frames : List GstVideoCodecFrame) (frame_number : Nat) :
    Option GstVideoCodecFrame :=
  frames.find? (fun f => f.system_frame_number = frame_number)

/-- The base class drops a finished frame from the list it holds. -/
def release_frame (ptr : Nat) : List GstVideoCodecFrame → List GstVideoCodecFrame
  | [] => []
  | f :: l => if f.ptr = ptr then l else f :: release_frame ptr l

/-- The library function `gst_buffer_fill (buf, offset, src, size)`: copies
as many of the bytes as fit into the buffer from `offset` on. -/
def gst_buffer_fill (buf : GstBuffer) (offset : Nat) (src : List Nat) : GstBuffer :=
  buf.take offset ++ src.take (buf.length - offset) ++ buf.drop (offset + src.length)

/-- The library function `gst_buffer_new_allocate (NULL, size, NULL)`; the
content of the new buffer is unspecified and taken as zeroes. -/
def gst_buffer_new_allocate (size : Nat) : GstBuffer := List.replicate size 0

/-- The chunk loop of `gst_kvazaar_enc_encode_frame`: for every chunk the
`g_assert (offset + chunk->len <= *len_out)` (`none` when it fails), then
`gst_buffer_fill` at `offset`, then `offset += chunk->len`.  The sum is taken
in 32 bits as in C; the sign of the `int offset` is not modelled. -/
def copy_chunks (len_out : Nat) : List kvz_data_chunk → Nat → GstBuffer → Option GstBuffer
  | [], _, out_buf => some out_buf
  | chunk :: rest, offset, out_buf =>
    if (offset + chunk.len) % 4294967296 ≤ len_out then
      copy_chunks len_out rest ((offset + chunk.len) % 4294967296)
        (gst_buffer_fill out_buf offset chunk.data)
    else none

/-- What a call of `gst_kvazaar_enc_encode_frame` leaves: the instance, the
return value (or the end of the process), `*len_out`, and four observations of
the call: the engine's output when the engine was called, the frame number
passed to `gst_video_encoder_get_frame`, the frame that lookup gave, and the
frame passed to `gst_video_encoder_finish_frame`. -/
structure EncodeFrameResult (E : Type) where
  enc : GstKvazaarEnc E
  ret : Outcome GstFlowReturn
  len_out : Nat
  engine : Option kvz_encode_out
  out_frame_num : Option Nat
  found : Option GstVideoCodecFrame
  finished : Option GstVideoCodecFrame

/-- The label `out:` of `gst_kvazaar_enc_encode_frame`: a non-NULL `frame` is
taken off the registry and handed to `gst_video_encoder_finish_frame`, whose
result replaces `ret`. -/
def encode_frame_out {E : Type} (env : Env E) (encoder : GstKvazaarEnc E)
    (frame : Option GstVideoCodecFrame) (ret : GstFlowReturn) : GstKvazaarEnc E × GstFlowReturn :=
  match frame with
  | some f =>
    ({ (gst_kvazaar_enc_dequeue_frame encoder f.ptr) with
        frames := release_frame f.ptr encoder.frames
        calls := (gst_kvazaar_enc_dequeue_frame encoder f.ptr).calls ++ [Call.finish_frame f] },
      env.finish_frame f)
  | none => (encoder, ret)

/-- The test `out_frame_num == 0 && input_frame &&
GPOINTER_TO_INT (input_frame->system_frame_number) >= intra_period`. -/
def intra_period_wrap (out_frame_num : Nat) (input_frame : Option GstVideoCodecFrame)
    (intra_period : Nat) : Bool :=
  match input_frame with
  | some f => decide (out_frame_num = 0) && decide (intra_period ≤ f.system_frame_number)
  | none => false

/-- The part of `gst_kvazaar_enc_encode_frame` after the call of
`encoder_encode`, whose output is `o`. -/
def encode_frame_output {E : Type} (env : Env E) (encoder : GstKvazaarEnc E) (o : kvz_encode_out)
    (cur_in_img : Option kvz_picture) (input_frame : Option GstVideoCodecFrame) (send : Bool) :
    EncodeFrameResult E :=
  if o.ret < 0 then
    { enc := (encode_frame_out env encoder input_frame GST_FLOW_ERROR).1
      ret := .returned (encode_frame_out env encoder input_frame GST_FLOW_ERROR).2
      len_out := o.len_out
      engine := some o
      out_frame_num := none
      found := none
      finished := input_frame }
  else if o.len_out = 0 then
    { enc := encoder, ret := .returned GST_FLOW_OK, len_out := o.len_out, engine := some o,
      out_frame_num := none, found := none, finished := none }
  else
    let poc := to_guint32 o.info_out.poc
    let intra_period := to_guint32 encoder.kvazaarconfig.intra_period
    let offset :=
      if 0 < intra_period ∧ intra_period_wrap poc input_frame intra_period = true then
        (encoder.systeme_frame_number_offset + intra_period) % 4294967296
      else encoder.systeme_frame_number_offset
    let out_frame_num := if 0 < intra_period then (poc + offset) % 4294967296 else poc
    let encoder := { encoder with
      systeme_frame_number_offset := offset
      calls := encoder.calls ++ [Call.get_frame out_frame_num] }
    match gst_video_encoder_get_frame encoder.frames out_frame_num with
    | none =>
      { enc := encoder, ret := .returned GST_FLOW_OK, len_out := o.len_out, engine := some o,
        out_frame_num := some out_frame_num, found := none, finished := none }
    | some frame =>
      if send = false then
        { enc := (encode_frame_out env encoder (some frame) GST_FLOW_OK).1
          ret := .returned (encode_frame_out env encoder (some frame) GST_FLOW_OK).2
          len_out := o.len_out
          engine := some o
          out_frame_num := some out_frame_num
          found := some frame
          finished := some frame }
      else
        match (if o.chunks_out ≠ [] then
            (copy_chunks o.len_out o.chunks_out 0 (gst_buffer_new_allocate o.len_out)).map some
          else some none) with
        | none =>
          { enc := encoder, ret := .aborted, len_out := o.len_out, engine := some o,
            out_frame_num := some out_frame_num, found := some frame, finished := none }
        | some out_buf =>
          let encoder := { encoder with
            calls := encoder.calls ++ [Call.chunk_free]
              ++ (if cur_in_img.isSome then [Call.picture_free] else []) ++ [Call.picture_free] }
          let finished := { frame with output_buffer := out_buf, dts := o.img_rec.dts }
          { enc := (encode_frame_out env encoder (some finished) GST_FLOW_OK).1
            ret := .returned (encode_frame_out env encoder (some finished) GST_FLOW_OK).2
            len_out := o.len_out
            engine := some o
            out_frame_num := some out_frame_num
            found := some frame
            finished := some finished }

/-- The call `gst_kvazaar_enc_init_encoder (encoder)` made by a thread that
holds the object lock, as `gst_kvazaar_enc_encode_frame` does: without an
input state the function returns FALSE before it touches anything; with an
input state it closes the engine and then comes to its `GST_OBJECT_LOCK
(encoder)`, where it waits for the lock its caller holds (the lock is not
recursive): the call does not return. -/
def init_encoder_locked {E : Type} (encoder : GstKvazaarEnc E) :
    GstKvazaarEnc E × Outcome Bool :=
  match encoder.input_state with
  | none => (encoder, .returned false)
  | some _ => (gst_kvazaar_enc_close_encoder encoder, .aborted)

/-- The function `gst_kvazaar_enc_encode_frame`.  With `reconfig` set
`gst_kvazaar_enc_init_encoder` is called between `GST_OBJECT_LOCK` and
`GST_OBJECT_UNLOCK` (`init_encoder_locked`); its result is not looked at.
Calling the engine with a NULL handle is outside the engine's contract and
ends the process.  On the path that returns `GST_FLOW_NOT_NEGOTIATED`
`*len_out` is not written (given as 0); the latency update of the base class
is not modelled. -/
def gst_kvazaar_enc_encode_frame {E : Type} (env : Env E) (encoder : GstKvazaarEnc E)
    (cur_in_img : Option kvz_picture) (input_frame : Option GstVideoCodecFrame) (send : Bool) :
    EncodeFrameResult E :=
  match encoder.kvazaarenc with
  | none =>
    { enc := encoder, ret := .returned GST_FLOW_NOT_NEGOTIATED, len_out := 0, engine := none,
      out_frame_num := none, found := none, finished := none }
  | some _ =>
    match (if encoder.reconfig then init_encoder_locked encoder
        else (encoder, .returned true)) with
    | (encoder, .aborted) =>
      { enc := encoder, ret := .aborted, len_out := 0, engine := none,
        out_frame_num := none, found := none, finished := none }
    | (encoder, .returned _) =>
      match encoder.kvazaarenc with
      | none =>
        { enc := encoder, ret := .aborted, len_out := 0, engine := none,
          out_frame_num := none, found := none, finished := none }
      | some e =>
        encode_frame_output env
          { encoder with
            kvazaarenc := some (env.api.encoder_encode e cur_in_img).1
            calls := encoder.calls ++ [Call.encoder_encode cur_in_img] }
          (env.api.encoder_encode e cur_in_img).2 cur_in_img input_frame send

/-- The loop of `gst_kvazaar_enc_flush_frames`, at most `fuel` rounds: `none`
when the engine still produces output after `fuel` calls. -/
def flush_loop {E : Type} (env : Env E) (send : Bool) :
    Nat → GstKvazaarEnc E → Option (GstKvazaarEnc E × Outcome Unit)
  | 0, _ => none
  | fuel + 1, encoder =>
    match (gst_kvazaar_enc_encode_frame env encoder none none send).ret with
    | .aborted => some ((gst_kvazaar_enc_encode_frame env encoder none none send).enc, .aborted)
    | .returned flow_ret =>
      if flow_ret = GST_FLOW_OK ∧ 0 < (gst_kvazaar_enc_encode_frame env encoder none none send).len_out
      then flush_loop env send fuel (gst_kvazaar_enc_encode_frame env encoder none none send).enc
      else some ((gst_kvazaar_enc_encode_frame env encoder none none send).enc, .returned ())

/-- The function `gst_kvazaar_enc_flush_frames`. -/
def gst_kvazaar_enc_flush_frames {E : Type} (env : Env E) (fuel : Nat) (encoder : GstKvazaarEnc E)
    (send : Bool) : Option (GstKvazaarEnc E × Outcome Unit) :=
  match encoder.kvazaarenc with
  | some _ => flush_loop env send fuel encoder
  | none => some (encoder, .returned ())

/-- The function `gst_kvazaar_enc_handle_frame` (Submit).  Reading the video
info of a NULL `input_state` ends the process. -/
def gst_kvazaar_enc_handle_frame {E : Type} (env : Env E) (encoder : GstKvazaarEnc E)
    (frame : GstVideoCodecFrame) : GstKvazaarEnc E × Outcome GstFlowReturn :=
  match encoder.input_state with
  | none => (encoder, .aborted)
  | some info =>
    if (gst_kvazaar_enc_gst_to_kvazaar_video_format info.format).2 ≠ some 3 then
      (encoder, .returned GST_FLOW_ERROR)
    else
      match encoder.kvazaarenc with
      | none => (encoder, .returned GST_FLOW_NOT_NEGOTIATED)
      | some _ =>
        match gst_kvazaar_enc_queue_frame env encoder frame info with
        | (encoder, none) => (encoder, .returned GST_FLOW_ERROR)
        | (encoder, some fdata) =>
          ((gst_kvazaar_enc_encode_frame env encoder
              (some { y := fdata.vframe.plane0, u := fdata.vframe.plane1, v := fdata.vframe.plane2,
                      stride := fdata.vframe.stride, pts := frame.pts, dts := frame.dts,
                      width := info.width, height := info.height,
                      interlacing := info.interlace_mode })
              (some frame) true).enc,
            (gst_kvazaar_enc_encode_frame env encoder
              (some { y := fdata.vframe.plane0, u := fdata.vframe.plane1, v := fdata.vframe.plane2,
                      stride := fdata.vframe.stride, pts := frame.pts, dts := frame.dts,
                      width := info.width, height := info.height,
                      interlacing := info.interlace_mode })
              (some frame) true).ret)

/-- The base class takes a new input frame into the list it holds and calls
the `handle_frame` method with it. -/
def submit {E : Type} (env : Env E) (encoder : GstKvazaarEnc E) (frame : GstVideoCodecFrame) :
    GstKvazaarEnc E × Outcome GstFlowReturn :=
  gst_kvazaar_enc_handle_frame env { encoder with frames := encoder.frames ++ [frame] } frame

/-- The function `gst_kvazaar_enc_finish`: two flushes with `send = TRUE`. -/
def gst_kvazaar_enc_finish {E : Type} (env : Env E) (fuel : Nat) (encoder : GstKvazaarEnc E) :
    Option (GstKvazaarEnc E × Outcome GstFlowReturn) :=
  match gst_kvazaar_enc_flush_frames env fuel encoder true with
  | none => none
  | some (encoder, .aborted) => some (encoder, .aborted)
  | some (encoder, .returned _) =>
    match gst_kvazaar_enc_flush_frames env fuel encoder true with
    | none => none
    | some (encoder, .aborted) => some (encoder, .aborted)
    | some (encoder, .returned _) => some (encoder, .returned GST_FLOW_OK)

/-- The function `gst_kvazaar_enc_stop`. -/
def gst_kvazaar_enc_stop {E : Type} (env : Env E) (fuel : Nat) (encoder : GstKvazaarEnc E) :
    Option (GstKvazaarEnc E × Outcome Bool) :=
  match gst_kvazaar_enc_flush_frames env fuel encoder false with
  | none => none
  | some (encoder, .aborted) => some (encoder, .aborted)
  | some (encoder, .returned _) =>
    some ({ (gst_kvazaar_enc_dequeue_all_frames (gst_kvazaar_enc_close_encoder encoder)) with
            input_state := none }, .returned true)

/-- The function `gst_kvazaar_enc_flush`. -/
def gst_kvazaar_enc_flush {E : Type} (env : Env E) (fuel : Nat) (encoder : GstKvazaarEnc E) :
    Option (GstKvazaarEnc E × Outcome Bool) :=
  match gst_kvazaar_enc_flush_frames env fuel encoder false with
  | none => none
  | some (encoder, .aborted) => some (encoder, .aborted)
  | some (encoder, .returned _) =>
    match gst_kvazaar_enc_init_encoder env
        (gst_kvazaar_enc_dequeue_all_frames (gst_kvazaar_enc_close_encoder encoder)) with
    | (encoder, .aborted) => some (encoder, .aborted)
    | (encoder, .returned _) => some (encoder, .returned true)

/-- The function `gst_kvazaar_enc_set_level_tier_and_profile` for the open
engine `e`: the VPS is cut out of the headers by the access-unit extractor and
its bytes from offset 6 on (with the 32-bit length `len - 6`) are given to the
caps helper; the header chunks are then given back with `chunk_free`.  When
`encoder_headers` fails the function returns before that. -/
def gst_kvazaar_enc_set_level_tier_and_profile {E : Type} (env : Env E)
    (encoder : GstKvazaarEnc E) (e : E) : GstKvazaarEnc E × Bool :=
  if (env.api.encoder_headers e).1 < 0 then (encoder, false)
  else
    ({ encoder with calls := encoder.calls ++ [Call.chunk_free] },
      env.caps_set_level_tier_and_profile
        ((gst_kvazaar_enc_bytestream_to_nal env.chunk_uninit (env.api.encoder_headers e).2.1).data.drop 6)
        (((gst_kvazaar_enc_bytestream_to_nal env.chunk_uninit (env.api.encoder_headers e).2.1).len
          + 4294967296 - 6) % 4294967296))

/-- The comparison of the new video info with the old one in
`gst_kvazaar_enc_set_format`. -/
def same_format (info old : GstVideoInfo) : Bool :=
  decide (info.format = old.format) && decide (info.width = old.width)
    && decide (info.height = old.height) && decide (info.fps_n = old.fps_n)
    && decide (info.fps_d = old.fps_d) && decide (info.par_n = old.par_n)
    && decide (info.par_d = old.par_d)

/-- The `if (encoder->kvazaarenc)` block of `gst_kvazaar_enc_set_format`:
`returned true` is its `return TRUE` (same format, only the input state is
replaced), `returned false` means that the function goes on.  The old input
state of an open engine is read; a NULL one ends the process. -/
def set_format_initialized {E : Type} (env : Env E) (fuel : Nat) (encoder : GstKvazaarEnc E)
    (info : GstVideoInfo) : Option (GstKvazaarEnc E × Outcome Bool) :=
  match encoder.kvazaarenc with
  | none => some (encoder, .returned false)
  | some _ =>
    match encoder.input_state with
    | none => some (encoder, .aborted)
    | some old =>
      if same_format info old = true then
        some ({ encoder with input_state := some info }, .returned true)
      else
        match gst_kvazaar_enc_flush_frames env fuel encoder true with
        | none => none
        | some (encoder, .aborted) => some (encoder, .aborted)
        | some (encoder, .returned _) => some (encoder, .returned false)

/-- The function `gst_kvazaar_enc_set_format` (Open) for the new input state
`info`. -/
def gst_kvazaar_enc_set_format {E : Type} (env : Env E) (fuel : Nat) (encoder : GstKvazaarEnc E)
    (info : GstVideoInfo) : Option (GstKvazaarEnc E × Outcome Bool) :=
  match set_format_initialized env fuel encoder info with
  | none => none
  | some (encoder, .aborted) => some (encoder, .aborted)
  | some (encoder, .returned true) => some (encoder, .returned true)
  | some (encoder, .returned false) =>
    match gst_kvazaar_enc_init_encoder env { encoder with input_state := some info } with
    | (encoder, .aborted) => some (encoder, .aborted)
    | (encoder, .returned false) => some (encoder, .returned false)
    | (encoder, .returned true) =>
      match encoder.kvazaarenc with
      | none => some (encoder, .returned false)
      | some e =>
        match gst_kvazaar_enc_set_level_tier_and_profile env encoder e with
        | (encoder, true) => some (encoder, .returned true)
        | (encoder, false) => some (gst_kvazaar_enc_close_encoder encoder, .returned false)

/-- The value a property is set to, one constructor per case of the `switch`
of `gst_kvazaar_enc_set_property`. -/
inductive PropValue where
  | bitrate (v : Nat)
  | qp (v : Int)
  | intra_period (v : Int)
  | vps_period (v : Int)
  | no_psnr (v : Bool)
  | no_info (v : Bool)
  | preset (v : Nat)
  | source_scan_type (v : Nat)
  | aud (v : Bool)
  | ref_frames (v : Int)
  | pu_depth_inter (v : String)
  | pu_depth_intra (v : String)
  | rdo (v : Nat)
  | me (v : Nat)
  | deblock (v : String)
  | signhide (v : Bool)
  | subme (v : Nat)
  | sao (v : Nat)
  | rdoq (v : Bool)
  | rdoq_skip (v : Bool)
  | trskip (v : Bool)
  | full_intra_search (v : Bool)
  | mv_rdo (v : Bool)
  | smp (v : Bool)
  | amp (v : Bool)
  | cu_split_term (v : Int)
  | me_early_term (v : Int)
  | gop (v : String)
  | roi (v : String)
  | kvz_opts (v : String)
deriving DecidableEq

/-- Whether the property was installed with `GST_PARAM_MUTABLE_PLAYING`. -/
def PropValue.mutable_playing : PropValue → Bool
  | .bitrate _ => true
  | _ => false

/-- The `switch` of `gst_kvazaar_enc_set_property`. -/
def set_property_field {E : Type} (encoder : GstKvazaarEnc E) : PropValue → GstKvazaarEnc E
  | .bitrate v => { encoder with bitrate := v }
  | .qp v => { encoder with qp := v }
  | .intra_period v => { encoder with intra_period := v }
  | .vps_period v => { encoder with vps_period := v }
  | .no_psnr v => { encoder with no_psnr := v }
  | .no_info v => { encoder with no_info := v }
  | .preset v => { encoder with preset := v }
  | .source_scan_type v => { encoder with source_scan_type := v }
  | .aud v => { encoder with aud_enable := v }
  | .ref_frames v => { encoder with ref_frames := v }
  | .pu_depth_inter v => { encoder with pu_depth_inter := v }
  | .pu_depth_intra v => { encoder with pu_depth_intra := v }
  | .rdo v => { encoder with rdo := v }
  | .me v => { encoder with me := v }
  | .deblock v => { encoder with deblock := v, deblock_set := true }
  | .signhide v => { encoder with signhide := v, signhide_set := true }
  | .subme v => { encoder with subme := v }
  | .sao v => { encoder with sao := v }
  | .rdoq v => { encoder with rdoq := v, rdoq_set := true }
  | .rdoq_skip v => { encoder with rdoq_skip := v, rdoq_skip_set := true }
  | .trskip v => { encoder with trskip := v, trskip_set := true }
  | .full_intra_search v => { encoder with full_intra_search := v, full_intra_search_set := true }
  | .mv_rdo v => { encoder with mv_rdo := v, mv_rdo_set := true }
  | .smp v => { encoder with smp := v, smp_set := true }
  | .amp v => { encoder with amp := v, amp_set := true }
  | .cu_split_term v => { encoder with cu_split_termination := v }
  | .me_early_term v => { encoder with me_early_termination := v }
  | .gop v => { encoder with gop := v, gop_set := true }
  | .roi v => { encoder with roi := v, roi_set := true }
  | .kvz_opts v => { encoder with kvz_opts := v }

/-- The function `gst_kvazaar_enc_reconfig`. -/
def gst_kvazaar_enc_reconfig {E : Type} (encoder : GstKvazaarEnc E) : GstKvazaarEnc E :=
  { encoder with
    kvazaarconfig := { encoder.kvazaarconfig with target_bitrate := (encoder.bitrate : Int) }
    reconfig := true }

/-- The function `gst_kvazaar_enc_set_property`.  `ready_or_null` says that
the element state is `GST_STATE_READY` or `GST_STATE_NULL`; in another state
only a property that is mutable while playing is taken. -/
def gst_kvazaar_enc_set_property {E : Type} (encoder : GstKvazaarEnc E) (ready_or_null : Bool)
    (value : PropValue) : GstKvazaarEnc E :=
  if ready_or_null = false ∧ value.mutable_playing = false then encoder
  else gst_kvazaar_enc_reconfig (set_property_field encoder value)

/-- The operations that drive a session. -/
inductive Op where
  | set_property (ready_or_null : Bool) (value : PropValue)
  | set_format (info : GstVideoInfo)
  | handle_frame (frame : GstVideoCodecFrame)
  | finish
  | flush
  | stop
deriving DecidableEq

/-- One operation on the instance: `none` when a flush does not come to an
end within `fuel` engine calls or the process is ended. -/
def step {E : Type} (env : Env E) (fuel : Nat) (encoder : GstKvazaarEnc E) :
    Op → Option (GstKvazaarEnc E)
  | .set_property r v => some (gst_kvazaar_enc_set_property encoder r v)
  | .set_format info =>
    match gst_kvazaar_enc_set_format env fuel encoder info with
    | some (encoder, .returned _) => some encoder
    | _ => none
  | .handle_frame frame =>
    match submit env encoder frame with
    | (encoder, .returned _) => some encoder
    | _ => none
  | .finish =>
    match gst_kvazaar_enc_finish env fuel encoder with
    | some (encoder, .returned _) => some encoder
    | _ => none
  | .flush =>
    match gst_kvazaar_enc_flush env fuel encoder with
    | some (encoder, .returned _) => some encoder
    | _ => none
  | .stop =>
    match gst_kvazaar_enc_stop env fuel encoder with
    | some (encoder, .returned _) => some encoder
    | _ => none

/-- A sequence of operations, from the left. -/
def run {E : Type} (env : Env E) (fuel : Nat) : GstKvazaarEnc E → List Op → Option (GstKvazaarEnc E)
  | encoder, [] => some encoder
  | encoder, op :: ops =>
    match step env fuel encoder op with
    | some encoder => run env fuel encoder ops
    | none => none

/-- The frame numbers passed to `gst_video_encoder_get_frame`, in call order. -/
def lookups : List Call → List Nat
  | [] => []
  | Call.get_frame n :: l => n :: lookups l
  | _ :: l => lookups l

/-! ## A reference engine

The frame-number offset is specified against an engine that returns the
pictures in submission order and reports the order count `n mod P` for the
picture of submission number `n`.  `PocEngine` is that engine, with a fixed
output latency. -/

/-- Instance state of the reference engine: the intra period it was opened
with, its output latency in pictures, the number of pictures submitted and the
number of pictures returned so far. -/
structure PocEngine where
  intra_period : Int
  latency : Nat
  submitted : Nat
  emitted : Nat
deriving DecidableEq

/-- The order count the reference engine reports for the picture of
submission number `n`: `n mod P`, and `n` itself without an intra period. -/
def poc_of (intra_period : Int) (n : Nat) : Int :=
  if 0 < intra_period then (n : Int) % intra_period else (n : Int)

/-- The picture the reference engine returns as reconstruction of picture
`n`. -/
def poc_picture (n : Nat) : kvz_picture :=
  { y := 0, u := 0, v := 0, stride := 0, pts := (n : Int), dts := (n : Int), width := 0,
    height := 0, interlacing := 0 }

/-- One `encoder_encode` call of the reference engine: with an input picture
it returns the oldest picture not yet returned once more than `latency`
pictures are waiting; with a NULL input it returns the oldest waiting picture
if there is one.  A returned picture is one chunk of one byte. -/
def PocEngine.encode (e : PocEngine) (input : Option kvz_picture) : PocEngine × kvz_encode_out :=
  match input with
  | some _ =>
    if e.emitted + e.latency < e.submitted + 1 then
      ({ e with submitted := e.submitted + 1, emitted := e.emitted + 1 },
        { ret := 0, chunks_out := [⟨[e.emitted % 256]⟩], len_out := 1,
          img_rec := poc_picture e.emitted,
          info_out := { poc := poc_of e.intra_period e.emitted, qp := 0 } })
    else
      ({ e with submitted := e.submitted + 1 },
        { ret := 0, chunks_out := [], len_out := 0, img_rec := poc_picture 0,
          info_out := { poc := 0, qp := 0 } })
  | none =>
    if e.emitted < e.submitted then
      ({ e with emitted := e.emitted + 1 },
        { ret := 0, chunks_out := [⟨[e.emitted % 256]⟩], len_out := 1,
          img_rec := poc_picture e.emitted,
          info_out := { poc := poc_of e.intra_period e.emitted, qp := 0 } })
    else
      (e, { ret := 0, chunks_out := [], len_out := 0, img_rec := poc_picture 0,
            info_out := { poc := 0, qp := 0 } })

/-- A configuration with every field zero. -/
def zero_config : kvz_config :=
  { input_format := 0, framerate_num := 0, framerate_denom := 0, width := 0, height := 0, qp := 0,
    target_bitrate := 0, intra_period := 0, vps_period := 0, calc_psnr := 0,
    add_encoder_info := 0, aud_enable := 0, ref_frames := 0, rdo := 0, ime_algorithm := 0,
    signhide_enable := 0, rdoq_enable := 0, rdoq_skip := 0, trskip_enable := 0,
    full_intra_search := 0, mv_rdo := 0, smp_enable := 0, amp_enable := 0,
    cu_split_termination := 0, me_early_termination := 0, roi_width := 0, roi_height := 0,
    roi_dqps := none }

/-- The reference engine as a `kvz_api`: every option is accepted and changes
nothing, `encoder_open` always succeeds, the headers are one VPS. -/
def poc_api (latency : Nat) : kvz_api PocEngine :=
  { config_init := zero_config
    config_parse := fun cfg _ _ => (cfg, 1)
    encoder_open := fun cfg =>
      some { intra_period := cfg.intra_period, latency := latency, submitted := 0, emitted := 0 }
    encoder_encode := PocEngine.encode
    encoder_headers := fun _ => (0, ⟨[0, 0, 0, 1, 0x40, 1, 0x0c, 1, 0xff, 0xff, 0, 0, 0, 1]⟩, 14) }

/-- The surroundings of the reference engine: every buffer can be mapped, the
caps helper accepts, `finish_frame` is the downstream result. -/
def poc_env (latency : Nat) (finish_frame : GstVideoCodecFrame → GstFlowReturn) : Env PocEngine :=
  { api := poc_api latency
    finish_frame := finish_frame
    frame_map := fun _ _ => some { plane0 := 0, plane1 := 0, plane2 := 0, stride := 0 }
    caps_set_level_tier_and_profile := fun _ _ => true
    chunk_uninit := fun _ => 0
    roi_width0 := 0
    roi_height0 := 0 }

/-- The input frame of submission number `n`. -/
def input_frame (n : Nat) : GstVideoCodecFrame :=
  { ptr := n, system_frame_number := n, pts := (n : Int), dts := (n : Int), input_buffer := [],
    output_buffer := none }

/-- A video info in a supported format. -/
def video_info : GstVideoInfo :=
  { format := .I420, width := 64, height := 64, fps_n := 25, fps_d := 1, par_n := 1, par_d := 1,
    interlace_mode := 0 }

/-- The frames passed to `gst_video_encoder_finish_frame`, in call order. -/
def finished_frames : List Call → List GstVideoCodecFrame
  | [] => []
  | Call.finish_frame f :: l => f :: finished_frames l
  | _ :: l => finished_frames l

/-- The bytes of a chunk list, concatenated in list order. -/
def concat_chunks : List kvz_data_chunk → List Nat
  | [] => []
  | chunk :: rest => chunk.data ++ concat_chunks rest

/-- The sum of the lengths of the chunks of a list. -/
def chunks_len : List kvz_data_chunk → Nat
  | [] => 0
  | chunk :: rest => chunk.len + chunks_len rest

/-! ## A scripted engine

An engine whose instance is the list of outputs it still has to give: every
`encoder_encode` call hands out the next one.  It serves to put the element
in front of a particular engine behaviour. -/

/-- The output of an engine call that produces nothing. -/
def no_output : kvz_encode_out :=
  { ret := 0, chunks_out := [], len_out := 0, img_rec := poc_picture 0,
    info_out := { poc := 0, qp := 0 } }

/-- The scripted engine: `encoder_open` starts the script, `config_parse` is
the given option parser. -/
def script_api (script : List kvz_encode_out)
    (config_parse : kvz_config → String → Option String → kvz_config × Int) :
    kvz_api (List kvz_encode_out) :=
  { config_init := zero_config
    config_parse := config_parse
    encoder_open := fun _ => some script
    encoder_encode := fun e _ =>
      match e with
      | [] => ([], no_output)
      | o :: rest => (rest, o)
    encoder_headers := fun _ => (0, ⟨[0, 0, 0, 1, 0x40, 1, 0x0c, 1, 0xff, 0xff, 0, 0, 0, 1]⟩, 14) }

/-- The surroundings of the scripted engine: every buffer can be mapped, the
caps helper accepts, downstream answers `GST_FLOW_OK`. -/
def script_env (script : List kvz_encode_out)
    (config_parse : kvz_config → String → Option String → kvz_config × Int) :
    Env (List kvz_encode_out) :=
  { api := script_api script config_parse
    finish_frame := fun _ => GST_FLOW_OK
    frame_map := fun _ _ => some { plane0 := 0, plane1 := 0, plane2 := 0, stride := 0 }
    caps_set_level_tier_and_profile := fun _ _ => true
    chunk_uninit := fun _ => 0
    roi_width0 := 0
    roi_height0 := 0 }

/-- An option parser that accepts every option and changes nothing. -/
def accept_all : kvz_config → String → Option String → kvz_config × Int :=
  fun cfg _ _ => (cfg, 1)

/-- An engine output whose chunk list has 1 byte while 2 are reported. -/
def short_output : kvz_encode_out :=
  { ret := 0, chunks_out := [⟨[7]⟩], len_out := 2, img_rec := poc_picture 0,
    info_out := { poc := 0, qp := 0 } }

/-- An engine output whose two chunks sum to the 3 bytes reported. -/
def exact_output : kvz_encode_out :=
  { ret := 0, chunks_out := [⟨[7]⟩, ⟨[8, 9]⟩], len_out := 3, img_rec := poc_picture 0,
    info_out := { poc := 0, qp := 0 } }

/-- An engine output whose chunk list has 3 bytes while 2 are reported. -/
def long_output : kvz_encode_out :=
  { ret := 0, chunks_out := [⟨[7, 8, 9]⟩], len_out := 2, img_rec := poc_picture 0,
    info_out := { poc := 0, qp := 0 } }

/-- An open session on the scripted engine that holds the one submitted frame
`input_frame 0`, as `gst_kvazaar_enc_handle_frame` leaves it before the
drain. -/
def holding_session (script : List kvz_encode_out) : GstKvazaarEnc (List kvz_encode_out) :=
  { gst_kvazaar_enc_init (script_api script accept_all) with
    kvazaarenc := some script
    input_state := some video_info
    frames := [input_frame 0]
    pending_frames := [{ frame := 0, vframe := { plane0 := 0, plane1 := 0, plane2 := 0, stride := 0 } }] }

/-- A restarted session on the reference engine with latency 1: intra period
1, two frames, stop; then intra period 0, a new format and one frame, which the
engine still holds. -/
def restart_ops : List Op :=
  [Op.set_property true (PropValue.intra_period 1), Op.set_format video_info,
    Op.handle_frame (input_frame 0), Op.handle_frame (input_frame 1), Op.stop,
    Op.set_property true (PropValue.intra_period 0), Op.set_format video_info,
    Op.handle_frame (input_frame 0)]

/-- What is observed of a drain: the frame number looked up, the engine's
return code, output length and order count, and the offset and the configured
intra period after the call. -/
def drain_view {E : Type} (r : EncodeFrameResult E) :
    Option Nat × Option (Int × Nat × Int) × Nat × Int :=
  (r.out_frame_num, r.engine.map (fun o => (o.ret, o.len_out, o.info_out.poc)),
    r.enc.systeme_frame_number_offset, r.enc.kvazaarconfig.intra_period)

/-- Opening a session with intra period `P` and submitting the frames
numbered `0 .. k-1`. -/
def submit_ops (P k : Nat) : List Op :=
  [Op.set_property true (PropValue.intra_period (P : Int)), Op.set_format video_info]
    ++ (List.range k).map (fun n => Op.handle_frame (input_frame n))

/-- The state of a session on the reference engine without latency after `k`
submissions: the engine has taken and returned `k` pictures, no
reconfiguration is pending, the intra period is `P`, and the offset is 0 up to
the submission numbered `P` and `P` after it. -/
def ZeroLatencyInv (P k : Nat) (s : GstKvazaarEnc PocEngine) : Prop :=
  s.kvazaarenc = some { intra_period := (P : Int), latency := 0, submitted := k, emitted := k }
    ∧ s.reconfig = false
    ∧ s.input_state = some video_info
    ∧ s.kvazaarconfig.intra_period = (P : Int)
    ∧ s.systeme_frame_number_offset = if k ≤ P then 0 else P

/-- The configurations passed to `encoder_open`, in call order. -/
def opened_configs : List Call → List kvz_config
  | [] => []
  | Call.encoder_open cfg :: l => cfg :: opened_configs l
  | _ :: l => opened_configs l

/-- An option parser whose option `preset` sets the QP to 20; every other
option is accepted and changes nothing. -/
def preset_sets_qp20 : kvz_config → String → Option String → kvz_config × Int :=
  fun cfg name _ => if name = "preset" then ({ cfg with qp := 20 }, 1) else (cfg, 1)

/-- An option parser that rejects the option `bad` and accepts every other
option, changing nothing. -/
def rejects_bad : kvz_config → String → Option String → kvz_config × Int :=
  fun cfg name _ => if name = "bad" then (cfg, 0) else (cfg, 1)

/-- An option parser whose option `gop` also writes the number of reference
frames (the value 99); every other option is accepted and changes nothing. -/
def gop_sets_ref_frames : kvz_config → String → Option String → kvz_config × Int :=
  fun cfg name _ => if name = "gop" then ({ cfg with ref_frames := 99 }, 1) else (cfg, 1)

/-- The configuration fields that `gst_kvazaar_enc_init_encoder` overrides by
a direct assignment. -/
def direct_fields (c : kvz_config) : List Int :=
  [c.ref_frames, c.rdo, c.ime_algorithm, c.signhide_enable, c.rdoq_enable, c.rdoq_skip,
    c.trskip_enable, c.full_intra_search, c.mv_rdo, c.smp_enable, c.amp_enable,
    c.cu_split_termination, c.me_early_termination]

/-- The options `gst_kvazaar_enc_init_encoder` passes to `config_parse` among
its direct assignments for the instance `s`: those of `pu-depth-inter`,
`pu-depth-intra`, `deblock`, `subme`, `sao` and `gop` whose guard holds. -/
def parsed_override_keys {E : Type} (s : GstKvazaarEnc E) : List String :=
  (if s.pu_depth_inter ≠ "" then ["pu-depth-inter"] else [])
    ++ (if s.pu_depth_intra ≠ "" then ["pu-depth-intra"] else [])
    ++ (if s.deblock_set = true then ["deblock"] else [])
    ++ (if s.subme ≠ GST_KVAZAAER_ENC_SUBME_DEFAULT then ["subme"] else [])
    ++ (if s.sao ≠ GST_KVAZAAER_ENC_SAO_DEFAULT then ["sao"] else [])
    ++ (if s.gop_set = true then ["gop"] else [])

/-- The engine's parser, given one of the options `keys`, leaves the directly
assigned fields as they are (such an option has fields of its own). -/
def KeepsDirectFields {E : Type} (api : kvz_api E) (keys : List String) : Prop :=
  ∀ cfg name value, name ∈ keys →
    direct_fields (api.config_parse cfg name value).1 = direct_fields cfg

/-- The effect of `parse_if` on the configuration. -/
def parse_cfg {E : Type} (env : Env E) (c : Prop) [Decidable c] (name : String)
    (value : Option String) (cfg : kvz_config) : kvz_config :=
  if c then (env.api.config_parse cfg name value).1 else cfg

/-- A fresh instance on the scripted engine (no output scripted) with the
given option parser, after the given properties were set in the NULL state and
an input state arrived. -/
def configured_session (config_parse : kvz_config → String → Option String → kvz_config × Int)
    (props : List PropValue) : GstKvazaarEnc (List kvz_encode_out) :=
  { props.foldl (fun s v => gst_kvazaar_enc_set_property s true v)
      (gst_kvazaar_enc_init (script_api [] config_parse)) with
    input_state := some video_info }

/-- Two instances that differ at most in the fields
`gst_kvazaar_enc_init_encoder` writes: the engine handle, the configuration,
`dts_offset`, `push_header`, the parsed ROI, `reconfig`, and the ghost record
of calls. -/
def InitKept {E : Type} (s t : GstKvazaarEnc E) : Prop :=
  ∃ enc cfg dts ph rw rh dq rc calls,
    t = { s with
          kvazaarenc := enc, kvazaarconfig := cfg, dts_offset := dts, push_header := ph,
          roi_width := rw, roi_height := rh, dqps := dq, reconfig := rc, calls := calls }

/-! ## Observations of Submit and stop, ROI descriptors -/

/-- The call of `gst_kvazaar_enc_encode_frame` that
`gst_kvazaar_enc_handle_frame` ends in, with its observations; `none` when
`gst_kvazaar_enc_handle_frame` returns before it. -/
def handle_frame_drain {E : Type} (env : Env E) (encoder : GstKvazaarEnc E)
    (frame : GstVideoCodecFrame) : Option (EncodeFrameResult E) :=
  match encoder.input_state with
  | none => none
  | some info =>
    if (gst_kvazaar_enc_gst_to_kvazaar_video_format info.format).2 ≠ some 3 then none
    else
      match encoder.kvazaarenc with
      | none => none
      | some _ =>
        match gst_kvazaar_enc_queue_frame env encoder frame info with
        | (_, none) => none
        | (encoder, some fdata) =>
          some (gst_kvazaar_enc_encode_frame env encoder
            (some { y := fdata.vframe.plane0, u := fdata.vframe.plane1, v := fdata.vframe.plane2,
                    stride := fdata.vframe.stride, pts := frame.pts, dts := frame.dts,
                    width := info.width, height := info.height,
                    interlacing := info.interlace_mode })
            (some frame) true)

/-- The frames whose registry entry was released (`gst_video_frame_unmap` and
`g_slice_free`), in call order. -/
def unmapped : List Call → List Nat
  | [] => []
  | Call.frame_unmap f :: l => f :: unmapped l
  | _ :: l => unmapped l

/-- The kinds of engine calls: open, close, encode with a picture, encode
with the NULL picture of a flush. -/
inductive EngineCall where
  | opened
  | closed
  | picture
  | drain
deriving DecidableEq

/-- The engine calls of a record of calls, in call order. -/
def engine_calls : List Call → List EngineCall
  | [] => []
  | Call.encoder_open _ :: l => EngineCall.opened :: engine_calls l
  | Call.encoder_close :: l => EngineCall.closed :: engine_calls l
  | Call.encoder_encode (some _) :: l => EngineCall.picture :: engine_calls l
  | Call.encoder_encode none :: l => EngineCall.drain :: engine_calls l
  | _ :: l => engine_calls l

/-- The session a sequence of operations on a fresh instance leads to (the
fresh instance when the sequence does not come to an end). -/
def session_after {E : Type} (env : Env E) (fuel : Nat) (ops : List Op) : GstKvazaarEnc E :=
  (run env fuel (gst_kvazaar_enc_init env.api) ops).getD (gst_kvazaar_enc_init env.api)

/-- An engine output that reports the failure code -1. -/
def failing_output : kvz_encode_out :=
  { ret := -1, chunks_out := [], len_out := 0, img_rec := poc_picture 0,
    info_out := { poc := 0, qp := 0 } }

/-- An engine output of 3 bytes with the order count 5. -/
def stray_output : kvz_encode_out :=
  { ret := 0, chunks_out := [⟨[7]⟩, ⟨[8, 9]⟩], len_out := 3, img_rec := poc_picture 5,
    info_out := { poc := 5, qp := 0 } }

/-- The decimal notation of an integer: a minus sign for a negative one, then
the digits without leading zeroes. -/
def decimal (v : Int) : List Char :=
  if v < 0 then '-' :: Nat.toDigits 10 v.natAbs else Nat.toDigits 10 v.toNat

/-- The text of tokens that each follow one separator character. -/
def join_tokens : List Char → List (List Char) → List Char
  | c :: seps, t :: ts => c :: (t ++ join_tokens seps ts)
  | _, _ => []

/-- A ROI descriptor: the decimal tokens of the width, the height and the
delta values, with the separator characters `seps` between them in order. -/
def roi_text (w h : Int) (d : List Int) (seps : List Char) : List Char :=
  decimal w ++ join_tokens seps (decimal h :: d.map decimal)

/-- The delimiters of `parse_roi_array`. -/
def roi_delimiters : List Char := [',', ';', ':', ' ']

/-- The frames released so far, followed by the frames still in the
registry. -/
def registry_account {E : Type} (s : GstKvazaarEnc E) : List Nat :=
  unmapped s.calls ++ s.pending_frames.map (fun fdata => fdata.frame)

/-- The number of `0x03` bytes of `l` that are reached with the zero-run
counter exactly 2 (counter `z` at the start). -/
def countEmulation (z : Nat) : List Nat → Nat
  | [] => 0
  | b :: l =>
    if b = 0 then countEmulation (z + 1) l
    else if b = 3 ∧ z = 2 then countEmulation 0 l + 1
    else countEmulation 0 l

/-- The emulation prevention as HEVC words it: a `0x03` is inserted after
each two consecutive zero bytes of the escaped stream that are followed by a
byte `≤ 0x03`.  `z` is the number of zero bytes the escaped stream ends in so
far. -/
def escape (z : Nat) : List Nat → List Nat
  | [] => []
  | b :: p =>
    if z = 2 ∧ b ≤ 3 then 3 :: b :: escape (if b = 0 then 1 else 0) p
    else b :: escape (if b = 0 then z + 1 else 0) p

/-- The variables of the loop of `gst_kvazaar_enc_bytestream_to_nal`: the read
index `i`, the write index `j`, the zero-run counter, `output->len` and the
content of `output->data`. -/
structure NalState where
  i : Int
  j : Int
  zeros : Nat
  len : Nat
  out : Int → Nat

/-- The loop of `gst_kvazaar_enc_bytestream_to_nal` as `nal_loop` has it,
together with the states in which the loop condition `i < input->len` is
tested: the state at the head of every iteration, and the state in which the
condition fails when the loop is not left by `break`. -/
def nal_trace : List Nat → NalState → List NalState × ((Int → Nat) × Nat)
  | [], st => ([st], (st.out, st.len))
  | b :: rest, st =>
    if b = 0x00 then
      (st :: (nal_trace rest
          { i := st.i + 1, j := st.j + 1, zeros := st.zeros + 1, len := st.len,
            out := Function.update st.out st.j b }).1,
        (nal_trace rest
          { i := st.i + 1, j := st.j + 1, zeros := st.zeros + 1, len := st.len,
            out := Function.update st.out st.j b }).2)
    else if b = 0x03 ∧ st.zeros = 2 then
      (st :: (nal_trace rest
          { i := st.i + 1, j := st.j, zeros := 0,
            len := (st.len + 4294967296 - 1) % 4294967296, out := st.out }).1,
        (nal_trace rest
          { i := st.i + 1, j := st.j, zeros := 0,
            len := (st.len + 4294967296 - 1) % 4294967296, out := st.out }).2)
    else if b = 0x01 ∧ st.zeros = 3 then
      ([st], (st.out, ((st.j - 3) % 4294967296).toNat))
    else
      (st :: (nal_trace rest
          { i := st.i + 1, j := st.j + 1, zeros := 0, len := st.len,
            out := Function.update st.out st.j b }).1,
        (nal_trace rest
          { i := st.i + 1, j := st.j + 1, zeros := 0, len := st.len,
            out := Function.update st.out st.j b }).2)

/-- The invariant of the loop for a chunk of length `n`: the counter is at
most the write index, the write index is at most `i - 4`, the read index is
at most `n`, `output->len` is `n - i + j`, and the last `zeros` bytes written
are zero. -/
def NalInv (n : Nat) (st : NalState) : Prop :=
  (st.zeros : Int) ≤ st.j ∧ st.j ≤ st.i - 4 ∧ st.i ≤ (n : Int)
    ∧ (st.len : Int) = (n : Int) - st.i + st.j
    ∧ ∀ k : Int, st.j - (st.zeros : Int) ≤ k → k < st.j → st.out k = 0

/-- The name and the value `parse_kvazaar_options` takes from a token: the
result of `strsep (&value, "=")` on a copy of the token. -/
def option_pair (token : List Char) : String × Option String :=
  (String.mk (strsep_eq token).1, (strsep_eq token).2.map String.mk)

/-- The pairs of an option string, in the order of its `strtok` tokens. -/
def option_pairs (array : String) : List (String × Option String) :=
  (strtok array.toList [',']).map option_pair

/-- The names and values passed to the engine's `config_parse`, in call
order. -/
def parsed_pairs : List Call → List (String × Option String)
  | [] => []
  | Call.config_parse name value :: l => (name, value) :: parsed_pairs l
  | _ :: l => parsed_pairs l

/-- The `config_parse` call for a pair. -/
def parse_call (p : String × Option String) : Call := Call.config_parse p.1 p.2

/-- The configuration after the engine's parser was given the pairs in
order. -/
def config_after {E : Type} (api : kvz_api E) (cfg : kvz_config) :
    List (String × Option String) → kvz_config
  | [] => cfg
  | p :: ps => config_after api (api.config_parse cfg p.1 p.2).1 ps

/-- Whether the engine's parser accepts (returns non-zero for) each of the
pairs when it is given them in order, starting from `cfg`. -/
def accepts_all {E : Type} (api : kvz_api E) (cfg : kvz_config) :
    List (String × Option String) → Bool
  | [] => true
  | p :: ps =>
    decide ((api.config_parse cfg p.1 p.2).2 ≠ 0)
      && accepts_all api (api.config_parse cfg p.1 p.2).1 ps

/-- Comma-free segments joined by single commas. -/
def comma_join : List (List Char) → List Char
  | [] => []
  | [seg] => seg
  | seg :: segs => seg ++ ',' :: comma_join segs

/-- The instance after `k` calls of `gst_kvazaar_enc_encode_frame` with a NULL
picture, a NULL frame and the given `send`. -/
def drain_iter {E : Type} (env : Env E) (send : Bool) : Nat → GstKvazaarEnc E → GstKvazaarEnc E
  | 0, s => s
  | k + 1, s => drain_iter env send k (gst_kvazaar_enc_encode_frame env s none none send).enc

/-- The loop condition of `gst_kvazaar_enc_flush_frames` after a drain on the
instance `s`: `flow_ret == GST_FLOW_OK && len_out > 0`. -/
def drain_continues {E : Type} (env : Env E) (send : Bool) (s : GstKvazaarEnc E) : Bool :=
  decide ((gst_kvazaar_enc_encode_frame env s none none send).ret = Outcome.returned GST_FLOW_OK)
    && decide (0 < (gst_kvazaar_enc_encode_frame env s none none send).len_out)

/-- The values passed to the engine's `config_parse` with the given name, in
call order. -/
def parsed_values (name : String) : List Call → List (Option String)
  | [] => []
  | Call.config_parse n v :: l =>
    if n = name then v :: parsed_values name l else parsed_values name l
  | _ :: l => parsed_values name l

/-- The configuration fields `gst_kvazaar_enc_init_encoder` copies from the
instance before the preset: `qp`, `target_bitrate`, `intra_period`,
`vps_period`, `calc_psnr`, `add_encoder_info`, `aud_enable`. -/
def base_fields (c : kvz_config) : List Int :=
  [c.qp, c.target_bitrate, c.intra_period, c.vps_period, c.calc_psnr, c.add_encoder_info,
    c.aud_enable]

/-! ## Theorems -/

/-! ### What the option resolver leaves alone -/

theorem InitKept.refl {E : Type} (s : GstKvazaarEnc E) : InitKept s s :=
  ⟨_, _, _, _, _, _, _, _, _, rfl⟩

theorem InitKept.trans {E : Type} {s t u : GstKvazaarEnc E} (h1 : InitKept s t)
    (h2 : InitKept t u) : InitKept s u := by
  obtain ⟨_, _, _, _, _, _, _, _, _, rfl⟩ := h1
  obtain ⟨_, _, _, _, _, _, _, _, _, rfl⟩ := h2
  exact ⟨_, _, _, _, _, _, _, _, _, rfl⟩

theorem InitKept.offset {E : Type} {s t : GstKvazaarEnc E} (h : InitKept s t) :
    t.systeme_frame_number_offset = s.systeme_frame_number_offset := by
  obtain ⟨_, _, _, _, _, _, _, _, _, rfl⟩ := h
  rfl

theorem InitKept.frames {E : Type} {s t : GstKvazaarEnc E} (h : InitKept s t) :
    t.frames = s.frames ∧ t.pending_frames = s.pending_frames ∧ t.input_state = s.input_state := by
  obtain ⟨_, _, _, _, _, _, _, _, _, rfl⟩ := h
  exact ⟨rfl, rfl, rfl⟩

theorem InitKept.props {E : Type} {s t : GstKvazaarEnc E} (h : InitKept s t) :
    t.ref_frames = s.ref_frames
      ∧ t.rdo = s.rdo
      ∧ t.me = s.me
      ∧ t.signhide_set = s.signhide_set
      ∧ t.signhide = s.signhide
      ∧ t.rdoq_set = s.rdoq_set
      ∧ t.rdoq = s.rdoq
      ∧ t.rdoq_skip_set = s.rdoq_skip_set
      ∧ t.rdoq_skip = s.rdoq_skip
      ∧ t.trskip_set = s.trskip_set
      ∧ t.trskip = s.trskip
      ∧ t.full_intra_search_set = s.full_intra_search_set
      ∧ t.full_intra_search = s.full_intra_search
      ∧ t.mv_rdo_set = s.mv_rdo_set
      ∧ t.mv_rdo = s.mv_rdo
      ∧ t.smp_set = s.smp_set
      ∧ t.smp = s.smp
      ∧ t.amp_set = s.amp_set
      ∧ t.amp = s.amp
      ∧ t.cu_split_termination = s.cu_split_termination
      ∧ t.me_early_termination = s.me_early_termination := by
  obtain ⟨_, _, _, _, _, _, _, _, _, rfl⟩ := h
  exact ⟨rfl, rfl, rfl, rfl, rfl, rfl, rfl, rfl, rfl, rfl, rfl, rfl, rfl, rfl, rfl, rfl, rfl, rfl, rfl, rfl, rfl⟩

theorem close_encoder_kept {E : Type} (s : GstKvazaarEnc E) :
    InitKept s (gst_kvazaar_enc_close_encoder s) := by
  unfold gst_kvazaar_enc_close_encoder
  split
  · exact ⟨_, _, _, _, _, _, _, _, _, rfl⟩
  · exact InitKept.refl s

theorem with_config_kept {E : Type} (s : GstKvazaarEnc E) (cfg : kvz_config) :
    InitKept s (with_config s cfg) :=
  ⟨_, _, _, _, _, _, _, _, _, rfl⟩

theorem config_parse_call_kept {E : Type} (env : Env E) (s : GstKvazaarEnc E) (name : String)
    (value : Option String) : InitKept s (config_parse_call env s name value).1 :=
  ⟨_, _, _, _, _, _, _, _, _, rfl⟩

theorem assign_if_kept {E : Type} (c : Prop) [Decidable c] (s : GstKvazaarEnc E)
    (f : kvz_config → kvz_config) : InitKept s (assign_if c s f) := by
  unfold assign_if
  split
  · exact with_config_kept _ _
  · exact InitKept.refl s

theorem parse_if_kept {E : Type} (env : Env E) (c : Prop) [Decidable c] (s : GstKvazaarEnc E)
    (name : String) (value : Option String) : InitKept s (parse_if env c s name value) := by
  unfold parse_if
  split
  · exact config_parse_call_kept _ _ _ _
  · exact InitKept.refl s

theorem init_encoder_base_kept {E : Type} (s : GstKvazaarEnc E) (info : GstVideoInfo) :
    InitKept s (init_encoder_base s info) :=
  with_config_kept _ _

theorem init_encoder_preset_kept {E : Type} (env : Env E) (s : GstKvazaarEnc E) :
    InitKept s (init_encoder_preset env s) :=
  parse_if_kept _ _ _ _ _

theorem init_encoder_overrides_kept {E : Type} (env : Env E) (s : GstKvazaarEnc E) :
    InitKept s (init_encoder_overrides env s) := by
  unfold init_encoder_overrides
  repeat' first
    | exact assign_if_kept _ _ _
    | (refine InitKept.trans ?_ (parse_if_kept _ _ _ _ _))
    | (refine InitKept.trans ?_ (assign_if_kept _ _ _))

theorem init_encoder_roi_kept {E : Type} (env : Env E) (s : GstKvazaarEnc E) :
    InitKept s (init_encoder_roi env s).1 := by
  unfold init_encoder_roi
  split
  · split
    · exact InitKept.refl s
    · exact with_config_kept _ _
    · exact ⟨_, _, _, _, _, _, _, _, _, rfl⟩
  · exact InitKept.refl s

theorem parse_options_loop_kept {E : Type} (env : Env E) (tokens : List (List Char)) :
    ∀ s : GstKvazaarEnc E, InitKept s (parse_options_loop env tokens s).1 := by
  induction tokens with
  | nil => intro s; exact InitKept.refl s
  | cons token rest ih =>
    intro s
    unfold parse_options_loop
    split
    · exact config_parse_call_kept _ _ _ _
    · exact InitKept.trans (config_parse_call_kept _ _ _ _) (ih _)

theorem init_encoder_open_kept {E : Type} (env : Env E) (s : GstKvazaarEnc E) :
    InitKept s (init_encoder_open env s).1 := by
  unfold init_encoder_open
  have h := parse_options_loop_kept env (strtok s.kvz_opts.toList [',']) s
  obtain ⟨_, _, _, _, _, _, _, _, _, h⟩ := h
  simp only [parse_kvazaar_options]
  split
  · rw [h]; exact ⟨_, _, _, _, _, _, _, _, _, rfl⟩
  · rw [h]; exact ⟨_, _, _, _, _, _, _, _, _, rfl⟩

/-- The option resolver writes the engine handle, the configuration, the
flags and the ROI fields only. -/
theorem init_encoder_kept {E : Type} (env : Env E) (s : GstKvazaarEnc E) :
    InitKept s (gst_kvazaar_enc_init_encoder env s).1 := by
  unfold gst_kvazaar_enc_init_encoder
  split
  · exact InitKept.refl s
  · rename_i info _
    have h : InitKept s (init_encoder_roi env (init_encoder_overrides env (init_encoder_preset env
        (init_encoder_base (gst_kvazaar_enc_close_encoder s) info)))).1 :=
      ((((close_encoder_kept s).trans (init_encoder_base_kept _ _)).trans
        (init_encoder_preset_kept _ _)).trans (init_encoder_overrides_kept _ _)).trans
        (init_encoder_roi_kept _ _)
    split
    · rename_i e1 heq
      rw [heq] at h
      exact h
    · rename_i e1 _ heq
      rw [heq] at h
      exact h.trans (init_encoder_open_kept _ _)

theorem init_encoder_locked_kept {E : Type} (s : GstKvazaarEnc E) :
    InitKept s (init_encoder_locked s).1 := by
  unfold init_encoder_locked
  split
  · exact InitKept.refl s
  · exact close_encoder_kept s

/-! ### One drain -/

theorem dequeue_frame_fields {E : Type} (s : GstKvazaarEnc E) (ptr : Nat) :
    (gst_kvazaar_enc_dequeue_frame s ptr).systeme_frame_number_offset
        = s.systeme_frame_number_offset
      ∧ (gst_kvazaar_enc_dequeue_frame s ptr).kvazaarconfig = s.kvazaarconfig
      ∧ (gst_kvazaar_enc_dequeue_frame s ptr).kvazaarenc = s.kvazaarenc
      ∧ (gst_kvazaar_enc_dequeue_frame s ptr).reconfig = s.reconfig
      ∧ (gst_kvazaar_enc_dequeue_frame s ptr).input_state = s.input_state := by
  unfold gst_kvazaar_enc_dequeue_frame
  split <;> exact ⟨rfl, rfl, rfl, rfl, rfl⟩

theorem encode_frame_out_fields {E : Type} (env : Env E) (s : GstKvazaarEnc E)
    (frame : Option GstVideoCodecFrame) (ret : GstFlowReturn) :
    (encode_frame_out env s frame ret).1.systeme_frame_number_offset
        = s.systeme_frame_number_offset
      ∧ (encode_frame_out env s frame ret).1.kvazaarconfig = s.kvazaarconfig
      ∧ (encode_frame_out env s frame ret).1.kvazaarenc = s.kvazaarenc
      ∧ (encode_frame_out env s frame ret).1.reconfig = s.reconfig
      ∧ (encode_frame_out env s frame ret).1.input_state = s.input_state := by
  unfold encode_frame_out
  split
  · exact dequeue_frame_fields s _
  · exact ⟨rfl, rfl, rfl, rfl, rfl⟩

/-- The engine output a drain works on is the one it was given; the
configuration, the engine handle, `reconfig` and the input state are not
written after the engine call. -/
theorem encode_frame_output_fields {E : Type} (env : Env E) (s : GstKvazaarEnc E)
    (o : kvz_encode_out) (img : Option kvz_picture) (input : Option GstVideoCodecFrame)
    (send : Bool) :
    (encode_frame_output env s o img input send).engine = some o
      ∧ (encode_frame_output env s o img input send).enc.kvazaarconfig = s.kvazaarconfig
      ∧ (encode_frame_output env s o img input send).enc.kvazaarenc = s.kvazaarenc
      ∧ (encode_frame_output env s o img input send).enc.reconfig = s.reconfig
      ∧ (encode_frame_output env s o img input send).enc.input_state = s.input_state
      ∧ (encode_frame_output env s o img input send).len_out = o.len_out := by
  unfold encode_frame_output
  split
  · have h := encode_frame_out_fields env s input GST_FLOW_ERROR
    exact ⟨rfl, h.2.1, h.2.2.1, h.2.2.2.1, h.2.2.2.2, rfl⟩
  · split
    · exact ⟨rfl, rfl, rfl, rfl, rfl, rfl⟩
    · dsimp only
      split
      · exact ⟨rfl, rfl, rfl, rfl, rfl, rfl⟩
      · split
        · rename_i frame _ _
          refine ⟨rfl, ?_, ?_, ?_, ?_, rfl⟩
          · exact (encode_frame_out_fields env _ (some frame) GST_FLOW_OK).2.1
          · exact (encode_frame_out_fields env _ (some frame) GST_FLOW_OK).2.2.1
          · exact (encode_frame_out_fields env _ (some frame) GST_FLOW_OK).2.2.2.1
          · exact (encode_frame_out_fields env _ (some frame) GST_FLOW_OK).2.2.2.2
        · split
          · exact ⟨rfl, rfl, rfl, rfl, rfl, rfl⟩
          · refine ⟨rfl, ?_, ?_, ?_, ?_, rfl⟩
            · exact (encode_frame_out_fields env _ _ GST_FLOW_OK).2.1
            · exact (encode_frame_out_fields env _ _ GST_FLOW_OK).2.2.1
            · exact (encode_frame_out_fields env _ _ GST_FLOW_OK).2.2.2.1
            · exact (encode_frame_out_fields env _ _ GST_FLOW_OK).2.2.2.2

/-- The offset after the part of a drain that follows the engine call. -/
theorem encode_frame_output_offset {E : Type} (env : Env E) (s : GstKvazaarEnc E)
    (o : kvz_encode_out) (img : Option kvz_picture) (input : Option GstVideoCodecFrame)
    (send : Bool) :
    (encode_frame_output env s o img input send).enc.systeme_frame_number_offset
      = if 0 ≤ o.ret ∧ o.len_out ≠ 0 ∧ 0 < to_guint32 s.kvazaarconfig.intra_period
            ∧ intra_period_wrap (to_guint32 o.info_out.poc) input
                (to_guint32 s.kvazaarconfig.intra_period) = true then
          (s.systeme_frame_number_offset + to_guint32 s.kvazaarconfig.intra_period) % 4294967296
        else s.systeme_frame_number_offset := by
  unfold encode_frame_output
  by_cases h1 : o.ret < 0
  · have h1' : ¬ (0 ≤ o.ret) := by omega
    simp only [h1, if_true, h1', false_and, if_false]
    exact (encode_frame_out_fields env s input GST_FLOW_ERROR).1
  · have h1' : 0 ≤ o.ret := by omega
    simp only [h1, if_false, h1', true_and]
    by_cases h2 : o.len_out = 0
    · simp only [h2, if_true, ne_eq, not_true_eq_false, false_and, if_false]
    · simp only [h2, if_false, ne_eq, not_false_eq_true, true_and]
      split
      · rfl
      · split
        · exact (encode_frame_out_fields env _ _ GST_FLOW_OK).1
        · split
          · rfl
          · exact (encode_frame_out_fields env _ _ GST_FLOW_OK).1

/-- A call of `gst_kvazaar_enc_encode_frame` either does not reach the engine
(and then leaves the offset alone), or it is the drain of the engine's output
on an instance that differs from the one given in what the option resolver
writes only. -/
theorem encode_frame_cases {E : Type} (env : Env E) (s : GstKvazaarEnc E)
    (img : Option kvz_picture) (input : Option GstVideoCodecFrame) (send : Bool) :
    ((gst_kvazaar_enc_encode_frame env s img input send).engine = none
        ∧ (gst_kvazaar_enc_encode_frame env s img input send).out_frame_num = none
        ∧ (gst_kvazaar_enc_encode_frame env s img input send).enc.systeme_frame_number_offset
            = s.systeme_frame_number_offset)
      ∨ ∃ (s1 : GstKvazaarEnc E) (e : E), InitKept s s1 ∧ s1.kvazaarenc = some e
          ∧ gst_kvazaar_enc_encode_frame env s img input send
            = encode_frame_output env
                { s1 with
                  kvazaarenc := some (env.api.encoder_encode e img).1
                  calls := s1.calls ++ [Call.encoder_encode img] }
                (env.api.encoder_encode e img).2 img input send := by
  unfold gst_kvazaar_enc_encode_frame
  split
  · left; exact ⟨rfl, rfl, rfl⟩
  · have hk : InitKept s (if s.reconfig = true then init_encoder_locked s
        else (s, Outcome.returned true)).1 := by
      split
      · exact init_encoder_locked_kept s
      · exact InitKept.refl s
    split
    · rename_i s1 heq
      rw [heq] at hk
      left; exact ⟨rfl, rfl, hk.offset⟩
    · rename_i s1 _ heq
      rw [heq] at hk
      split
      · left; exact ⟨rfl, rfl, hk.offset⟩
      · rename_i e he
        right
        exact ⟨s1, e, hk, he, rfl⟩

/-- C8: a call of `gst_kvazaar_enc_encode_frame` adds the intra period `P` (the
`guint32` the code reads from the configuration in force at the engine call)
to `systeme_frame_number_offset`, in 32-bit arithmetic, exactly when the engine
call succeeded with non-zero output length, `P > 0`, the engine's order count
is 0, an input frame was supplied and its submission number is at least `P`;
in every other case the offset is left unchanged. -/
theorem C8_offset_changes_exactly_at_wrap {E : Type} (env : Env E) (s : GstKvazaarEnc E)
    (img : Option kvz_picture) (input : Option GstVideoCodecFrame) (send : Bool) :
    (((∃ o, (gst_kvazaar_enc_encode_frame env s img input send).engine = some o
            ∧ 0 ≤ o.ret ∧ o.len_out ≠ 0 ∧ to_guint32 o.info_out.poc = 0)
        ∧ 0 < to_guint32
            (gst_kvazaar_enc_encode_frame env s img input send).enc.kvazaarconfig.intra_period
        ∧ (∃ f, input = some f
            ∧ to_guint32
                (gst_kvazaar_enc_encode_frame env s img input send).enc.kvazaarconfig.intra_period
              ≤ f.system_frame_number)) →
      (gst_kvazaar_enc_encode_frame env s img input send).enc.systeme_frame_number_offset
        = (s.systeme_frame_number_offset + to_guint32
            (gst_kvazaar_enc_encode_frame env s img input send).enc.kvazaarconfig.intra_period)
          % 4294967296)
    ∧ (¬ ((∃ o, (gst_kvazaar_enc_encode_frame env s img input send).engine = some o
            ∧ 0 ≤ o.ret ∧ o.len_out ≠ 0 ∧ to_guint32 o.info_out.poc = 0)
        ∧ 0 < to_guint32
            (gst_kvazaar_enc_encode_frame env s img input send).enc.kvazaarconfig.intra_period
        ∧ (∃ f, input = some f
            ∧ to_guint32
                (gst_kvazaar_enc_encode_frame env s img input send).enc.kvazaarconfig.intra_period
              ≤ f.system_frame_number)) →
      (gst_kvazaar_enc_encode_frame env s img input send).enc.systeme_frame_number_offset
        = s.systeme_frame_number_offset) := by
  rcases encode_frame_cases env s img input send with ⟨h1, _, h2⟩ | ⟨s1, e, hk, _, heq⟩
  · constructor
    · rintro ⟨⟨o, ho, _⟩, _⟩
      rw [h1] at ho
      exact absurd ho (by simp)
    · intro _
      exact h2
  · rw [heq]
    obtain ⟨hen, hcfg, _⟩ := encode_frame_output_fields env
      { s1 with
        kvazaarenc := some (env.api.encoder_encode e img).1
        calls := s1.calls ++ [Call.encoder_encode img] }
      (env.api.encoder_encode e img).2 img input send
    rw [encode_frame_output_offset, hen, hcfg]
    have hoff : ({ s1 with
        kvazaarenc := some (env.api.encoder_encode e img).1
        calls := s1.calls ++ [Call.encoder_encode img] } : GstKvazaarEnc E).systeme_frame_number_offset
        = s.systeme_frame_number_offset := hk.offset
    rw [hoff]
    have hw : ∀ (n P : Nat), intra_period_wrap n input P = true ↔
        n = 0 ∧ ∃ f, input = some f ∧ P ≤ f.system_frame_number := by
      intro n P
      unfold intra_period_wrap
      cases input with
      | none => simp
      | some f => simp
    constructor
    · rintro ⟨⟨o, ho, h1, h2, h3⟩, hP, hf⟩
      have ho' := Option.some.inj ho
      subst ho'
      rw [if_pos ⟨h1, h2, hP, (hw _ _).2 ⟨h3, hf⟩⟩]
    · intro hn
      rw [if_neg]
      rintro ⟨h1, h2, hP, h4⟩
      exact hn ⟨⟨_, rfl, h1, h2, ((hw _ _).1 h4).1⟩, hP, ((hw _ _).1 h4).2⟩

/-- The frame number a drain looks up, when the engine gave output. -/
theorem encode_frame_output_lookup {E : Type} (env : Env E) (s : GstKvazaarEnc E)
    (o : kvz_encode_out) (img : Option kvz_picture) (input : Option GstVideoCodecFrame)
    (send : Bool) (h1 : 0 ≤ o.ret) (h2 : o.len_out ≠ 0) :
    (encode_frame_output env s o img input send).out_frame_num
      = some (if 0 < to_guint32 s.kvazaarconfig.intra_period then
          (to_guint32 o.info_out.poc
            + (encode_frame_output env s o img input send).enc.systeme_frame_number_offset)
            % 4294967296
        else to_guint32 o.info_out.poc) := by
  have hoff := encode_frame_output_offset env s o img input send
  rw [hoff]
  unfold encode_frame_output
  have h1' : ¬ o.ret < 0 := by omega
  simp only [h1, h1', h2, if_false, ne_eq, not_false_eq_true, true_and]
  split <;> [skip; split <;> [skip; split]] <;> rfl

/-- The frame a drain finishes and what it returns, when the engine gave
output and the output is to be sent: nothing is finished when the lookup
finds no frame or an assertion fails on the chunk list; else the frame found
is finished with the buffer built from the chunks. -/
theorem encode_frame_output_send {E : Type} (env : Env E) (s : GstKvazaarEnc E)
    (o : kvz_encode_out) (img : Option kvz_picture) (input : Option GstVideoCodecFrame)
    (h1 : 0 ≤ o.ret) (h2 : o.len_out ≠ 0) :
    match (encode_frame_output env s o img input true).found with
    | none => (encode_frame_output env s o img input true).finished = none
        ∧ (encode_frame_output env s o img input true).ret = .returned GST_FLOW_OK
    | some frame =>
      if o.chunks_out = [] then
        (encode_frame_output env s o img input true).finished
            = some { frame with output_buffer := none, dts := o.img_rec.dts }
          ∧ (encode_frame_output env s o img input true).ret
            = .returned (env.finish_frame { frame with output_buffer := none, dts := o.img_rec.dts })
      else
        match copy_chunks o.len_out o.chunks_out 0 (gst_buffer_new_allocate o.len_out) with
        | none => (encode_frame_output env s o img input true).finished = none
            ∧ (encode_frame_output env s o img input true).ret = .aborted
        | some buf =>
          (encode_frame_output env s o img input true).finished
              = some { frame with output_buffer := some buf, dts := o.img_rec.dts }
            ∧ (encode_frame_output env s o img input true).ret
              = .returned (env.finish_frame
                  { frame with output_buffer := some buf, dts := o.img_rec.dts }) := by
  unfold encode_frame_output
  have h1' : ¬ o.ret < 0 := by omega
  simp only [h1', h2, if_false, ne_eq, Bool.true_eq_false]
  generalize gst_video_encoder_get_frame _ _ = l
  cases l with
  | none => exact ⟨rfl, rfl⟩
  | some frame =>
    dsimp only
    by_cases hc : o.chunks_out = []
    · simp [hc, encode_frame_out]
    · simp only [hc, not_false_eq_true, if_true, if_false]
      cases hcc : copy_chunks o.len_out o.chunks_out 0 (gst_buffer_new_allocate o.len_out) with
      | none => exact ⟨rfl, rfl⟩
      | some buf => exact ⟨rfl, rfl⟩

/-! ### The output buffer -/

theorem concat_chunks_length (chunks : List kvz_data_chunk) :
    (concat_chunks chunks).length = chunks_len chunks := by
  induction chunks with
  | nil => rfl
  | cons c rest ih => simp [concat_chunks, chunks_len, kvz_data_chunk.len, ih]

theorem concat_chunks_append (pre post : List kvz_data_chunk) :
    concat_chunks (pre ++ post) = concat_chunks pre ++ concat_chunks post := by
  induction pre with
  | nil => rfl
  | cons c rest ih => simp [concat_chunks, ih]

theorem gst_buffer_fill_fits (buf : GstBuffer) (offset : Nat) (src : List Nat)
    (h : offset + src.length ≤ buf.length) :
    gst_buffer_fill buf offset src = buf.take offset ++ src ++ buf.drop (offset + src.length) := by
  unfold gst_buffer_fill
  have hs : src.take (buf.length - offset) = src := List.take_of_length_le (by omega)
  rw [hs]

/-- While the chunks fit, the chunk loop writes them one after the other from
`offset` on and leaves the rest of the buffer as it was. -/
theorem copy_chunks_fits (L : Nat) (hL : L < 4294967296) (chunks : List kvz_data_chunk) :
    ∀ (offset : Nat) (buf : GstBuffer), buf.length = L → offset + chunks_len chunks ≤ L →
      copy_chunks L chunks offset buf
        = some (buf.take offset ++ concat_chunks chunks
            ++ buf.drop (offset + chunks_len chunks)) := by
  induction chunks with
  | nil =>
    intro offset buf _ _
    simp [copy_chunks, concat_chunks, chunks_len]
  | cons c rest ih =>
    intro offset buf hbuf hsum
    simp only [chunks_len] at hsum
    have hc : c.data.length = c.len := rfl
    have hmod : (offset + c.len) % 4294967296 = offset + c.len := by omega
    have hfill := gst_buffer_fill_fits buf offset c.data (by omega)
    have hlen : (gst_buffer_fill buf offset c.data).length = L := by
      rw [hfill]
      simp only [List.length_append, List.length_take, List.length_drop]
      omega
    unfold copy_chunks
    rw [hmod, if_pos (by omega), ih _ _ hlen (by omega), hfill]
    simp only [concat_chunks, chunks_len, Option.some.injEq]
    have ht : (buf.take offset ++ c.data ++ buf.drop (offset + c.data.length)).take (offset + c.len)
        = buf.take offset ++ c.data := by
      rw [List.take_append_eq_append_take, List.take_of_length_le (by simp; omega)]
      have : offset + c.len - (buf.take offset ++ c.data).length = 0 := by
        simp only [List.length_append, List.length_take]
        omega
      rw [this]
      simp
    have hd : (buf.take offset ++ c.data ++ buf.drop (offset + c.data.length)).drop
        (offset + c.len + chunks_len rest) = buf.drop (offset + (c.len + chunks_len rest)) := by
      rw [List.drop_append_eq_append_drop, List.drop_of_length_le (by simp; omega)]
      simp only [List.nil_append, List.length_append, List.length_take, List.drop_drop]
      congr 1
      omega
    rw [ht, hd]
    simp [List.append_assoc]

/-- When the chunks do not fit, the assertion of the chunk loop fails. -/
theorem copy_chunks_overflow (L : Nat) (chunks : List kvz_data_chunk) :
    ∀ (offset : Nat) (buf : GstBuffer), offset ≤ L → L < offset + chunks_len chunks →
      offset + chunks_len chunks < 4294967296 → copy_chunks L chunks offset buf = none := by
  induction chunks with
  | nil =>
    intro offset buf h1 h2 _
    simp only [chunks_len] at h2
    omega
  | cons c rest ih =>
    intro offset buf h1 h2 h3
    simp only [chunks_len] at h2 h3
    have hmod : (offset + c.len) % 4294967296 = offset + c.len := by omega
    unfold copy_chunks
    rw [hmod]
    split
    · exact ih _ _ (by omega) (by omega) (by omega)
    · rfl

/-- A drain with `send = TRUE` whose engine call gave output, reduced to the
part after the engine call. -/
theorem encode_frame_with_output {E : Type} (env : Env E) (s : GstKvazaarEnc E)
    (img : Option kvz_picture) (input : Option GstVideoCodecFrame) (send : Bool)
    (o : kvz_encode_out)
    (hengine : (gst_kvazaar_enc_encode_frame env s img input send).engine = some o) :
    ∃ s2 : GstKvazaarEnc E, gst_kvazaar_enc_encode_frame env s img input send
      = encode_frame_output env s2 o img input send := by
  rcases encode_frame_cases env s img input send with ⟨h1, _, _⟩ | ⟨s1, e, _, _, heq⟩
  · rw [h1] at hengine
    exact absurd hengine (by simp)
  · have h := (encode_frame_output_fields env
      { s1 with
        kvazaarenc := some (env.api.encoder_encode e img).1
        calls := s1.calls ++ [Call.encoder_encode img] }
      (env.api.encoder_encode e img).2 img input send).1
    rw [← heq, hengine] at h
    have ho := Option.some.inj h
    exact ⟨_, by rw [heq, ← ho]⟩

/-- C3: in a drain that emits a frame (output from the engine, `send` set, a
frame passed to `gst_video_encoder_finish_frame`), if the chunk lengths sum to
the reported output length `L`, the buffer attached to the frame is the
concatenation of the chunks in list order, it has length exactly `L`, and
every chunk lies at the offset that is the sum of the lengths of the chunks
before it. -/
theorem C3_output_buffer_is_concatenation {E : Type} (env : Env E) (s : GstKvazaarEnc E)
    (img : Option kvz_picture) (input : Option GstVideoCodecFrame) (o : kvz_encode_out)
    (f : GstVideoCodecFrame)
    (hengine : (gst_kvazaar_enc_encode_frame env s img input true).engine = some o)
    (hret : 0 ≤ o.ret) (hlen : o.len_out ≠ 0) (h32 : o.len_out < 4294967296)
    (hsum : chunks_len o.chunks_out = o.len_out)
    (hfin : (gst_kvazaar_enc_encode_frame env s img input true).finished = some f) :
    f.output_buffer = some (concat_chunks o.chunks_out)
      ∧ (concat_chunks o.chunks_out).length = o.len_out
      ∧ (∀ pre chunk post, o.chunks_out = pre ++ chunk :: post →
          ((concat_chunks o.chunks_out).drop (chunks_len pre)).take chunk.len = chunk.data)
      ∧ (gst_kvazaar_enc_encode_frame env s img input true).ret
        = .returned (env.finish_frame f) := by
  obtain ⟨s2, heq⟩ := encode_frame_with_output env s img input true o hengine
  rw [heq] at hfin ⊢
  have hsend := encode_frame_output_send env s2 o img input hret hlen
  have hne : o.chunks_out ≠ [] := by
    intro h
    rw [h] at hsum
    simp only [chunks_len] at hsum
    omega
  have hcopy := copy_chunks_fits o.len_out h32 o.chunks_out 0 (gst_buffer_new_allocate o.len_out)
    (by simp [gst_buffer_new_allocate]) (by omega)
  have hbuf : copy_chunks o.len_out o.chunks_out 0 (gst_buffer_new_allocate o.len_out)
      = some (concat_chunks o.chunks_out) := by
    rw [hcopy]
    simp [gst_buffer_new_allocate, hsum]
  have hemit : f.output_buffer = some (concat_chunks o.chunks_out)
      ∧ (encode_frame_output env s2 o img input true).ret = .returned (env.finish_frame f) := by
    cases hf : (encode_frame_output env s2 o img input true).found with
    | none =>
      rw [hf] at hsend
      rw [hsend.1] at hfin
      exact absurd hfin (by simp)
    | some frame =>
      rw [hf] at hsend
      simp only [hne, if_false, hbuf] at hsend
      rw [hsend.1] at hfin
      rw [hsend.2, ← Option.some.inj hfin]
      exact ⟨rfl, rfl⟩
  refine ⟨hemit.1, by rw [concat_chunks_length, hsum], ?_, hemit.2⟩
  intro pre chunk post hsplit
  rw [hsplit, concat_chunks_append, ← concat_chunks_length, List.drop_left]
  simp [concat_chunks, kvz_data_chunk.len]

/-- Witness for C3: two chunks `07` and `08 09`, reported length 3. -/
theorem C3_output_buffer_is_concatenation_witness :
    (gst_kvazaar_enc_encode_frame (script_env [exact_output] accept_all)
        (holding_session [exact_output]) none (some (input_frame 0)) true).finished
        = some { input_frame 0 with output_buffer := some [7, 8, 9] }
      ∧ chunks_len exact_output.chunks_out = exact_output.len_out
      ∧ ({ input_frame 0 with output_buffer := some [7, 8, 9] } : GstVideoCodecFrame).output_buffer
        = some (concat_chunks exact_output.chunks_out) :=
  ⟨by decide, by decide,
    (C3_output_buffer_is_concatenation (script_env [exact_output] accept_all)
      (holding_session [exact_output]) none (some (input_frame 0)) exact_output
      { input_frame 0 with output_buffer := some [7, 8, 9] }
      (by decide) (by decide) (by decide) (by decide) (by decide) (by decide)).1⟩

/-- C4, counterexample: the engine gives one chunk of 1 byte and reports 2
bytes; the Submit returns `GST_FLOW_OK` and the frame goes downstream with a
buffer of length 2, of which only the first byte comes from the chunk list. -/
theorem C4_short_chunk_list_is_emitted :
    chunks_len short_output.chunks_out = 1 ∧ short_output.len_out = 2
      ∧ (run (script_env [short_output] accept_all) 10
          (gst_kvazaar_enc_init (script_api [short_output] accept_all))
          [Op.set_format video_info]).map
          (fun s => ((submit (script_env [short_output] accept_all) s (input_frame 0)).2,
            finished_frames (submit (script_env [short_output] accept_all) s (input_frame 0)).1.calls))
        = some (Outcome.returned GST_FLOW_OK,
            [{ input_frame 0 with output_buffer := some [7, 0], dts := 0 }]) := by
  decide

/-- C4, as the code has it: in a drain with `send = TRUE`, output from the
engine, a matched frame and a non-empty chunk list, a chunk-length sum larger
than the reported length `L` (sums below `2^32`) fails the `g_assert`: the
process ends there and no frame is finished; a sum of at most `L` raises
nothing: the frame is finished with a buffer of length `L` whose leading
bytes are the concatenated chunks, and the result is that of the
frame-finished callback. -/
theorem C4_only_excess_is_asserted {E : Type} (env : Env E) (s : GstKvazaarEnc E)
    (img : Option kvz_picture) (input : Option GstVideoCodecFrame) (o : kvz_encode_out)
    (frame : GstVideoCodecFrame)
    (hengine : (gst_kvazaar_enc_encode_frame env s img input true).engine = some o)
    (hret : 0 ≤ o.ret) (hlen : o.len_out ≠ 0) (h32 : o.len_out < 4294967296)
    (hfound : (gst_kvazaar_enc_encode_frame env s img input true).found = some frame)
    (hne : o.chunks_out ≠ []) :
    (o.len_out < chunks_len o.chunks_out → chunks_len o.chunks_out < 4294967296 →
        (gst_kvazaar_enc_encode_frame env s img input true).ret = .aborted
          ∧ (gst_kvazaar_enc_encode_frame env s img input true).finished = none)
      ∧ (chunks_len o.chunks_out ≤ o.len_out →
          ∃ buf : GstBuffer,
            (gst_kvazaar_enc_encode_frame env s img input true).finished
                = some { frame with output_buffer := some buf, dts := o.img_rec.dts }
              ∧ buf.length = o.len_out
              ∧ buf.take (chunks_len o.chunks_out) = concat_chunks o.chunks_out
              ∧ (gst_kvazaar_enc_encode_frame env s img input true).ret
                = .returned (env.finish_frame
                    { frame with output_buffer := some buf, dts := o.img_rec.dts })) := by
  obtain ⟨s2, heq⟩ := encode_frame_with_output env s img input true o hengine
  rw [heq] at hfound ⊢
  have hsend := encode_frame_output_send env s2 o img input hret hlen
  rw [hfound] at hsend
  simp only [hne, if_false] at hsend
  constructor
  · intro hgt h232
    have hcopy := copy_chunks_overflow o.len_out o.chunks_out 0
      (gst_buffer_new_allocate o.len_out) (by omega) (by omega) (by omega)
    rw [hcopy] at hsend
    exact ⟨hsend.2, hsend.1⟩
  · intro hle
    have hcopy := copy_chunks_fits o.len_out h32 o.chunks_out 0
      (gst_buffer_new_allocate o.len_out) (by simp [gst_buffer_new_allocate]) (by omega)
    rw [hcopy] at hsend
    refine ⟨_, hsend.1, ?_, ?_, hsend.2⟩
    · simp only [List.take_zero, List.nil_append, zero_add, List.length_append,
        concat_chunks_length, List.length_drop, gst_buffer_new_allocate, List.length_replicate]
      omega
    · simp only [List.take_zero, List.nil_append, zero_add]
      rw [← concat_chunks_length, List.take_left]

/-- Witness for C4 as the code has it: a chunk of 3 bytes against a reported
length of 2. -/
theorem C4_only_excess_is_asserted_witness :
    (gst_kvazaar_enc_encode_frame (script_env [long_output] accept_all)
        (holding_session [long_output]) none (some (input_frame 0)) true).found
        = some (input_frame 0)
      ∧ long_output.len_out < chunks_len long_output.chunks_out
      ∧ (gst_kvazaar_enc_encode_frame (script_env [long_output] accept_all)
          (holding_session [long_output]) none (some (input_frame 0)) true).ret = .aborted
      ∧ (gst_kvazaar_enc_encode_frame (script_env [long_output] accept_all)
          (holding_session [long_output]) none (some (input_frame 0)) true).finished = none :=
  ⟨by decide, by decide,
    (C4_only_excess_is_asserted (script_env [long_output] accept_all)
      (holding_session [long_output]) none (some (input_frame 0)) long_output (input_frame 0)
      (by decide) (by decide) (by decide) (by decide) (by decide) (by decide)).1
      (by decide) (by decide)⟩

/-! ### The frame number of a drain -/

/-- C9, counterexample: after a session with intra period 1 has been stopped
and started again with intra period 0, the drain of the flush gets the order
count 0 from the engine and looks up frame number 0, while
`systeme_frame_number_offset` is 1: the lookup is not order count plus
offset. -/
theorem C9_lookup_without_intra_period_ignores_offset :
    ∃ s, run (poc_env 1 (fun _ => GST_FLOW_OK)) 10 (gst_kvazaar_enc_init (poc_api 1)) restart_ops
        = some s
      ∧ ∃ o, (gst_kvazaar_enc_encode_frame (poc_env 1 (fun _ => GST_FLOW_OK)) s none none
            true).engine = some o
        ∧ 0 ≤ o.ret ∧ o.len_out ≠ 0
        ∧ (gst_kvazaar_enc_encode_frame (poc_env 1 (fun _ => GST_FLOW_OK)) s none none
            true).out_frame_num
          ≠ some (to_guint32 o.info_out.poc
              + (gst_kvazaar_enc_encode_frame (poc_env 1 (fun _ => GST_FLOW_OK)) s none none
                  true).enc.systeme_frame_number_offset) := by
  have hview : (run (poc_env 1 (fun _ => GST_FLOW_OK)) 10 (gst_kvazaar_enc_init (poc_api 1))
      restart_ops).map (fun s => drain_view
        (gst_kvazaar_enc_encode_frame (poc_env 1 (fun _ => GST_FLOW_OK)) s none none true))
      = some (some 0, some (0, 1, 0), 1, 0) := by decide
  cases hrun : run (poc_env 1 (fun _ => GST_FLOW_OK)) 10 (gst_kvazaar_enc_init (poc_api 1))
      restart_ops with
  | none =>
    rw [hrun] at hview
    exact absurd hview (by simp)
  | some s =>
    rw [hrun] at hview
    simp only [Option.map_some', Option.some.injEq, drain_view, Prod.mk.injEq] at hview
    obtain ⟨hnum, hen, hoff, _⟩ := hview
    refine ⟨s, rfl, ?_⟩
    cases ho : (gst_kvazaar_enc_encode_frame (poc_env 1 (fun _ => GST_FLOW_OK)) s none none
        true).engine with
    | none =>
      rw [ho] at hen
      exact absurd hen (by simp)
    | some o =>
      rw [ho] at hen
      simp only [Option.map_some', Option.some.injEq, Prod.mk.injEq] at hen
      obtain ⟨h1, h2, h3⟩ := hen
      refine ⟨o, rfl, by omega, by omega, ?_⟩
      rw [hnum, hoff, h3]
      decide

/-- C9, as the code has it: in every state, hence in every reachable one, a
drain that yields output looks up the engine's order count plus the current
`systeme_frame_number_offset` (in 32 bits) when the configured intra period is
positive, and the engine's order count alone when the intra period is 0. -/
theorem C9_lookup_adds_offset_only_with_intra_period {E : Type} (env : Env E)
    (s : GstKvazaarEnc E) (img : Option kvz_picture) (input : Option GstVideoCodecFrame)
    (send : Bool) (o : kvz_encode_out)
    (hengine : (gst_kvazaar_enc_encode_frame env s img input send).engine = some o)
    (hret : 0 ≤ o.ret) (hlen : o.len_out ≠ 0) :
    (gst_kvazaar_enc_encode_frame env s img input send).out_frame_num
      = some (if 0 < to_guint32
            (gst_kvazaar_enc_encode_frame env s img input send).enc.kvazaarconfig.intra_period
          then
            (to_guint32 o.info_out.poc
              + (gst_kvazaar_enc_encode_frame env s img input send).enc.systeme_frame_number_offset)
              % 4294967296
          else to_guint32 o.info_out.poc) := by
  obtain ⟨s2, heq⟩ := encode_frame_with_output env s img input send o hengine
  rw [heq, encode_frame_output_lookup env s2 o img input send hret hlen,
    (encode_frame_output_fields env s2 o img input send).2.1]

/-- Witness for C9 as the code has it: the first picture of a session with
intra period 0. -/
theorem C9_lookup_adds_offset_only_with_intra_period_witness :
    (gst_kvazaar_enc_encode_frame (script_env [exact_output] accept_all)
        (holding_session [exact_output]) none (some (input_frame 0)) true).engine
        = some exact_output
      ∧ (gst_kvazaar_enc_encode_frame (script_env [exact_output] accept_all)
          (holding_session [exact_output]) none (some (input_frame 0)) true).out_frame_num
        = some (if 0 < to_guint32
              (gst_kvazaar_enc_encode_frame (script_env [exact_output] accept_all)
                (holding_session [exact_output]) none (some (input_frame 0))
                true).enc.kvazaarconfig.intra_period
            then
              (to_guint32 exact_output.info_out.poc
                + (gst_kvazaar_enc_encode_frame (script_env [exact_output] accept_all)
                    (holding_session [exact_output]) none (some (input_frame 0))
                    true).enc.systeme_frame_number_offset) % 4294967296
            else to_guint32 exact_output.info_out.poc) :=
  ⟨by decide,
    C9_lookup_adds_offset_only_with_intra_period (script_env [exact_output] accept_all)
      (holding_session [exact_output]) none (some (input_frame 0)) true exact_output
      (by decide) (by decide) (by decide)⟩

/-! ### The offset over a run of submissions -/

theorem run_append {E : Type} (env : Env E) (fuel : Nat) (a b : List Op) :
    ∀ s : GstKvazaarEnc E, run env fuel s (a ++ b)
      = (run env fuel s a).bind (fun t => run env fuel t b) := by
  induction a with
  | nil => intro s; rfl
  | cons op a ih =>
    intro s
    simp only [List.cons_append, run]
    cases step env fuel s op with
    | none => rfl
    | some t => exact ih t

/-- Without a pending reconfiguration, a call on an open session is the
engine call followed by the drain of its output, on an instance that differs
from the given one in the engine instance and the recorded calls only. -/
theorem encode_frame_open {E : Type} (env : Env E) (s : GstKvazaarEnc E) (e : E)
    (img : Option kvz_picture) (input : Option GstVideoCodecFrame) (send : Bool)
    (h1 : s.kvazaarenc = some e) (h2 : s.reconfig = false) :
    ∃ s3 : GstKvazaarEnc E,
      gst_kvazaar_enc_encode_frame env s img input send
          = encode_frame_output env s3 (env.api.encoder_encode e img).2 img input send
        ∧ s3.kvazaarenc = some (env.api.encoder_encode e img).1
        ∧ s3.reconfig = false ∧ s3.input_state = s.input_state
        ∧ s3.kvazaarconfig = s.kvazaarconfig
        ∧ s3.systeme_frame_number_offset = s.systeme_frame_number_offset
        ∧ s3.frames = s.frames ∧ s3.pending_frames = s.pending_frames
        ∧ s3.calls = s.calls ++ [Call.encoder_encode img] := by
  refine ⟨{ s with
      kvazaarenc := some (env.api.encoder_encode e img).1,
      calls := s.calls ++ [Call.encoder_encode img] }, ?_, rfl, h2, rfl, rfl, rfl, rfl, rfl, rfl⟩
  unfold gst_kvazaar_enc_encode_frame
  simp only [h1, h2, Bool.false_eq_true, if_false]

/-- A drain returns unless the assertion of the chunk loop fails. -/
theorem encode_frame_output_returns {E : Type} (env : Env E) (s : GstKvazaarEnc E)
    (o : kvz_encode_out) (img : Option kvz_picture) (input : Option GstVideoCodecFrame)
    (send : Bool)
    (h : copy_chunks o.len_out o.chunks_out 0 (gst_buffer_new_allocate o.len_out) ≠ none) :
    ∃ v, (encode_frame_output env s o img input send).ret = .returned v := by
  unfold encode_frame_output
  split
  · exact ⟨_, rfl⟩
  · split
    · exact ⟨_, rfl⟩
    · dsimp only
      generalize gst_video_encoder_get_frame _ _ = l
      cases l with
      | none => exact ⟨_, rfl⟩
      | some frame =>
        dsimp only
        split
        · exact ⟨_, rfl⟩
        · by_cases hc : o.chunks_out = []
          · simp only [hc, ne_eq, not_true_eq_false, if_false]
            exact ⟨_, rfl⟩
          · simp only [hc, ne_eq, not_false_eq_true, if_true]
            cases hcc : copy_chunks o.len_out o.chunks_out 0 (gst_buffer_new_allocate o.len_out) with
            | none => exact absurd hcc h
            | some buf => exact ⟨_, rfl⟩

theorem to_guint32_natCast (n : Nat) (h : n < 4294967296) : to_guint32 (n : Int) = n := by
  unfold to_guint32
  omega

/-- A Submit on an open session whose input buffer can be mapped is a call of
`gst_kvazaar_enc_encode_frame` with the picture and the frame, on an instance
that differs from the given one in the two frame lists only. -/
theorem submit_open {E : Type} (env : Env E) (s : GstKvazaarEnc E) (frame : GstVideoCodecFrame)
    (info : GstVideoInfo) (e : E) (hin : s.input_state = some info)
    (hfmt : (gst_kvazaar_enc_gst_to_kvazaar_video_format info.format).2 = some 3)
    (henc : s.kvazaarenc = some e)
    (hmap : env.frame_map info frame.input_buffer ≠ none) :
    ∃ (s2 : GstKvazaarEnc E) (pic : kvz_picture),
      submit env s frame
          = ((gst_kvazaar_enc_encode_frame env s2 (some pic) (some frame) true).enc,
              (gst_kvazaar_enc_encode_frame env s2 (some pic) (some frame) true).ret)
        ∧ s2.kvazaarenc = some e ∧ s2.reconfig = s.reconfig ∧ s2.input_state = s.input_state
        ∧ s2.kvazaarconfig = s.kvazaarconfig
        ∧ s2.systeme_frame_number_offset = s.systeme_frame_number_offset := by
  unfold submit gst_kvazaar_enc_handle_frame gst_kvazaar_enc_queue_frame
  simp only [hin, hfmt, henc, ne_eq, not_true_eq_false, if_false]
  cases hm : env.frame_map info frame.input_buffer with
  | none => exact absurd hm hmap
  | some vframe => exact ⟨_, _, rfl, rfl, rfl, rfl, rfl, rfl⟩

/-- One submission to the reference engine without latency keeps the
invariant. -/
theorem zero_latency_submit (fin : GstVideoCodecFrame → GstFlowReturn) (P k : Nat)
    (s : GstKvazaarEnc PocEngine) (hP : 1 ≤ P) (hP2 : P ≤ 64) (hk : k < 2 * P)
    (hinv : ZeroLatencyInv P k s) :
    ∃ s' v, submit (poc_env 0 fin) s (input_frame k) = (s', Outcome.returned v)
      ∧ ZeroLatencyInv P (k + 1) s' := by
  obtain ⟨henc, hrec, hin, hcfg, hoff⟩ := hinv
  obtain ⟨s2, pic, hsub, henc2, hrec2, hin2, hcfg2, hoff2⟩ :=
    submit_open (poc_env 0 fin) s (input_frame k) video_info _ hin rfl henc (by simp [poc_env])
  obtain ⟨s3, heq, henc3, hrec3, hin3, hcfg3, hoff3, _, _, _⟩ :=
    encode_frame_open (poc_env 0 fin) s2 _ (some pic) (some (input_frame k)) true henc2
      (hrec2.trans hrec)
  have heng : (poc_env 0 fin).api.encoder_encode
      { intra_period := (P : Int), latency := 0, submitted := k, emitted := k } (some pic)
      = ({ intra_period := (P : Int), latency := 0, submitted := k + 1, emitted := k + 1 },
          { ret := 0, chunks_out := [⟨[k % 256]⟩], len_out := 1, img_rec := poc_picture k,
            info_out := { poc := poc_of (P : Int) k, qp := 0 } }) := by
    simp [poc_env, poc_api, PocEngine.encode]
  rw [heng] at heq henc3
  rw [hsub, heq]
  replace hin3 := hin3.trans (hin2.trans hin)
  replace hcfg3 : s3.kvazaarconfig.intra_period = (P : Int) :=
    (congrArg kvz_config.intra_period (hcfg3.trans hcfg2)).trans hcfg
  replace hoff3 : s3.systeme_frame_number_offset = if k ≤ P then 0 else P :=
    hoff3.trans (hoff2.trans hoff)
  obtain ⟨v, hv⟩ := encode_frame_output_returns (poc_env 0 fin) s3
    { ret := 0, chunks_out := [⟨[k % 256]⟩], len_out := 1, img_rec := poc_picture k,
      info_out := { poc := poc_of (P : Int) k, qp := 0 } }
    (some pic) (some (input_frame k)) true
    (by simp [copy_chunks, kvz_data_chunk.len, gst_buffer_new_allocate])
  refine ⟨_, v, Prod.ext rfl hv, ?_⟩
  obtain ⟨_, h2, h3, h4, h5, _⟩ := encode_frame_output_fields (poc_env 0 fin) s3
    { ret := 0, chunks_out := [⟨[k % 256]⟩], len_out := 1, img_rec := poc_picture k,
      info_out := { poc := poc_of (P : Int) k, qp := 0 } }
    (some pic) (some (input_frame k)) true
  refine ⟨h3.trans henc3, h4.trans hrec3, h5.trans hin3,
    (congrArg kvz_config.intra_period h2).trans hcfg3, ?_⟩
  rw [encode_frame_output_offset]
  simp only [hcfg3, hoff3]
  have hPg : to_guint32 (P : Int) = P := to_guint32_natCast P (by omega)
  have hpoc : to_guint32 (poc_of (P : Int) k) = k % P := by
    unfold poc_of
    have : (0 : Int) < (P : Int) := by omega
    rw [if_pos this]
    have e : ((k : Int) % (P : Int)) = ((k % P : Nat) : Int) := by push_cast; rfl
    rw [e]
    exact to_guint32_natCast _ (by
      have := Nat.mod_lt k (show P > 0 by omega)
      omega)
  rw [hPg, hpoc]
  have hwrap : intra_period_wrap (k % P) (some (input_frame k)) P = true ↔ k = P := by
    simp only [intra_period_wrap, input_frame, Bool.and_eq_true, decide_eq_true_eq]
    constructor
    · rintro ⟨h1, h2⟩
      have h3 : k % P = (k - P) % P := Nat.mod_eq_sub_mod h2
      rw [Nat.mod_eq_of_lt (show k - P < P by omega)] at h3
      omega
    · intro h
      subst h
      simp
  by_cases hkP : k = P
  · have hc : (0 : Int) ≤ 0 ∧ (1 : Nat) ≠ 0 ∧ 0 < P
        ∧ intra_period_wrap (k % P) (some (input_frame k)) P = true :=
      ⟨le_refl _, by decide, by omega, hwrap.2 hkP⟩
    rw [if_pos hc]
    subst hkP
    simp only [le_refl, if_true, zero_add]
    rw [if_neg (by omega)]
    omega
  · have hc : ¬ ((0 : Int) ≤ 0 ∧ (1 : Nat) ≠ 0 ∧ 0 < P
        ∧ intra_period_wrap (k % P) (some (input_frame k)) P = true) := by
      rintro ⟨_, _, _, h⟩
      exact hkP (hwrap.1 h)
    rw [if_neg hc]
    by_cases hle : k ≤ P
    · rw [if_pos hle, if_pos (by omega)]
    · rw [if_neg hle, if_neg (by omega)]

/-- A session opened on the reference engine without latency, before the
first submission. -/
theorem zero_latency_opened (fin : GstVideoCodecFrame → GstFlowReturn) (fuel P : Nat) :
    ∃ s, run (poc_env 0 fin) fuel (gst_kvazaar_enc_init (poc_api 0)) (submit_ops P 0) = some s
      ∧ ZeroLatencyInv P 0 s :=
  ⟨_, rfl, rfl, rfl, rfl, rfl, (rfl : _ = 0).trans (if_pos (Nat.zero_le P)).symm⟩

theorem zero_latency_run (fin : GstVideoCodecFrame → GstFlowReturn) (fuel P : Nat)
    (hP : 1 ≤ P) (hP2 : P ≤ 64) :
    ∀ k, k ≤ 2 * P →
      ∃ s, run (poc_env 0 fin) fuel (gst_kvazaar_enc_init (poc_api 0)) (submit_ops P k) = some s
        ∧ ZeroLatencyInv P k s := by
  intro k
  induction k with
  | zero => intro _; exact zero_latency_opened fin fuel P
  | succ k ih =>
    intro hk
    obtain ⟨s, hrun, hinv⟩ := ih (by omega)
    obtain ⟨s', v, hsub, hinv'⟩ := zero_latency_submit fin P k s hP hP2 (by omega) hinv
    refine ⟨s', ?_, hinv'⟩
    have hops : submit_ops P (k + 1) = submit_ops P k ++ [Op.handle_frame (input_frame k)] := by
      simp [submit_ops, List.range_succ]
    rw [hops, run_append, hrun]
    simp only [Option.bind, run, step, hsub]

/-- C10: for every intra period `P` with `1 ≤ P ≤ 64`, a freshly opened
session (offset 0) that submits the frames numbered `0 .. 2P-1` to an engine
giving one picture per submission with order count `n mod P` comes through
every submission, and `systeme_frame_number_offset` is 0 before each of the
submissions numbered `0 .. P` and `P` after the submission numbered `P` and
every later one: it changes exactly once, from 0 to `P`, at the submission
whose number is `P`. -/
theorem C10_offset_changes_once_in_two_periods (fin : GstVideoCodecFrame → GstFlowReturn)
    (fuel P k : Nat) (hP : 1 ≤ P) (hP2 : P ≤ 64) (hk : k ≤ 2 * P) :
    ∃ s, run (poc_env 0 fin) fuel (gst_kvazaar_enc_init (poc_api 0)) (submit_ops P k) = some s
      ∧ s.systeme_frame_number_offset = if k ≤ P then 0 else P := by
  obtain ⟨s, hrun, hinv⟩ := zero_latency_run fin fuel P hP hP2 k hk
  exact ⟨s, hrun, hinv.2.2.2.2⟩

/-- Witness for C10: intra period 2, after the submissions numbered 0, 1, 2. -/
theorem C10_offset_changes_once_in_two_periods_witness :
    1 ≤ 2 ∧ 2 ≤ 64 ∧ 3 ≤ 2 * 2
      ∧ ∃ s, run (poc_env 0 (fun _ => GST_FLOW_OK)) 10 (gst_kvazaar_enc_init (poc_api 0))
          (submit_ops 2 3) = some s
        ∧ s.systeme_frame_number_offset = if 3 ≤ 2 then 0 else 2 :=
  ⟨by decide, by decide, by decide,
    C10_offset_changes_once_in_two_periods (fun _ => GST_FLOW_OK) 10 2 3 (by decide) (by decide)
      (by decide)⟩

/-- C1: with an output latency of one picture the lookup leaves the
submission numbering.  Intra period 2, frames 0, 1, 2 and the final flush: the
pictures 0, 1, 2 are looked up under the frame numbers 0, 1, 0 (picture 2 is
drained by the flush, where no input frame is at hand to detect the wrap).
Intra period 1: they are looked up under 1, 2, 2 (the wrap is detected from
the number of the frame being submitted, not of the picture coming out). -/
theorem C1_lookup_leaves_numbering_under_latency :
    (run (poc_env 1 (fun _ => GST_FLOW_OK)) 10 (gst_kvazaar_enc_init (poc_api 1))
        (submit_ops 2 3 ++ [Op.finish])).map (fun s => lookups s.calls) = some [0, 1, 0]
      ∧ (run (poc_env 1 (fun _ => GST_FLOW_OK)) 10 (gst_kvazaar_enc_init (poc_api 1))
          (submit_ops 1 3 ++ [Op.finish])).map (fun s => lookups s.calls) = some [1, 2, 2]
      ∧ (run (poc_env 0 (fun _ => GST_FLOW_OK)) 10 (gst_kvazaar_enc_init (poc_api 0))
          (submit_ops 2 3 ++ [Op.finish])).map (fun s => lookups s.calls) = some [0, 1, 2] := by
  decide

/-! ### Option resolver -/

theorem assign_if_config {E : Type} (c : Prop) [Decidable c] (s : GstKvazaarEnc E)
    (f : kvz_config → kvz_config) :
    (assign_if c s f).kvazaarconfig = if c then f s.kvazaarconfig else s.kvazaarconfig := by
  unfold assign_if
  split <;> rfl

theorem parse_if_config {E : Type} (env : Env E) (c : Prop) [Decidable c] (s : GstKvazaarEnc E)
    (name : String) (value : Option String) :
    (parse_if env c s name value).kvazaarconfig = parse_cfg env c name value s.kvazaarconfig := by
  unfold parse_if parse_cfg
  split <;> rfl

/-- The ROI block writes the three ROI fields of the configuration only. -/
theorem init_encoder_roi_config {E : Type} (env : Env E) (s : GstKvazaarEnc E) :
    ∃ rw rh dq, (init_encoder_roi env s).1.kvazaarconfig
      = { s.kvazaarconfig with roi_width := rw, roi_height := rh, roi_dqps := dq } := by
  unfold init_encoder_roi
  split
  · split
    · exact ⟨_, _, _, rfl⟩
    · exact ⟨_, _, _, rfl⟩
    · exact ⟨_, _, _, rfl⟩
  · exact ⟨_, _, _, rfl⟩

/-- With an empty option string the last part of the resolver passes the
configuration it got to `encoder_open` and keeps it. -/
theorem init_encoder_open_empty {E : Type} (env : Env E) (s : GstKvazaarEnc E)
    (hopts : s.kvz_opts = "") :
    (init_encoder_open env s).1.kvazaarconfig = s.kvazaarconfig
      ∧ (init_encoder_open env s).1.calls = s.calls ++ [Call.encoder_open s.kvazaarconfig]
      ∧ (init_encoder_open env s).1.kvazaarenc = env.api.encoder_open s.kvazaarconfig := by
  have hp : parse_kvazaar_options env s s.kvz_opts = (s, 0) := by
    rw [hopts]
    rfl
  unfold init_encoder_open
  simp only [hp]
  split
  · rename_i h
    exact ⟨rfl, rfl, h.symm⟩
  · rename_i e h
    exact ⟨rfl, rfl, h.symm⟩

theorem parse_cfg_keeps {E : Type} (env : Env E) (keys : List String)
    (hkeep : KeepsDirectFields env.api keys) (c : Prop) [Decidable c] (name : String)
    (value : Option String) (hn : c → name ∈ keys) (cfg : kvz_config) :
    (parse_cfg env c name value cfg).ref_frames = cfg.ref_frames ∧
      (parse_cfg env c name value cfg).rdo = cfg.rdo ∧
      (parse_cfg env c name value cfg).ime_algorithm = cfg.ime_algorithm ∧
      (parse_cfg env c name value cfg).signhide_enable = cfg.signhide_enable ∧
      (parse_cfg env c name value cfg).rdoq_enable = cfg.rdoq_enable ∧
      (parse_cfg env c name value cfg).rdoq_skip = cfg.rdoq_skip ∧
      (parse_cfg env c name value cfg).trskip_enable = cfg.trskip_enable ∧
      (parse_cfg env c name value cfg).full_intra_search = cfg.full_intra_search ∧
      (parse_cfg env c name value cfg).mv_rdo = cfg.mv_rdo ∧
      (parse_cfg env c name value cfg).smp_enable = cfg.smp_enable ∧
      (parse_cfg env c name value cfg).amp_enable = cfg.amp_enable ∧
      (parse_cfg env c name value cfg).cu_split_termination = cfg.cu_split_termination ∧
      (parse_cfg env c name value cfg).me_early_termination = cfg.me_early_termination := by
  unfold parse_cfg
  split
  · rename_i hc
    have h := hkeep cfg name value (hn hc)
    simp only [direct_fields, List.cons.injEq, and_true] at h
    exact h
  · exact ⟨rfl, rfl, rfl, rfl, rfl, rfl, rfl, rfl, rfl, rfl, rfl, rfl, rfl⟩

/-- The override part of the resolver, field by field: a directly assigned
field holds the user's value when it is marked set and the value it had before
otherwise, provided the engine's parser keeps these fields for the options
that are parsed in between. -/
theorem init_encoder_overrides_direct {E : Type} (env : Env E) (s : GstKvazaarEnc E)
    (hkeep : KeepsDirectFields env.api (parsed_override_keys s)) :
    (init_encoder_overrides env s).kvazaarconfig.ref_frames
        = (if s.ref_frames ≠ 0 then s.ref_frames else s.kvazaarconfig.ref_frames) ∧
      (init_encoder_overrides env s).kvazaarconfig.rdo
        = (if s.rdo ≠ GST_KVAZAAR_ENC_RDO_DEFAULT then (s.rdo : Int) else s.kvazaarconfig.rdo) ∧
      (init_encoder_overrides env s).kvazaarconfig.ime_algorithm
        = (if s.me ≠ PROP_ME_DEFAULT then (s.me : Int) else s.kvazaarconfig.ime_algorithm) ∧
      (init_encoder_overrides env s).kvazaarconfig.signhide_enable
        = (if s.signhide_set = true then b2i s.signhide else s.kvazaarconfig.signhide_enable) ∧
      (init_encoder_overrides env s).kvazaarconfig.rdoq_enable
        = (if s.rdoq_set = true then b2i s.rdoq else s.kvazaarconfig.rdoq_enable) ∧
      (init_encoder_overrides env s).kvazaarconfig.rdoq_skip
        = (if s.rdoq_skip_set = true then b2i s.rdoq_skip else s.kvazaarconfig.rdoq_skip) ∧
      (init_encoder_overrides env s).kvazaarconfig.trskip_enable
        = (if s.trskip_set = true then b2i s.trskip else s.kvazaarconfig.trskip_enable) ∧
      (init_encoder_overrides env s).kvazaarconfig.full_intra_search
        = (if s.full_intra_search_set = true then b2i s.full_intra_search else s.kvazaarconfig.full_intra_search) ∧
      (init_encoder_overrides env s).kvazaarconfig.mv_rdo
        = (if s.mv_rdo_set = true then b2i s.mv_rdo else s.kvazaarconfig.mv_rdo) ∧
      (init_encoder_overrides env s).kvazaarconfig.smp_enable
        = (if s.smp_set = true then b2i s.smp else s.kvazaarconfig.smp_enable) ∧
      (init_encoder_overrides env s).kvazaarconfig.amp_enable
        = (if s.amp_set = true then b2i s.amp else s.kvazaarconfig.amp_enable) ∧
      (init_encoder_overrides env s).kvazaarconfig.cu_split_termination
        = (if s.cu_split_termination ≠ PROP_CU_SPLIT_TERM_DEFAULT then s.cu_split_termination else s.kvazaarconfig.cu_split_termination) ∧
      (init_encoder_overrides env s).kvazaarconfig.me_early_termination
        = (if s.me_early_termination ≠ PROP_ME_EARLY_TERM_DEFAULT then s.me_early_termination else s.kvazaarconfig.me_early_termination) := by
  have h1 := parse_cfg_keeps env _ hkeep (s.pu_depth_inter ≠ "") "pu-depth-inter"
    (some s.pu_depth_inter) (by intro hc; simp [parsed_override_keys, hc])
  have h2 := parse_cfg_keeps env _ hkeep (s.pu_depth_intra ≠ "") "pu-depth-intra"
    (some s.pu_depth_intra) (by intro hc; simp [parsed_override_keys, hc])
  have h3 := parse_cfg_keeps env _ hkeep (s.deblock_set = true) "deblock"
    (some s.deblock) (by intro hc; simp [parsed_override_keys, hc])
  have h4 := parse_cfg_keeps env _ hkeep (s.subme ≠ GST_KVAZAAER_ENC_SUBME_DEFAULT) "subme"
    (some (subme_types.getD s.subme "")) (by intro hc; simp [parsed_override_keys, hc])
  have h5 := parse_cfg_keeps env _ hkeep (s.sao ≠ GST_KVAZAAER_ENC_SAO_DEFAULT) "sao"
    (some (sao_types.getD s.sao "")) (by intro hc; simp [parsed_override_keys, hc])
  have h6 := parse_cfg_keeps env _ hkeep (s.gop_set = true) "gop"
    (some s.gop) (by intro hc; simp [parsed_override_keys, hc])
  refine ⟨?_, ?_, ?_, ?_, ?_, ?_, ?_, ?_, ?_, ?_, ?_, ?_, ?_⟩
  · unfold init_encoder_overrides
    simp only [assign_if_config, parse_if_config, apply_ite kvz_config.ref_frames,
      (h1 _).1, (h2 _).1, (h3 _).1, (h4 _).1, (h5 _).1, (h6 _).1,
      ite_self]
  · unfold init_encoder_overrides
    simp only [assign_if_config, parse_if_config, apply_ite kvz_config.rdo,
      (h1 _).2.1, (h2 _).2.1, (h3 _).2.1, (h4 _).2.1, (h5 _).2.1, (h6 _).2.1,
      ite_self]
  · unfold init_encoder_overrides
    simp only [assign_if_config, parse_if_config, apply_ite kvz_config.ime_algorithm,
      (h1 _).2.2.1, (h2 _).2.2.1, (h3 _).2.2.1, (h4 _).2.2.1, (h5 _).2.2.1, (h6 _).2.2.1,
      ite_self]
  · unfold init_encoder_overrides
    simp only [assign_if_config, parse_if_config, apply_ite kvz_config.signhide_enable,
      (h1 _).2.2.2.1, (h2 _).2.2.2.1, (h3 _).2.2.2.1, (h4 _).2.2.2.1, (h5 _).2.2.2.1, (h6 _).2.2.2.1,
      ite_self]
  · unfold init_encoder_overrides
    simp only [assign_if_config, parse_if_config, apply_ite kvz_config.rdoq_enable,
      (h1 _).2.2.2.2.1, (h2 _).2.2.2.2.1, (h3 _).2.2.2.2.1, (h4 _).2.2.2.2.1, (h5 _).2.2.2.2.1, (h6 _).2.2.2.2.1,
      ite_self]
  · unfold init_encoder_overrides
    simp only [assign_if_config, parse_if_config, apply_ite kvz_config.rdoq_skip,
      (h1 _).2.2.2.2.2.1, (h2 _).2.2.2.2.2.1, (h3 _).2.2.2.2.2.1, (h4 _).2.2.2.2.2.1, (h5 _).2.2.2.2.2.1, (h6 _).2.2.2.2.2.1,
      ite_self]
  · unfold init_encoder_overrides
    simp only [assign_if_config, parse_if_config, apply_ite kvz_config.trskip_enable,
      (h1 _).2.2.2.2.2.2.1, (h2 _).2.2.2.2.2.2.1, (h3 _).2.2.2.2.2.2.1, (h4 _).2.2.2.2.2.2.1, (h5 _).2.2.2.2.2.2.1, (h6 _).2.2.2.2.2.2.1,
      ite_self]
  · unfold init_encoder_overrides
    simp only [assign_if_config, parse_if_config, apply_ite kvz_config.full_intra_search,
      (h1 _).2.2.2.2.2.2.2.1, (h2 _).2.2.2.2.2.2.2.1, (h3 _).2.2.2.2.2.2.2.1, (h4 _).2.2.2.2.2.2.2.1, (h5 _).2.2.2.2.2.2.2.1, (h6 _).2.2.2.2.2.2.2.1,
      ite_self]
  · unfold init_encoder_overrides
    simp only [assign_if_config, parse_if_config, apply_ite kvz_config.mv_rdo,
      (h1 _).2.2.2.2.2.2.2.2.1, (h2 _).2.2.2.2.2.2.2.2.1, (h3 _).2.2.2.2.2.2.2.2.1, (h4 _).2.2.2.2.2.2.2.2.1, (h5 _).2.2.2.2.2.2.2.2.1, (h6 _).2.2.2.2.2.2.2.2.1,
      ite_self]
  · unfold init_encoder_overrides
    simp only [assign_if_config, parse_if_config, apply_ite kvz_config.smp_enable,
      (h1 _).2.2.2.2.2.2.2.2.2.1, (h2 _).2.2.2.2.2.2.2.2.2.1, (h3 _).2.2.2.2.2.2.2.2.2.1, (h4 _).2.2.2.2.2.2.2.2.2.1, (h5 _).2.2.2.2.2.2.2.2.2.1, (h6 _).2.2.2.2.2.2.2.2.2.1,
      ite_self]
  · unfold init_encoder_overrides
    simp only [assign_if_config, parse_if_config, apply_ite kvz_config.amp_enable,
      (h1 _).2.2.2.2.2.2.2.2.2.2.1, (h2 _).2.2.2.2.2.2.2.2.2.2.1, (h3 _).2.2.2.2.2.2.2.2.2.2.1, (h4 _).2.2.2.2.2.2.2.2.2.2.1, (h5 _).2.2.2.2.2.2.2.2.2.2.1, (h6 _).2.2.2.2.2.2.2.2.2.2.1,
      ite_self]
  · unfold init_encoder_overrides
    simp only [assign_if_config, parse_if_config, apply_ite kvz_config.cu_split_termination,
      (h1 _).2.2.2.2.2.2.2.2.2.2.2.1, (h2 _).2.2.2.2.2.2.2.2.2.2.2.1, (h3 _).2.2.2.2.2.2.2.2.2.2.2.1, (h4 _).2.2.2.2.2.2.2.2.2.2.2.1, (h5 _).2.2.2.2.2.2.2.2.2.2.2.1, (h6 _).2.2.2.2.2.2.2.2.2.2.2.1,
      ite_self]
  · unfold init_encoder_overrides
    simp only [assign_if_config, parse_if_config, apply_ite kvz_config.me_early_termination,
      (h1 _).2.2.2.2.2.2.2.2.2.2.2.2, (h2 _).2.2.2.2.2.2.2.2.2.2.2.2, (h3 _).2.2.2.2.2.2.2.2.2.2.2.2, (h4 _).2.2.2.2.2.2.2.2.2.2.2.2, (h5 _).2.2.2.2.2.2.2.2.2.2.2.2, (h6 _).2.2.2.2.2.2.2.2.2.2.2.2,
      ite_self]

/-- The configuration the resolver ends with, for an empty option string: the
one its override part produced, up to the three ROI fields. -/
theorem init_encoder_resolved {E : Type} (env : Env E) (s : GstKvazaarEnc E) (info : GstVideoInfo)
    (hin : s.input_state = some info) (hopts : s.kvz_opts = "") :
    ∃ rw rh dq, (gst_kvazaar_enc_init_encoder env s).1.kvazaarconfig
      = { (init_encoder_overrides env (init_encoder_preset env
            (init_encoder_base (gst_kvazaar_enc_close_encoder s) info))).kvazaarconfig with
          roi_width := rw, roi_height := rh, roi_dqps := dq } := by
  obtain ⟨rw, rh, dq, hroi⟩ := init_encoder_roi_config env (init_encoder_overrides env
    (init_encoder_preset env (init_encoder_base (gst_kvazaar_enc_close_encoder s) info)))
  have hkept : InitKept s (init_encoder_roi env (init_encoder_overrides env
      (init_encoder_preset env (init_encoder_base (gst_kvazaar_enc_close_encoder s) info)))).1 :=
    ((((close_encoder_kept s).trans (init_encoder_base_kept _ _)).trans
      (init_encoder_preset_kept _ _)).trans (init_encoder_overrides_kept _ _)).trans
      (init_encoder_roi_kept _ _)
  refine ⟨rw, rh, dq, ?_⟩
  rw [← hroi]
  unfold gst_kvazaar_enc_init_encoder
  simp only [hin]
  split
  · rename_i e1 heq
    rw [heq]
  · rename_i e1 _ heq
    rw [heq] at hkept ⊢
    have ho : e1.kvz_opts = "" := by
      obtain ⟨_, _, _, _, _, _, _, _, _, h⟩ := hkept
      have h2 := congrArg GstKvazaarEnc.kvz_opts h
      exact h2.trans hopts
    exact (init_encoder_open_empty env e1 ho).1

/-- C6, counterexample: no preset is selected, the option string is empty and
the user has set `ref-frames` to 3 and `gop` to `lp-g4d3t1`, on an engine whose
option `gop` writes the number of reference frames.  The resolver assigns
`ref_frames` before it has the engine parse `gop`, so the resolved
configuration holds the engine's 99: neither the user's 3 nor the value after
the preset layer. -/
theorem C6_gop_option_replaces_user_ref_frames :
    (configured_session gop_sets_ref_frames
        [PropValue.ref_frames 3, PropValue.gop "lp-g4d3t1"]).kvz_opts = ""
      ∧ (configured_session gop_sets_ref_frames
          [PropValue.ref_frames 3, PropValue.gop "lp-g4d3t1"]).ref_frames = 3
      ∧ (gst_kvazaar_enc_init_encoder (script_env [] gop_sets_ref_frames)
          (configured_session gop_sets_ref_frames
            [PropValue.ref_frames 3, PropValue.gop "lp-g4d3t1"])).1.kvazaarconfig.ref_frames = 99
      ∧ (init_encoder_preset (script_env [] gop_sets_ref_frames)
          (init_encoder_base (gst_kvazaar_enc_close_encoder
            (configured_session gop_sets_ref_frames
              [PropValue.ref_frames 3, PropValue.gop "lp-g4d3t1"]))
            video_info)).kvazaarconfig.ref_frames
        = (configured_session gop_sets_ref_frames []).kvazaarconfig.ref_frames
      ∧ (configured_session gop_sets_ref_frames []).kvazaarconfig.ref_frames ≠ 99
      ∧ parsed_override_keys (configured_session gop_sets_ref_frames
          [PropValue.ref_frames 3, PropValue.gop "lp-g4d3t1"]) = ["gop"] := by
  decide

/-- C6 as the code has it: for every preset (whatever the engine makes of the
option `preset`) and an empty option string, on an engine whose parser leaves
the directly assigned fields alone when it is given those of the options
`pu-depth-inter`, `pu-depth-intra`, `deblock`, `subme`, `sao`, `gop` that this
call parses among the assignments (nothing is asked when none of them is
set), each directly assigned override field of `gst_kvazaar_enc_init_encoder`
holds the user's value in the resolved configuration when it is marked set
(flag true, or value different from its sentinel 0, `RDO_DEFAULT`, 31, -1,
-1), and otherwise the value the configuration had after the preset layer. -/
theorem C6_direct_overrides_win_over_preset {E : Type} (env : Env E) (s : GstKvazaarEnc E)
    (info : GstVideoInfo) (hin : s.input_state = some info) (hopts : s.kvz_opts = "")
    (hkeep : KeepsDirectFields env.api (parsed_override_keys s)) :
    (gst_kvazaar_enc_init_encoder env s).1.kvazaarconfig.ref_frames
        = (if s.ref_frames ≠ 0 then s.ref_frames
          else (init_encoder_preset env (init_encoder_base (gst_kvazaar_enc_close_encoder s)
            info)).kvazaarconfig.ref_frames) ∧
      (gst_kvazaar_enc_init_encoder env s).1.kvazaarconfig.rdo
        = (if s.rdo ≠ GST_KVAZAAR_ENC_RDO_DEFAULT then (s.rdo : Int)
          else (init_encoder_preset env (init_encoder_base (gst_kvazaar_enc_close_encoder s)
            info)).kvazaarconfig.rdo) ∧
      (gst_kvazaar_enc_init_encoder env s).1.kvazaarconfig.ime_algorithm
        = (if s.me ≠ PROP_ME_DEFAULT then (s.me : Int)
          else (init_encoder_preset env (init_encoder_base (gst_kvazaar_enc_close_encoder s)
            info)).kvazaarconfig.ime_algorithm) ∧
      (gst_kvazaar_enc_init_encoder env s).1.kvazaarconfig.signhide_enable
        = (if s.signhide_set = true then b2i s.signhide
          else (init_encoder_preset env (init_encoder_base (gst_kvazaar_enc_close_encoder s)
            info)).kvazaarconfig.signhide_enable) ∧
      (gst_kvazaar_enc_init_encoder env s).1.kvazaarconfig.rdoq_enable
        = (if s.rdoq_set = true then b2i s.rdoq
          else (init_encoder_preset env (init_encoder_base (gst_kvazaar_enc_close_encoder s)
            info)).kvazaarconfig.rdoq_enable) ∧
      (gst_kvazaar_enc_init_encoder env s).1.kvazaarconfig.rdoq_skip
        = (if s.rdoq_skip_set = true then b2i s.rdoq_skip
          else (init_encoder_preset env (init_encoder_base (gst_kvazaar_enc_close_encoder s)
            info)).kvazaarconfig.rdoq_skip) ∧
      (gst_kvazaar_enc_init_encoder env s).1.kvazaarconfig.trskip_enable
        = (if s.trskip_set = true then b2i s.trskip
          else (init_encoder_preset env (init_encoder_base (gst_kvazaar_enc_close_encoder s)
            info)).kvazaarconfig.trskip_enable) ∧
      (gst_kvazaar_enc_init_encoder env s).1.kvazaarconfig.full_intra_search
        = (if s.full_intra_search_set = true then b2i s.full_intra_search
          else (init_encoder_preset env (init_encoder_base (gst_kvazaar_enc_close_encoder s)
            info)).kvazaarconfig.full_intra_search) ∧
      (gst_kvazaar_enc_init_encoder env s).1.kvazaarconfig.mv_rdo
        = (if s.mv_rdo_set = true then b2i s.mv_rdo
          else (init_encoder_preset env (init_encoder_base (gst_kvazaar_enc_close_encoder s)
            info)).kvazaarconfig.mv_rdo) ∧
      (gst_kvazaar_enc_init_encoder env s).1.kvazaarconfig.smp_enable
        = (if s.smp_set = true then b2i s.smp
          else (init_encoder_preset env (init_encoder_base (gst_kvazaar_enc_close_encoder s)
            info)).kvazaarconfig.smp_enable) ∧
      (gst_kvazaar_enc_init_encoder env s).1.kvazaarconfig.amp_enable
        = (if s.amp_set = true then b2i s.amp
          else (init_encoder_preset env (init_encoder_base (gst_kvazaar_enc_close_encoder s)
            info)).kvazaarconfig.amp_enable) ∧
      (gst_kvazaar_enc_init_encoder env s).1.kvazaarconfig.cu_split_termination
        = (if s.cu_split_termination ≠ PROP_CU_SPLIT_TERM_DEFAULT then s.cu_split_termination
          else (init_encoder_preset env (init_encoder_base (gst_kvazaar_enc_close_encoder s)
            info)).kvazaarconfig.cu_split_termination) ∧
      (gst_kvazaar_enc_init_encoder env s).1.kvazaarconfig.me_early_termination
        = (if s.me_early_termination ≠ PROP_ME_EARLY_TERM_DEFAULT then s.me_early_termination
          else (init_encoder_preset env (init_encoder_base (gst_kvazaar_enc_close_encoder s)
            info)).kvazaarconfig.me_early_termination) := by
  obtain ⟨rw, rh, dq, hres⟩ := init_encoder_resolved env s info hin hopts
  have hkeys : parsed_override_keys (init_encoder_preset env
      (init_encoder_base (gst_kvazaar_enc_close_encoder s) info)) = parsed_override_keys s := by
    obtain ⟨_, _, _, _, _, _, _, _, _, h⟩ := ((close_encoder_kept s).trans
      (init_encoder_base_kept _ info)).trans (init_encoder_preset_kept env _)
    rw [h]
    rfl
  have hover := init_encoder_overrides_direct env (init_encoder_preset env
    (init_encoder_base (gst_kvazaar_enc_close_encoder s) info)) (by rw [hkeys]; exact hkeep)
  have hkept : InitKept s (init_encoder_preset env
      (init_encoder_base (gst_kvazaar_enc_close_encoder s) info)) :=
    ((close_encoder_kept s).trans (init_encoder_base_kept _ _)).trans
      (init_encoder_preset_kept _ _)
  obtain ⟨p0, p1, p2, p3, p4, p5, p6, p7, p8, p9, p10, p11, p12, p13, p14, p15, p16, p17, p18, p19, p20⟩ := hkept.props
  rw [hres]
  rw [p0, p1, p2, p3, p4, p5, p6, p7, p8, p9, p10, p11, p12, p13, p14, p15, p16, p17, p18, p19, p20] at hover
  exact hover

theorem init_encoder_overrides_qp {E : Type} (env : Env E) (s : GstKvazaarEnc E)
    (hkeep : ∀ cfg name value, name ∈ parsed_override_keys s →
      (env.api.config_parse cfg name value).1.qp = cfg.qp) :
    (init_encoder_overrides env s).kvazaarconfig.qp = s.kvazaarconfig.qp := by
  have hP : ∀ (c : Prop) [Decidable c] (name : String) (value : Option String),
      (c → name ∈ parsed_override_keys s) → ∀ cfg, (parse_cfg env c name value cfg).qp = cfg.qp := by
    intro c _ name value hn cfg
    unfold parse_cfg
    split
    · rename_i hc
      exact hkeep cfg name value (hn hc)
    · rfl
  have h1 := hP (s.pu_depth_inter ≠ "") "pu-depth-inter"
    (some s.pu_depth_inter) (by intro hc; simp [parsed_override_keys, hc])
  have h2 := hP (s.pu_depth_intra ≠ "") "pu-depth-intra"
    (some s.pu_depth_intra) (by intro hc; simp [parsed_override_keys, hc])
  have h3 := hP (s.deblock_set = true) "deblock"
    (some s.deblock) (by intro hc; simp [parsed_override_keys, hc])
  have h4 := hP (s.subme ≠ GST_KVAZAAER_ENC_SUBME_DEFAULT) "subme"
    (some (subme_types.getD s.subme "")) (by intro hc; simp [parsed_override_keys, hc])
  have h5 := hP (s.sao ≠ GST_KVAZAAER_ENC_SAO_DEFAULT) "sao"
    (some (sao_types.getD s.sao "")) (by intro hc; simp [parsed_override_keys, hc])
  have h6 := hP (s.gop_set = true) "gop"
    (some s.gop) (by intro hc; simp [parsed_override_keys, hc])
  unfold init_encoder_overrides
  simp only [assign_if_config, parse_if_config, apply_ite kvz_config.qp, h1 _, h2 _, h3 _, h4 _,
    h5 _, h6 _, ite_self]

/-- The last part of the resolver always calls `encoder_open`, with the
configuration it ends with, and returns whether a handle came back. -/
theorem init_encoder_open_spec {E : Type} (env : Env E) (s : GstKvazaarEnc E) :
    (init_encoder_open env s).1.calls
        = (parse_kvazaar_options env s s.kvz_opts).1.calls
          ++ [Call.encoder_open (init_encoder_open env s).1.kvazaarconfig]
      ∧ (init_encoder_open env s).1.kvazaarenc
        = env.api.encoder_open (init_encoder_open env s).1.kvazaarconfig
      ∧ (init_encoder_open env s).2
        = .returned (init_encoder_open env s).1.kvazaarenc.isSome := by
  unfold init_encoder_open
  dsimp only
  split
  · rename_i h
    exact ⟨rfl, h.symm, rfl⟩
  · rename_i e h
    exact ⟨rfl, h.symm, rfl⟩

/-- With an input state, the resolver either is ended in the ROI parse or
comes to its last part. -/
theorem init_encoder_reaches_open {E : Type} (env : Env E) (s : GstKvazaarEnc E)
    (info : GstVideoInfo) (hin : s.input_state = some info)
    (hret : (gst_kvazaar_enc_init_encoder env s).2 ≠ .aborted) :
    ∃ t, gst_kvazaar_enc_init_encoder env s = init_encoder_open env t := by
  unfold gst_kvazaar_enc_init_encoder at hret ⊢
  simp only [hin] at hret ⊢
  split
  · rename_i e1 heq
    rw [heq] at hret
    exact absurd rfl hret
  · exact ⟨_, rfl⟩

/-- C5, counterexample: the instance QP is 25 (set by the user), the preset
`ultrafast` is selected and its application sets the QP to 20, the option
string is empty; the configuration handed to `encoder_open` has QP 20, not
25. -/
theorem C5_user_qp_is_replaced_by_preset :
    (configured_session preset_sets_qp20 [PropValue.preset 1, PropValue.qp 25]).qp = 25
      ∧ (opened_configs (gst_kvazaar_enc_init_encoder (script_env [] preset_sets_qp20)
          (configured_session preset_sets_qp20 [PropValue.preset 1, PropValue.qp 25])).1.calls).map
          kvz_config.qp = [20]
      ∧ (gst_kvazaar_enc_init_encoder (script_env [] preset_sets_qp20)
          (configured_session preset_sets_qp20
            [PropValue.preset 1, PropValue.qp 25])).1.kvazaarconfig.qp ≠ 25 := by
  decide

/-- C5, as the code has it: with a selected preset whose application sets the
QP to 20 and an empty option string, the configuration
`gst_kvazaar_enc_init_encoder` resolves, and hands to `encoder_open` when it
gets there, has QP 20 whatever the instance QP is: the default 32 when the
user did not set it, or 25 when the user did.  The instance QP is written
before the preset is applied and not again after it.  Of the engine it is
used that the options parsed among the overrides keep the QP. -/
theorem C5_preset_qp_wins {E : Type} (env : Env E) (s : GstKvazaarEnc E) (info : GstVideoInfo)
    (hin : s.input_state = some info) (hopts : s.kvz_opts = "")
    (hsel : s.preset ≠ GST_KVAZAAR_ENC_NO_PRESET)
    (hpreset : ∀ cfg value, (env.api.config_parse cfg "preset" value).1.qp = 20)
    (hkeep : ∀ cfg name value, name ∈ parsed_override_keys s →
      (env.api.config_parse cfg name value).1.qp = cfg.qp) :
    (gst_kvazaar_enc_init_encoder env s).1.kvazaarconfig.qp = 20
      ∧ ((gst_kvazaar_enc_init_encoder env s).2 ≠ .aborted →
          ∃ before, (gst_kvazaar_enc_init_encoder env s).1.calls
            = before ++ [Call.encoder_open (gst_kvazaar_enc_init_encoder env s).1.kvazaarconfig]) := by
  constructor
  · obtain ⟨rw, rh, dq, hres⟩ := init_encoder_resolved env s info hin hopts
    have hkept : InitKept s (init_encoder_preset env
        (init_encoder_base (gst_kvazaar_enc_close_encoder s) info)) :=
      ((close_encoder_kept s).trans (init_encoder_base_kept _ _)).trans
        (init_encoder_preset_kept _ _)
    have hkeys : parsed_override_keys (init_encoder_preset env
        (init_encoder_base (gst_kvazaar_enc_close_encoder s) info)) = parsed_override_keys s := by
      obtain ⟨_, _, _, _, _, _, _, _, _, h⟩ := hkept
      rw [h]
      rfl
    have hover := init_encoder_overrides_qp env (init_encoder_preset env
      (init_encoder_base (gst_kvazaar_enc_close_encoder s) info)) (by rw [hkeys]; exact hkeep)
    rw [hres]
    show (init_encoder_overrides env (init_encoder_preset env
      (init_encoder_base (gst_kvazaar_enc_close_encoder s) info))).kvazaarconfig.qp = 20
    rw [hover]
    have hsel' : (init_encoder_base (gst_kvazaar_enc_close_encoder s) info).preset
        ≠ GST_KVAZAAR_ENC_NO_PRESET := by
      obtain ⟨_, _, _, _, _, _, _, _, _, h⟩ :=
        (close_encoder_kept s).trans (init_encoder_base_kept _ info)
      rw [h]
      exact hsel
    unfold init_encoder_preset
    rw [parse_if_config]
    unfold parse_cfg
    rw [if_pos hsel']
    exact hpreset _ _
  · intro hret
    obtain ⟨t, ht⟩ := init_encoder_reaches_open env s info hin hret
    rw [ht]
    exact ⟨_, (init_encoder_open_spec env t).1⟩

/-- Witness for C5 as the code has it: preset `ultrafast`, user QP 25. -/
theorem C5_preset_qp_wins_witness :
    (configured_session preset_sets_qp20 [PropValue.preset 1, PropValue.qp 25]).qp = 25
      ∧ (gst_kvazaar_enc_init_encoder (script_env [] preset_sets_qp20)
          (configured_session preset_sets_qp20
            [PropValue.preset 1, PropValue.qp 25])).1.kvazaarconfig.qp = 20 :=
  ⟨by decide,
    (C5_preset_qp_wins (script_env [] preset_sets_qp20)
      (configured_session preset_sets_qp20 [PropValue.preset 1, PropValue.qp 25]) video_info
      rfl rfl (by decide) (fun _ _ => rfl)
      (fun _ name _ hn => absurd
        ((by decide : parsed_override_keys (configured_session preset_sets_qp20
          [PropValue.preset 1, PropValue.qp 25]) = []) ▸ hn) (List.not_mem_nil name))).1⟩

/-- Witness for C6 as the code has it: the preset `ultrafast` is selected and
the user has set `signhide` to false, `ref-frames` to 3 and `gop`, on an
engine whose option `gop` leaves the directly assigned fields alone. -/
theorem C6_direct_overrides_win_over_preset_witness :
    parsed_override_keys (configured_session preset_sets_qp20
        [PropValue.preset 1, PropValue.signhide false, PropValue.ref_frames 3,
          PropValue.gop "lp-g4d3t1"]) = ["gop"]
      ∧ (gst_kvazaar_enc_init_encoder (script_env [] preset_sets_qp20)
          (configured_session preset_sets_qp20
            [PropValue.preset 1, PropValue.signhide false, PropValue.ref_frames 3,
              PropValue.gop "lp-g4d3t1"])).1.kvazaarconfig.ref_frames = 3
      ∧ (gst_kvazaar_enc_init_encoder (script_env [] preset_sets_qp20)
          (configured_session preset_sets_qp20
            [PropValue.preset 1, PropValue.signhide false, PropValue.ref_frames 3,
              PropValue.gop "lp-g4d3t1"])).1.kvazaarconfig.signhide_enable = 0 :=
  ⟨by decide,
    (C6_direct_overrides_win_over_preset (script_env [] preset_sets_qp20)
      (configured_session preset_sets_qp20
        [PropValue.preset 1, PropValue.signhide false, PropValue.ref_frames 3,
          PropValue.gop "lp-g4d3t1"]) video_info rfl rfl
      (fun cfg name value hn => by
        have hk : parsed_override_keys (configured_session preset_sets_qp20
            [PropValue.preset 1, PropValue.signhide false, PropValue.ref_frames 3,
              PropValue.gop "lp-g4d3t1"]) = ["gop"] := by decide
        rw [hk] at hn
        have hname : name = "gop" := by simpa using hn
        subst hname
        rfl)).1.trans (by decide),
    (C6_direct_overrides_win_over_preset (script_env [] preset_sets_qp20)
      (configured_session preset_sets_qp20
        [PropValue.preset 1, PropValue.signhide false, PropValue.ref_frames 3,
          PropValue.gop "lp-g4d3t1"]) video_info rfl rfl
      (fun cfg name value hn => by
        have hk : parsed_override_keys (configured_session preset_sets_qp20
            [PropValue.preset 1, PropValue.signhide false, PropValue.ref_frames 3,
              PropValue.gop "lp-g4d3t1"]) = ["gop"] := by decide
        rw [hk] at hn
        have hname : name = "gop" := by simpa using hn
        subst hname
        rfl)).2.2.2.1.trans (by decide)⟩

/-- Witness for C8: intra period 1, the engine reports order count 0 while
the frame numbered 1 is submitted. -/
theorem C8_offset_changes_exactly_at_wrap_witness :
    (gst_kvazaar_enc_encode_frame (script_env [exact_output] accept_all)
        { holding_session [exact_output] with
          kvazaarconfig := { zero_config with intra_period := 1 } }
        none (some (input_frame 1)) true).enc.systeme_frame_number_offset
      = (0 + 1) % 4294967296 :=
  (C8_offset_changes_exactly_at_wrap (script_env [exact_output] accept_all)
    { holding_session [exact_output] with
      kvazaarconfig := { zero_config with intra_period := 1 } }
    none (some (input_frame 1)) true).1
    ⟨⟨exact_output, by decide, by decide, by decide, by decide⟩, by decide,
      ⟨input_frame 1, rfl, by decide⟩⟩

/-! ### Re-open, reconfiguration and the error paths of a drain -/

/-- C11, failing input: `gst_kvazaar_enc_init_encoder` never writes
`systeme_frame_number_offset` (first part, every instance).  On the reference
engine without latency, after intra period 1 and the frames 0 and 1 the offset
is 1; a successful `gst_kvazaar_enc_init_encoder` on that session, and the
re-open of `gst_kvazaar_enc_flush`, leave the offset at 1 while `push_header`
is TRUE. -/
theorem C11_reopen_keeps_stale_offset :
    (∀ (E : Type) (env : Env E) (s : GstKvazaarEnc E),
        (gst_kvazaar_enc_init_encoder env s).1.systeme_frame_number_offset
          = s.systeme_frame_number_offset)
      ∧ (gst_kvazaar_enc_init_encoder (poc_env 0 (fun _ => GST_FLOW_OK))
          (session_after (poc_env 0 (fun _ => GST_FLOW_OK)) 10 (submit_ops 1 2))).2
        = .returned true
      ∧ (gst_kvazaar_enc_init_encoder (poc_env 0 (fun _ => GST_FLOW_OK))
          (session_after (poc_env 0 (fun _ => GST_FLOW_OK)) 10
            (submit_ops 1 2))).1.systeme_frame_number_offset = 1
      ∧ (gst_kvazaar_enc_init_encoder (poc_env 0 (fun _ => GST_FLOW_OK))
          (session_after (poc_env 0 (fun _ => GST_FLOW_OK)) 10
            (submit_ops 1 2))).1.push_header = true
      ∧ (run (poc_env 0 (fun _ => GST_FLOW_OK)) 10 (gst_kvazaar_enc_init (poc_api 0))
          (submit_ops 1 2 ++ [Op.flush])).map
            (fun s => (s.systeme_frame_number_offset, s.push_header, s.kvazaarenc.isSome))
        = some (1, true, true) :=
  ⟨fun _ env s => (init_encoder_kept env s).offset, by decide, by decide, by decide, by decide⟩

/-- C12, failing input: on the reference engine with a latency of one picture,
frame 0 is submitted (the engine holds it) and the bitrate is changed while
playing, which sets `reconfig`.  The Submit of frame 1 then closes the engine
without one drain call and does not return: the re-initialisation waits for
the object lock that `gst_kvazaar_enc_encode_frame` holds.  The engine calls
are open, encode, close; no frame is finished, the engine handle is NULL and
frame 0 stays in both frame lists.  The change of format (second part) drains
the engine twice and finishes frame 0 before the close. -/
theorem C12_reconfig_closes_without_drain :
    (submit (poc_env 1 (fun _ => GST_FLOW_OK))
        (session_after (poc_env 1 (fun _ => GST_FLOW_OK)) 10
          [Op.set_format video_info, Op.handle_frame (input_frame 0),
            Op.set_property false (PropValue.bitrate 500)])
        (input_frame 1)).2 = Outcome.aborted
      ∧ (engine_calls (submit (poc_env 1 (fun _ => GST_FLOW_OK))
          (session_after (poc_env 1 (fun _ => GST_FLOW_OK)) 10
            [Op.set_format video_info, Op.handle_frame (input_frame 0),
              Op.set_property false (PropValue.bitrate 500)])
          (input_frame 1)).1.calls,
        finished_frames (submit (poc_env 1 (fun _ => GST_FLOW_OK))
          (session_after (poc_env 1 (fun _ => GST_FLOW_OK)) 10
            [Op.set_format video_info, Op.handle_frame (input_frame 0),
              Op.set_property false (PropValue.bitrate 500)])
          (input_frame 1)).1.calls,
        (submit (poc_env 1 (fun _ => GST_FLOW_OK))
          (session_after (poc_env 1 (fun _ => GST_FLOW_OK)) 10
            [Op.set_format video_info, Op.handle_frame (input_frame 0),
              Op.set_property false (PropValue.bitrate 500)])
          (input_frame 1)).1.frames.map (fun f => f.system_frame_number),
        (submit (poc_env 1 (fun _ => GST_FLOW_OK))
          (session_after (poc_env 1 (fun _ => GST_FLOW_OK)) 10
            [Op.set_format video_info, Op.handle_frame (input_frame 0),
              Op.set_property false (PropValue.bitrate 500)])
          (input_frame 1)).1.pending_frames.map (fun fd => fd.frame),
        (submit (poc_env 1 (fun _ => GST_FLOW_OK))
          (session_after (poc_env 1 (fun _ => GST_FLOW_OK)) 10
            [Op.set_format video_info, Op.handle_frame (input_frame 0),
              Op.set_property false (PropValue.bitrate 500)])
          (input_frame 1)).1.kvazaarenc.isSome)
        = ([EngineCall.opened, EngineCall.picture, EngineCall.closed], [], [0, 1], [1, 0], false)
      ∧ (session_after (poc_env 1 (fun _ => GST_FLOW_OK)) 10
          [Op.set_format video_info, Op.handle_frame (input_frame 0),
            Op.set_property false (PropValue.bitrate 500)]).reconfig = true
      ∧ (run (poc_env 1 (fun _ => GST_FLOW_OK)) 10 (gst_kvazaar_enc_init (poc_api 1))
          [Op.set_format video_info, Op.handle_frame (input_frame 0),
            Op.set_format { video_info with width := 32 }]).map
            (fun s => (engine_calls s.calls,
              (finished_frames s.calls).map (fun f => f.system_frame_number)))
          = some ([EngineCall.opened, EngineCall.picture, EngineCall.drain, EngineCall.drain,
              EngineCall.closed, EngineCall.opened], [0]) := by
  decide

/-! ### Releases of registry entries -/

theorem unmapped_append (a b : List Call) : unmapped (a ++ b) = unmapped a ++ unmapped b := by
  induction a with
  | nil => rfl
  | cons c a ih =>
    cases c <;> simp [unmapped, ih]

theorem close_encoder_unmapped {E : Type} (s : GstKvazaarEnc E) :
    unmapped (gst_kvazaar_enc_close_encoder s).calls = unmapped s.calls := by
  unfold gst_kvazaar_enc_close_encoder
  split
  · simp [unmapped_append, unmapped]
  · rfl

theorem config_parse_call_unmapped {E : Type} (env : Env E) (s : GstKvazaarEnc E) (name : String)
    (value : Option String) :
    unmapped (config_parse_call env s name value).1.calls = unmapped s.calls := by
  simp [config_parse_call, unmapped_append, unmapped]

theorem assign_if_unmapped {E : Type} (c : Prop) [Decidable c] (s : GstKvazaarEnc E)
    (f : kvz_config → kvz_config) : unmapped (assign_if c s f).calls = unmapped s.calls := by
  unfold assign_if
  split <;> rfl

theorem parse_if_unmapped {E : Type} (env : Env E) (c : Prop) [Decidable c] (s : GstKvazaarEnc E)
    (name : String) (value : Option String) :
    unmapped (parse_if env c s name value).calls = unmapped s.calls := by
  unfold parse_if
  split
  · exact config_parse_call_unmapped _ _ _ _
  · rfl

theorem init_encoder_overrides_unmapped {E : Type} (env : Env E) (s : GstKvazaarEnc E) :
    unmapped (init_encoder_overrides env s).calls = unmapped s.calls := by
  unfold init_encoder_overrides
  repeat' first
    | exact assign_if_unmapped _ _ _
    | (refine (parse_if_unmapped _ _ _ _ _).trans ?_)
    | (refine (assign_if_unmapped _ _ _).trans ?_)

theorem init_encoder_roi_unmapped {E : Type} (env : Env E) (s : GstKvazaarEnc E) :
    unmapped (init_encoder_roi env s).1.calls = unmapped s.calls := by
  unfold init_encoder_roi
  split
  · split <;> rfl
  · rfl

theorem parse_options_loop_unmapped {E : Type} (env : Env E) (tokens : List (List Char)) :
    ∀ s : GstKvazaarEnc E, unmapped (parse_options_loop env tokens s).1.calls = unmapped s.calls := by
  induction tokens with
  | nil => intro s; rfl
  | cons token rest ih =>
    intro s
    unfold parse_options_loop
    split
    · exact config_parse_call_unmapped _ _ _ _
    · exact (ih _).trans (config_parse_call_unmapped _ _ _ _)

theorem init_encoder_open_unmapped {E : Type} (env : Env E) (s : GstKvazaarEnc E) :
    unmapped (init_encoder_open env s).1.calls = unmapped s.calls := by
  unfold init_encoder_open
  have h := parse_options_loop_unmapped env (strtok s.kvz_opts.toList [',']) s
  simp only [parse_kvazaar_options]
  split <;> simpa [unmapped_append, unmapped] using h

/-- The option resolver releases no registry entry. -/
theorem init_encoder_account {E : Type} (env : Env E) (s : GstKvazaarEnc E) :
    registry_account (gst_kvazaar_enc_init_encoder env s).1 = registry_account s := by
  have hk := (init_encoder_kept env s).frames.2.1
  have hu : unmapped (gst_kvazaar_enc_init_encoder env s).1.calls = unmapped s.calls := by
    unfold gst_kvazaar_enc_init_encoder
    split
    · rfl
    · rename_i info _
      have h : unmapped (init_encoder_roi env (init_encoder_overrides env (init_encoder_preset env
          (init_encoder_base (gst_kvazaar_enc_close_encoder s) info)))).1.calls
          = unmapped s.calls :=
        (init_encoder_roi_unmapped _ _).trans ((init_encoder_overrides_unmapped _ _).trans
          ((parse_if_unmapped _ _ _ _ _).trans (close_encoder_unmapped s)))
      split
      · rename_i e1 heq
        rw [heq] at h
        exact h
      · rename_i e1 _ heq
        rw [heq] at h
        exact (init_encoder_open_unmapped _ _).trans h
  unfold registry_account
  rw [hk, hu]

theorem init_encoder_locked_account {E : Type} (s : GstKvazaarEnc E) :
    registry_account (init_encoder_locked s).1 = registry_account s := by
  have hk := (init_encoder_locked_kept s).frames.2.1
  have hu : unmapped (init_encoder_locked s).1.calls = unmapped s.calls := by
    unfold init_encoder_locked
    split
    · rfl
    · exact close_encoder_unmapped s
  unfold registry_account
  rw [hk, hu]

/-- More fuel does not change the result of a flush that came to an end. -/
theorem flush_loop_mono {E : Type} (env : Env E) (send : Bool) (n : Nat) :
    ∀ (m : Nat) (s : GstKvazaarEnc E) (r : GstKvazaarEnc E × Outcome Unit),
      flush_loop env send n s = some r → n ≤ m → flush_loop env send m s = some r := by
  induction n with
  | zero => intro m s r h; simp [flush_loop] at h
  | succ n ih =>
    intro m s r h hnm
    obtain ⟨k, rfl⟩ : ∃ k, m = k + 1 := ⟨m - 1, by omega⟩
    cases hr : (gst_kvazaar_enc_encode_frame env s none none send).ret with
    | aborted =>
      simp only [flush_loop, hr] at h ⊢
      exact h
    | returned v =>
      simp only [flush_loop, hr] at h ⊢
      split at h
      · rename_i hc
        rw [if_pos hc]
        exact ih k _ r h (by omega)
      · rename_i hc
        rw [if_neg hc]
        exact h

/-! ### Orphaned output, flush without sending, engine errors -/

/-- A call of `gst_kvazaar_enc_encode_frame` that reached the engine is the
part after the engine call on an instance with the frame lists, the offset
and the releases of the given one, and an open engine. -/
theorem encode_frame_engine {E : Type} (env : Env E) (s : GstKvazaarEnc E)
    (img : Option kvz_picture) (input : Option GstVideoCodecFrame) (send : Bool)
    (o : kvz_encode_out)
    (h : (gst_kvazaar_enc_encode_frame env s img input send).engine = some o) :
    ∃ s3 : GstKvazaarEnc E,
      gst_kvazaar_enc_encode_frame env s img input send
          = encode_frame_output env s3 o img input send
        ∧ s3.frames = s.frames ∧ s3.pending_frames = s.pending_frames
        ∧ s3.systeme_frame_number_offset = s.systeme_frame_number_offset
        ∧ s3.kvazaarenc ≠ none
        ∧ unmapped s3.calls = unmapped s.calls := by
  have hk : InitKept s (if s.reconfig = true then init_encoder_locked s
      else (s, Outcome.returned true)).1
      ∧ registry_account (if s.reconfig = true then init_encoder_locked s
        else (s, Outcome.returned true)).1 = registry_account s := by
    split
    · exact ⟨init_encoder_locked_kept s, init_encoder_locked_account s⟩
    · exact ⟨InitKept.refl s, rfl⟩
  cases he0 : s.kvazaarenc with
  | none => simp [gst_kvazaar_enc_encode_frame, he0] at h
  | some e0 =>
    simp only [gst_kvazaar_enc_encode_frame, he0] at h ⊢
    generalize (if s.reconfig = true then init_encoder_locked s
      else (s, Outcome.returned true)) = x at hk h ⊢
    obtain ⟨s1, v⟩ := x
    cases v with
    | aborted => cases h
    | returned b =>
      dsimp only at hk h ⊢
      cases he : s1.kvazaarenc with
      | none => simp [he] at h
      | some e =>
        simp only [he] at h ⊢
        have ho := (encode_frame_output_fields env
          { s1 with
            kvazaarenc := some (env.api.encoder_encode e img).1,
            calls := s1.calls ++ [Call.encoder_encode img] }
          (env.api.encoder_encode e img).2 img input send).1
        rw [ho] at h
        cases h
        refine ⟨_, rfl, hk.1.frames.1, hk.1.frames.2.1, hk.1.offset, by simp, ?_⟩
        have h2 := hk.2
        unfold registry_account at h2
        rw [hk.1.frames.2.1] at h2
        have h3 := List.append_cancel_right h2
        simp [unmapped_append, unmapped, h3]

/-- C14, counterexample: the scripted engine answers the Submit of frame 0
with 3 bytes and the order count 5; no frame has the number 5, the drain (with
`send = TRUE`) returns `GST_FLOW_OK` to the caller and nothing is finished. -/
theorem C14_orphaned_output_returns_ok :
    (submit (script_env [stray_output] accept_all)
        (session_after (script_env [stray_output] accept_all) 1 [Op.set_format video_info])
        (input_frame 0)).2 = Outcome.returned GST_FLOW_OK
      ∧ lookups (submit (script_env [stray_output] accept_all)
          (session_after (script_env [stray_output] accept_all) 1 [Op.set_format video_info])
          (input_frame 0)).1.calls = [5]
      ∧ finished_frames (submit (script_env [stray_output] accept_all)
          (session_after (script_env [stray_output] accept_all) 1 [Op.set_format video_info])
          (input_frame 0)).1.calls = [] := by
  decide

/-- C14 as the code has it: whenever a drain with `send = TRUE` receives
non-empty output from the engine and `gst_video_encoder_get_frame` finds no
frame under the computed number, `gst_kvazaar_enc_encode_frame` returns
`GST_FLOW_OK`; no frame is finished and both frame lists stay as they were. -/
theorem C14_orphaned_output_is_dropped {E : Type} (env : Env E) (s : GstKvazaarEnc E)
    (img : Option kvz_picture) (input : Option GstVideoCodecFrame) (o : kvz_encode_out)
    (hengine : (gst_kvazaar_enc_encode_frame env s img input true).engine = some o)
    (hret : 0 ≤ o.ret) (hlen : o.len_out ≠ 0)
    (hnone : (gst_kvazaar_enc_encode_frame env s img input true).found = none) :
    (gst_kvazaar_enc_encode_frame env s img input true).ret = Outcome.returned GST_FLOW_OK
      ∧ (gst_kvazaar_enc_encode_frame env s img input true).finished = none
      ∧ (gst_kvazaar_enc_encode_frame env s img input true).enc.frames = s.frames
      ∧ (gst_kvazaar_enc_encode_frame env s img input true).enc.pending_frames
        = s.pending_frames := by
  obtain ⟨s3, heq, hf, hp, _, _, _⟩ := encode_frame_engine env s img input true o hengine
  rw [heq] at hnone ⊢
  have h1 : ¬ o.ret < 0 := by omega
  unfold encode_frame_output at hnone ⊢
  simp only [h1, hlen, if_false] at hnone ⊢
  split
  · exact ⟨rfl, rfl, hf, hp⟩
  · rename_i frame hl
    rw [hl] at hnone
    simp only [Bool.true_eq_false, if_false] at hnone
    split at hnone <;> cases hnone

/-- Witness for C14 as the code has it: the output with order count 5 on the
session that holds frame 0. -/
theorem C14_orphaned_output_is_dropped_witness :
    (gst_kvazaar_enc_encode_frame (script_env [stray_output] accept_all)
        (holding_session [stray_output]) none none true).ret = Outcome.returned GST_FLOW_OK
      ∧ (gst_kvazaar_enc_encode_frame (script_env [stray_output] accept_all)
        (holding_session [stray_output]) none none true).finished = none
      ∧ (gst_kvazaar_enc_encode_frame (script_env [stray_output] accept_all)
        (holding_session [stray_output]) none none true).enc.frames
          = (holding_session [stray_output]).frames
      ∧ (gst_kvazaar_enc_encode_frame (script_env [stray_output] accept_all)
        (holding_session [stray_output]) none none true).enc.pending_frames
          = (holding_session [stray_output]).pending_frames :=
  C14_orphaned_output_is_dropped (script_env [stray_output] accept_all)
    (holding_session [stray_output]) none none stray_output (by decide) (by decide) (by decide)
    (by decide)

theorem find_mem {α : Type} (p : α → Bool) (l : List α) (a : α) (h : l.find? p = some a) :
    a ∈ l := by
  induction l with
  | nil => simp at h
  | cons b l ih =>
    rw [List.find?_cons] at h
    split at h
    · cases h
      exact List.mem_cons_self _ _
    · exact List.mem_cons_of_mem _ (ih h)

/-- The list walk of `gst_kvazaar_enc_dequeue_frame` leaves a list without a
matching entry as it is. -/
theorem dequeue_link_absent (ptr : Nat) (l : List FrameData)
    (h : l.any (fun fdata => decide (fdata.frame = ptr)) = false) : dequeue_link ptr l = l := by
  induction l with
  | nil => rfl
  | cons fd l ih =>
    simp only [List.any_cons, Bool.or_eq_false_iff, decide_eq_false_iff_not] at h
    simp only [dequeue_link, ne_eq, h.1, not_false_eq_true, if_true, ih h.2]

/-- The registry and the releases after `gst_kvazaar_enc_dequeue_frame`. -/
theorem dequeue_frame_registry {E : Type} (s : GstKvazaarEnc E) (ptr : Nat) :
    (gst_kvazaar_enc_dequeue_frame s ptr).pending_frames = dequeue_link ptr s.pending_frames
      ∧ unmapped (gst_kvazaar_enc_dequeue_frame s ptr).calls
        = unmapped s.calls
          ++ (if s.pending_frames.any (fun fdata => decide (fdata.frame = ptr)) = true
              then [ptr] else []) := by
  unfold gst_kvazaar_enc_dequeue_frame
  cases hany : s.pending_frames.any (fun fdata => decide (fdata.frame = ptr)) with
  | true => simp [unmapped_append, unmapped]
  | false => simp [dequeue_link_absent ptr _ hany]

/-- C15, counterexample: on the reference engine with a latency of one picture
frame 0 is submitted and the session is stopped.  The flush of
`gst_kvazaar_enc_stop` (with `send = FALSE`) receives the output for frame 0,
finds the frame, and passes it, without an output buffer, to
`gst_video_encoder_finish_frame`. -/
theorem C15_flush_without_sending_finishes_frame :
    (run (poc_env 1 (fun _ => GST_FLOW_OK)) 10 (gst_kvazaar_enc_init (poc_api 1))
        [Op.set_format video_info, Op.handle_frame (input_frame 0), Op.stop]).map
          (fun s => (engine_calls s.calls, finished_frames s.calls))
      = some ([EngineCall.opened, EngineCall.picture, EngineCall.drain, EngineCall.drain,
          EngineCall.closed], [input_frame 0])
      ∧ (input_frame 0).output_buffer = none := by
  decide

/-- C15 as the code has it: for every drain with `send = FALSE` that receives
non-empty output, the frame handed to `gst_video_encoder_finish_frame` is the
frame the lookup gave, as it was found (no output buffer is attached, its
fields are not written).  When a frame is found it is one of the held frames,
its first registry entry (if it has one) is unlinked and released, nothing
else is released and the other entries stay in their order, it is finished,
the drain returns the callback's result and the other held frames stay as
they were; when no frame is found nothing is finished, the drain returns
`GST_FLOW_OK`, and the held frames, the registry and the releases stay as
they were. -/
theorem C15_no_send_finishes_found_frame_unchanged {E : Type} (env : Env E)
    (s : GstKvazaarEnc E) (img : Option kvz_picture) (input : Option GstVideoCodecFrame)
    (o : kvz_encode_out)
    (hengine : (gst_kvazaar_enc_encode_frame env s img input false).engine = some o)
    (hret : 0 ≤ o.ret) (hlen : o.len_out ≠ 0) :
    (gst_kvazaar_enc_encode_frame env s img input false).finished
        = (gst_kvazaar_enc_encode_frame env s img input false).found
      ∧ (∀ f, (gst_kvazaar_enc_encode_frame env s img input false).found = some f →
          f ∈ s.frames
            ∧ (gst_kvazaar_enc_encode_frame env s img input false).ret
              = Outcome.returned (env.finish_frame f)
            ∧ (gst_kvazaar_enc_encode_frame env s img input false).enc.frames
              = release_frame f.ptr s.frames
            ∧ (gst_kvazaar_enc_encode_frame env s img input false).enc.pending_frames
              = dequeue_link f.ptr s.pending_frames
            ∧ unmapped (gst_kvazaar_enc_encode_frame env s img input false).enc.calls
              = unmapped s.calls
                ++ (if s.pending_frames.any (fun fdata => decide (fdata.frame = f.ptr)) = true
                    then [f.ptr] else []))
      ∧ ((gst_kvazaar_enc_encode_frame env s img input false).found = none →
          (gst_kvazaar_enc_encode_frame env s img input false).ret = Outcome.returned GST_FLOW_OK
            ∧ (gst_kvazaar_enc_encode_frame env s img input false).enc.frames = s.frames
            ∧ (gst_kvazaar_enc_encode_frame env s img input false).enc.pending_frames
              = s.pending_frames
            ∧ unmapped (gst_kvazaar_enc_encode_frame env s img input false).enc.calls
              = unmapped s.calls) := by
  obtain ⟨s3, heq, hf, hp, _, _, hu⟩ := encode_frame_engine env s img input false o hengine
  rw [heq]
  have h1 : ¬ o.ret < 0 := by omega
  unfold encode_frame_output
  simp only [h1, hlen, if_false, if_true]
  split
  · refine ⟨rfl, ?_, ?_⟩
    · intro f h
      cases h
    · intro _
      refine ⟨rfl, hf, hp, ?_⟩
      simp [unmapped_append, unmapped, hu]
  · rename_i frame hl
    refine ⟨rfl, ?_, ?_⟩
    · intro f h
      cases h
      refine ⟨?_, rfl, ?_, ?_, ?_⟩
      · rw [← hf]
        exact find_mem _ _ _ hl
      · simp only [encode_frame_out]
        rw [hf]
      · simp only [encode_frame_out]
        rw [(dequeue_frame_registry _ _).1]
        simp only [hp]
      · simp only [encode_frame_out, unmapped_append]
        rw [(dequeue_frame_registry _ _).2]
        simp only [unmapped_append, unmapped, hp, hu, List.append_nil]
    · intro h
      cases h

/-- Witness for C15 as the code has it: the session that holds frame 0, the
engine gives the output for it on a flush call; the frame is finished as it
was found and its registry entry is released. -/
theorem C15_no_send_finishes_found_frame_unchanged_witness :
    (gst_kvazaar_enc_encode_frame (script_env [exact_output] accept_all)
        (holding_session [exact_output]) none none false).finished = some (input_frame 0)
      ∧ (gst_kvazaar_enc_encode_frame (script_env [exact_output] accept_all)
          (holding_session [exact_output]) none none false).enc.pending_frames = []
      ∧ unmapped (gst_kvazaar_enc_encode_frame (script_env [exact_output] accept_all)
          (holding_session [exact_output]) none none false).enc.calls = [0]
      ∧ (gst_kvazaar_enc_encode_frame (script_env [exact_output] accept_all)
        (holding_session [exact_output]) none none false).finished
        = (gst_kvazaar_enc_encode_frame (script_env [exact_output] accept_all)
          (holding_session [exact_output]) none none false).found :=
  ⟨by decide, by decide, by decide,
    (C15_no_send_finishes_found_frame_unchanged (script_env [exact_output] accept_all)
      (holding_session [exact_output]) none none exact_output (by decide) (by decide)
      (by decide)).1⟩

/-- C16, failing input: the scripted engine answers the Submit of frame 0 with
the return code -1, downstream answers `GST_FLOW_OK` to
`gst_video_encoder_finish_frame`.  The Submit returns `GST_FLOW_OK`: the
`GST_FLOW_ERROR` stored in `ret` is replaced at `out:` by the result of the
callback. -/
theorem C16_engine_error_returns_callback_result :
    (handle_frame_drain (script_env [failing_output] accept_all)
        { session_after (script_env [failing_output] accept_all) 1 [Op.set_format video_info]
          with frames := [input_frame 0] }
        (input_frame 0)).map (fun r => r.engine.map (fun o => o.ret)) = some (some (-1))
      ∧ (submit (script_env [failing_output] accept_all)
          (session_after (script_env [failing_output] accept_all) 1 [Op.set_format video_info])
          (input_frame 0)).2 = Outcome.returned GST_FLOW_OK
      ∧ (script_env [failing_output] accept_all).finish_frame (input_frame 0) = GST_FLOW_OK := by
  decide

/-- C17: whenever the engine's encode call returns a negative code for the
Submit of frame `f`, the registry is afterwards what it was before the Submit
(the entry registered for `f` is taken off again, one release of `f` is
recorded, every other entry is kept), `f` itself, as it was passed in, is
handed to `gst_video_encoder_finish_frame` (no output buffer is attached) and
leaves the held frames, the engine handle is not NULL and
`systeme_frame_number_offset` is what it was.  The Submit returns what the
callback returns. -/
theorem C17_engine_error_finishes_input_frame {E : Type} (env : Env E) (s : GstKvazaarEnc E)
    (f : GstVideoCodecFrame) (r : EncodeFrameResult E) (o : kvz_encode_out)
    (hdrain : handle_frame_drain env s f = some r) (hengine : r.engine = some o)
    (hneg : o.ret < 0) :
    gst_kvazaar_enc_handle_frame env s f = (r.enc, r.ret)
      ∧ r.finished = some f
      ∧ r.ret = Outcome.returned (env.finish_frame f)
      ∧ r.enc.pending_frames = s.pending_frames
      ∧ unmapped r.enc.calls = unmapped s.calls ++ [f.ptr]
      ∧ r.enc.frames = release_frame f.ptr s.frames
      ∧ r.enc.kvazaarenc ≠ none
      ∧ r.enc.systeme_frame_number_offset = s.systeme_frame_number_offset := by
  unfold handle_frame_drain at hdrain
  unfold gst_kvazaar_enc_handle_frame
  cases hin : s.input_state with
  | none => simp [hin] at hdrain
  | some info =>
    simp only [hin] at hdrain ⊢
    by_cases hfmt : (gst_kvazaar_enc_gst_to_kvazaar_video_format info.format).2 = some 3
    · simp only [hfmt, ne_eq, not_true_eq_false, if_false] at hdrain ⊢
      cases henc : s.kvazaarenc with
      | none => simp [henc] at hdrain
      | some e =>
        simp only [henc] at hdrain ⊢
        unfold gst_kvazaar_enc_queue_frame at hdrain ⊢
        cases hm : env.frame_map info f.input_buffer with
        | none => simp [hm] at hdrain
        | some vframe =>
          simp only [hm, Option.some.injEq] at hdrain ⊢
          subst hdrain
          refine ⟨rfl, ?_⟩
          obtain ⟨s3, heq, hf, hp, hoff, hk, hu⟩ := encode_frame_engine env _ _ _ _ o hengine
          rw [heq]
          unfold encode_frame_output
          simp only [hneg, if_true, encode_frame_out, gst_kvazaar_enc_dequeue_frame, hp,
            List.any_cons, decide_True, Bool.true_or, dequeue_link, ne_eq, not_true_eq_false,
            if_false, unmapped_append, hu, hf, hoff]
          exact ⟨trivial, trivial, trivial, by simp [unmapped], trivial, hk, trivial⟩
    · simp [hfmt] at hdrain

/-- Witness for C17: the scripted engine answers the Submit of frame 0 with
the return code -1. -/
theorem C17_engine_error_finishes_input_frame_witness :
    (gst_kvazaar_enc_handle_frame (script_env [failing_output] accept_all)
        { session_after (script_env [failing_output] accept_all) 1 [Op.set_format video_info]
          with frames := [input_frame 0] } (input_frame 0)).1.pending_frames = []
      ∧ finished_frames (gst_kvazaar_enc_handle_frame (script_env [failing_output] accept_all)
          { session_after (script_env [failing_output] accept_all) 1 [Op.set_format video_info]
            with frames := [input_frame 0] } (input_frame 0)).1.calls = [input_frame 0]
      ∧ (gst_kvazaar_enc_encode_frame (script_env [failing_output] accept_all)
          { session_after (script_env [failing_output] accept_all) 1 [Op.set_format video_info]
            with
            frames := [input_frame 0],
            pending_frames :=
              [{ frame := 0, vframe := { plane0 := 0, plane1 := 0, plane2 := 0, stride := 0 } }] }
          (some { y := 0, u := 0, v := 0, stride := 0, pts := 0, dts := 0, width := 64,
                  height := 64, interlacing := 0 })
          (some (input_frame 0)) true).finished = some (input_frame 0) :=
  ⟨by decide, by decide,
    (C17_engine_error_finishes_input_frame (script_env [failing_output] accept_all)
      { session_after (script_env [failing_output] accept_all) 1 [Op.set_format video_info]
        with frames := [input_frame 0] } (input_frame 0)
      (gst_kvazaar_enc_encode_frame (script_env [failing_output] accept_all)
        { session_after (script_env [failing_output] accept_all) 1 [Op.set_format video_info]
          with
          frames := [input_frame 0],
          pending_frames :=
            [{ frame := 0, vframe := { plane0 := 0, plane1 := 0, plane2 := 0, stride := 0 } }] }
        (some { y := 0, u := 0, v := 0, stride := 0, pts := 0, dts := 0, width := 64,
                height := 64, interlacing := 0 })
        (some (input_frame 0)) true)
      failing_output rfl (by decide) (by decide)).2.1⟩

/-- Without a pending reconfiguration a drain with `send = FALSE` returns, and
no reconfiguration is pending after it. -/
theorem encode_frame_no_send_returns {E : Type} (env : Env E) (s : GstKvazaarEnc E)
    (img : Option kvz_picture) (input : Option GstVideoCodecFrame) (hrec : s.reconfig = false) :
    (∃ v, (gst_kvazaar_enc_encode_frame env s img input false).ret = Outcome.returned v)
      ∧ (gst_kvazaar_enc_encode_frame env s img input false).enc.reconfig = false := by
  cases he : s.kvazaarenc with
  | none =>
    simp only [gst_kvazaar_enc_encode_frame, he]
    exact ⟨⟨_, rfl⟩, hrec⟩
  | some e =>
    obtain ⟨s3, heq, _, h3, _⟩ := encode_frame_open env s e img input false he hrec
    rw [heq]
    refine ⟨?_, (encode_frame_output_fields env s3 _ img input false).2.2.2.1.trans h3⟩
    unfold encode_frame_output
    split
    · exact ⟨_, rfl⟩
    · split
      · exact ⟨_, rfl⟩
      · dsimp only
        split
        · exact ⟨_, rfl⟩
        · simp only [if_true]
          exact ⟨_, rfl⟩

/-- Without a pending reconfiguration the flush of `gst_kvazaar_enc_stop`
never ends the process: it returns whenever it comes to an end. -/
theorem flush_loop_no_send_returns {E : Type} (env : Env E) (n : Nat) :
    ∀ (s : GstKvazaarEnc E) (r : GstKvazaarEnc E × Outcome Unit), s.reconfig = false →
      flush_loop env false n s = some r → r.2 = Outcome.returned () := by
  induction n with
  | zero => intro s r _ h; simp [flush_loop] at h
  | succ n ih =>
    intro s r hrec h
    obtain ⟨⟨v, hv⟩, hr⟩ := encode_frame_no_send_returns env s none none hrec
    simp only [flush_loop, hv] at h
    split at h
    · exact ih _ r hr h
    · cases h
      rfl

/-! ### ROI descriptors -/

/-- The decimal token of every integer in [-51, 51] is parsed back to it, is
not empty and contains no delimiter. -/
theorem decimal_parses_fin : ∀ i : Fin 103,
    parse_int (decimal ((i.val : Int) - 51)) (-51) 51 = (1, (i.val : Int) - 51)
      ∧ parse_int8 (decimal ((i.val : Int) - 51)) (-51) 51 = (1, (i.val : Int) - 51)
      ∧ decimal ((i.val : Int) - 51) ≠ []
      ∧ ∀ c ∈ decimal ((i.val : Int) - 51), c ∉ roi_delimiters := by
  decide

theorem decimal_parses (v : Int) (h1 : -51 ≤ v) (h2 : v ≤ 51) :
    parse_int (decimal v) (-51) 51 = (1, v)
      ∧ parse_int8 (decimal v) (-51) 51 = (1, v)
      ∧ decimal v ≠ []
      ∧ ∀ c ∈ decimal v, c ∉ roi_delimiters := by
  have h := decimal_parses_fin ⟨(v + 51).toNat, by omega⟩
  have e : (((⟨(v + 51).toNat, by omega⟩ : Fin 103).val : Int) - 51) = v := by
    simp only []
    omega
  rw [e] at h
  exact h

/-- A token without delimiter is read up to the character after it. -/
theorem strtok_aux_token (delim : List Char) (t : List Char) (h : ∀ c ∈ t, c ∉ delim) :
    ∀ (rest cur : List Char),
      strtok_aux delim (t ++ rest) cur = strtok_aux delim rest (cur ++ t) := by
  induction t with
  | nil => intro rest cur; simp
  | cons c t ih =>
    intro rest cur
    have hc : c ∉ delim := h c (List.mem_cons_self _ _)
    have ht : ∀ c ∈ t, c ∉ delim := fun x hx => h x (List.mem_cons_of_mem _ hx)
    show strtok_aux delim (c :: (t ++ rest)) cur = _
    rw [strtok_aux]
    simp only [hc, if_false]
    rw [ih ht]
    simp

/-- The tokens of a text of separator-token pairs are the tokens. -/
theorem strtok_aux_join (delim : List Char) :
    ∀ (ts : List (List Char)) (seps : List Char) (cur : List Char),
      seps.length = ts.length → (∀ c ∈ seps, c ∈ delim) →
      (∀ t ∈ ts, t ≠ [] ∧ ∀ c ∈ t, c ∉ delim) → cur ≠ [] →
      strtok_aux delim (join_tokens seps ts) cur = cur :: ts := by
  intro ts
  induction ts with
  | nil =>
    intro seps cur hl _ _ hcur
    cases seps with
    | nil => simp [join_tokens, strtok_aux, hcur]
    | cons c seps => simp at hl
  | cons t ts ih =>
    intro seps cur hl hs ht hcur
    cases seps with
    | nil => simp at hl
    | cons c seps =>
      have hc : c ∈ delim := hs c (List.mem_cons_self _ _)
      have hs2 : ∀ c ∈ seps, c ∈ delim := fun x hx => hs x (List.mem_cons_of_mem _ hx)
      have ht1 := ht t (List.mem_cons_self _ _)
      have ht2 : ∀ u ∈ ts, u ≠ [] ∧ ∀ c ∈ u, c ∉ delim :=
        fun u hu => ht u (List.mem_cons_of_mem _ hu)
      have hl2 : seps.length = ts.length := by simpa using hl
      show strtok_aux delim (c :: (t ++ join_tokens seps ts)) cur = _
      rw [strtok_aux]
      simp only [hc, if_true, hcur, if_false]
      rw [strtok_aux_token delim t ht1.2, List.nil_append, ih seps t hl2 hs2 ht2 ht1.1]

theorem parse_roi_dqps_decimal (size : Int) (d : List Int) : ∀ (i : Nat),
    (∀ v ∈ d, -51 ≤ v ∧ v ≤ 51) → (i : Int) + (d.length : Int) ≤ size →
    parse_roi_dqps (-51) 51 size i (d.map decimal) = Outcome.returned (some d) := by
  induction d with
  | nil => intro i _ _; rfl
  | cons v d ih =>
    intro i hd hlen
    have hv := hd v (List.mem_cons_self _ _)
    have h := (decimal_parses v hv.1 hv.2).2.1
    simp only [List.length_cons, Nat.cast_add, Nat.cast_one] at hlen
    have ih2 := ih (i + 1) (fun x hx => hd x (List.mem_cons_of_mem _ hx))
      (by push_cast; omega)
    have hin : ¬ (¬ (size = 0 ∧ i = 0) ∧ ¬ ((i : Int) < size)) := by
      intro hc
      have hp : (0 : Int) ≤ (d.length : Int) := Int.natCast_nonneg _
      omega
    simp only [List.map_cons, parse_roi_dqps, h, ih2, hin, if_false]
    simp

/-- C18: for all `w`, `h` in 1..51 and every list `d` of `w*h` integers in
[-51, 51], `parse_roi_array` with `min = -51`, `max = 51`, applied to the text
of the decimal tokens of `w`, `h` and `d` in which each two neighbours are
separated by one of the characters `,` `;` `:` and space (any choice per
gap), returns 1 with width `w`, height `h` and the delta map `d` in token
order; the descriptor `2,2,-1,-2,3,4` gives width 2, height 2 and the deltas
-1, -2, 3, 4. -/
theorem C18_parse_roi_array_reads_decimal_grid (w h : Int) (d : List Int) (seps : List Char)
    (width0 height0 : Int)
    (hw : 1 ≤ w ∧ w ≤ 51) (hh : 1 ≤ h ∧ h ≤ 51) (hd : ∀ v ∈ d, -51 ≤ v ∧ v ≤ 51)
    (hlen : (d.length : Int) = w * h) (hseps : ∀ c ∈ seps, c ∈ roi_delimiters)
    (hsl : seps.length = d.length + 1) :
    parse_roi_array width0 height0 (roi_text w h d seps) (-51) 51
        = Outcome.returned (some (w, h, d))
      ∧ parse_roi_array width0 height0 "2,2,-1,-2,3,4".toList (-51) 51
        = Outcome.returned (some (2, 2, [-1, -2, 3, 4])) := by
  have pw := decimal_parses w (by omega) (by omega)
  have ph := decimal_parses h (by omega) (by omega)
  have htok : strtok (roi_text w h d seps) roi_delimiters
      = decimal w :: decimal h :: d.map decimal := by
    unfold strtok roi_text
    rw [strtok_aux_token roi_delimiters (decimal w) pw.2.2.2, List.nil_append]
    refine strtok_aux_join roi_delimiters _ seps _ (by simp [hsl]) hseps ?_ pw.2.2.1
    intro t ht
    rcases List.mem_cons.1 ht with rfl | ht
    · exact ⟨ph.2.2.1, ph.2.2.2⟩
    · obtain ⟨v, hv, rfl⟩ := List.mem_map.1 ht
      have pv := decimal_parses v (hd v hv).1 (hd v hv).2
      exact ⟨pv.2.2.1, pv.2.2.2⟩
  have hprod : 1 ≤ w * h ∧ w * h ≤ 2601 := by
    constructor <;> nlinarith [hw.1, hw.2, hh.1, hh.2]
  have hsize : long_to_int (w * h) = w * h := by
    unfold long_to_int
    omega
  constructor
  · unfold parse_roi_array
    have htok2 : strtok (roi_text w h d seps) [',', ';', ':', ' ']
        = decimal w :: decimal h :: d.map decimal := htok
    simp only [htok2, pw.1, ph.1, hsize,
      parse_roi_dqps_decimal (w * h) d 0 hd (by rw [← hlen]; simp)]
    have h1 : ¬ w * h < 0 := by omega
    have h2 : ¬ ((d.length : Int) < w * h) := by omega
    have h3 : ¬ ((d.length : Int) > w * h) := by omega
    simp [h1, h2, h3]
  · rfl

/-- Witness for C18: the 2 x 2 grid with the deltas -1, -2, 3, 4 and the
separators `,` `;` `:` space `,`. -/
theorem C18_parse_roi_array_reads_decimal_grid_witness :
    roi_text 2 2 [-1, -2, 3, 4] [',', ';', ':', ' ', ','] = "2,2;-1:-2 3,4".toList
      ∧ parse_roi_array 0 0 (roi_text 2 2 [-1, -2, 3, 4] [',', ';', ':', ' ', ',']) (-51) 51
        = Outcome.returned (some (2, 2, [-1, -2, 3, 4])) :=
  ⟨by decide,
    (C18_parse_roi_array_reads_decimal_grid 2 2 [-1, -2, 3, 4] [',', ';', ':', ' ', ','] 0 0
      (by decide) (by decide) (by decide) (by decide) (by decide) (by decide)).1⟩

/-- C20, failing input: the width token `4294967298` is a base-10 integer
outside [-51, 51] and outside the range of `int`; `strtol` gives 4294967298,
the store into the `int d` leaves 2, the range check passes and
`parse_roi_array` returns 1 with width 2.  The token `99999999999999999999`,
for which `strtol` gives `LONG_MAX`, is taken as the delta value -1. -/
theorem C20_token_beyond_int_is_accepted :
    (strtol "4294967298".toList).1 = 4294967298
      ∧ parse_int "4294967298".toList (-51) 51 = (1, 2)
      ∧ parse_roi_array 0 0 "4294967298,2,1,2,3,4".toList (-51) 51
        = Outcome.returned (some (2, 2, [1, 2, 3, 4]))
      ∧ parse_int8 "99999999999999999999".toList (-51) 51 = (1, -1)
      ∧ parse_roi_array 0 0 "2,2,1,2,3,99999999999999999999".toList (-51) 51
        = Outcome.returned (some (2, 2, [1, 2, 3, -1])) := by
  decide

/-! ### Registry, close and non-positive ROI grids -/

/-- C30: `parse_roi_array` tests the width and the height with the `min` and
`max` it uses for the delta values and accepts a non-positive grid: with
`min = -51`, `max = 51` the descriptor `-2,-2,1,2,3,4` gives width -2, height
-2 and the four deltas 1, 2, 3, 4, and the descriptor `0,0` gives width 0,
height 0 and no deltas, whatever the locals `width` and `height` held. -/
theorem C30_parse_roi_array_accepts_non_positive_grid :
    ∀ width0 height0 : Int,
      parse_roi_array width0 height0 "-2,-2,1,2,3,4".toList (-51) 51
          = Outcome.returned (some (-2, -2, [1, 2, 3, 4]))
        ∧ parse_roi_array width0 height0 "0,0".toList (-51) 51
          = Outcome.returned (some (0, 0, []))
        ∧ parse_int "-2".toList (-51) 51 = (1, -2)
        ∧ parse_int8 "-2".toList (-51) 51 = (1, -2) :=
  fun _ _ => ⟨rfl, rfl, by decide, by decide⟩

/-- C27: `gst_kvazaar_enc_close_encoder` leaves the engine handle NULL and
records one `encoder_close` call exactly when the handle was not NULL; on a
closed session it returns the instance as it is, so a second close changes
nothing. -/
theorem C27_close_encoder_is_idempotent {E : Type} (s : GstKvazaarEnc E) :
    (gst_kvazaar_enc_close_encoder s).kvazaarenc = none
      ∧ (gst_kvazaar_enc_close_encoder s).calls
        = s.calls ++ (if s.kvazaarenc.isSome then [Call.encoder_close] else [])
      ∧ (s.kvazaarenc = none → gst_kvazaar_enc_close_encoder s = s)
      ∧ (s.kvazaarenc ≠ none → gst_kvazaar_enc_close_encoder s
          = { s with kvazaarenc := none, calls := s.calls ++ [Call.encoder_close] })
      ∧ gst_kvazaar_enc_close_encoder (gst_kvazaar_enc_close_encoder s)
        = gst_kvazaar_enc_close_encoder s := by
  by_cases h : s.kvazaarenc = none
  · have e : gst_kvazaar_enc_close_encoder s = s := by
      unfold gst_kvazaar_enc_close_encoder
      simp only [h]
    rw [e, e]
    refine ⟨h, by simp [h], ?_, ?_, rfl⟩
    · intro _
      rfl
    · intro hne
      exact absurd h hne
  · obtain ⟨e0, he⟩ := Option.ne_none_iff_exists'.1 h
    have e : gst_kvazaar_enc_close_encoder s
        = { s with kvazaarenc := none, calls := s.calls ++ [Call.encoder_close] } := by
      unfold gst_kvazaar_enc_close_encoder
      simp only [he]
    rw [e]
    refine ⟨rfl, by simp [he], ?_, ?_, ?_⟩
    · intro hn
      exact absurd hn h
    · intro _
      rfl
    · unfold gst_kvazaar_enc_close_encoder
      rfl

/-- Witness for C27: the open session that holds frame 0 is closed. -/
theorem C27_close_encoder_is_idempotent_witness :
    (holding_session [exact_output]).kvazaarenc ≠ none
      ∧ gst_kvazaar_enc_close_encoder (holding_session [exact_output])
        = { holding_session [exact_output] with
            kvazaarenc := none,
            calls := (holding_session [exact_output]).calls ++ [Call.encoder_close] }
      ∧ gst_kvazaar_enc_close_encoder (gst_kvazaar_enc_close_encoder
          (holding_session [exact_output]))
        = gst_kvazaar_enc_close_encoder (holding_session [exact_output]) :=
  ⟨by decide,
    (C27_close_encoder_is_idempotent (holding_session [exact_output])).2.2.2.1 (by decide),
    (C27_close_encoder_is_idempotent (holding_session [exact_output])).2.2.2.2⟩

theorem dequeue_link_split (ptr : Nat) (pre post : List FrameData) (fd : FrameData)
    (hfd : fd.frame = ptr) (hpre : ∀ x ∈ pre, x.frame ≠ ptr) :
    dequeue_link ptr (pre ++ fd :: post) = pre ++ post := by
  induction pre with
  | nil => simp [dequeue_link, hfd]
  | cons x pre ih =>
    have hx : x.frame ≠ ptr := hpre x (List.mem_cons_self _ _)
    have ih2 := ih (fun y hy => hpre y (List.mem_cons_of_mem _ hy))
    simp [dequeue_link, hx, ih2]

/-- C26: `gst_kvazaar_enc_dequeue_frame` takes the first entry whose frame is
the handle off the registry and keeps the entries before and after it in
their order (a second entry for the same handle stays); the frame of that
entry is released.  When no entry has the handle the instance is returned as
it is. -/
theorem C26_dequeue_frame_removes_first_match {E : Type} (s : GstKvazaarEnc E) (ptr : Nat) :
    (∀ (pre post : List FrameData) (fd : FrameData),
        s.pending_frames = pre ++ fd :: post → fd.frame = ptr → (∀ x ∈ pre, x.frame ≠ ptr) →
        (gst_kvazaar_enc_dequeue_frame s ptr).pending_frames = pre ++ post
          ∧ (gst_kvazaar_enc_dequeue_frame s ptr).calls = s.calls ++ [Call.frame_unmap ptr])
      ∧ ((∀ x ∈ s.pending_frames, x.frame ≠ ptr) → gst_kvazaar_enc_dequeue_frame s ptr = s) := by
  constructor
  · intro pre post fd hl hfd hpre
    unfold gst_kvazaar_enc_dequeue_frame
    have hany : s.pending_frames.any (fun fdata => decide (fdata.frame = ptr)) = true := by
      rw [hl]
      simp [hfd]
    rw [if_pos hany]
    exact ⟨by rw [hl]; exact dequeue_link_split ptr pre post fd hfd hpre, rfl⟩
  · intro hno
    unfold gst_kvazaar_enc_dequeue_frame
    have hany : ¬ s.pending_frames.any (fun fdata => decide (fdata.frame = ptr)) = true := by
      simp only [List.any_eq_true, decide_eq_true_eq, not_exists, not_and]
      exact hno
    rw [if_neg hany]

/-- Witness for C26: a registry with the frames 1, 0, 2, 0; frame 0 is taken
off. -/
theorem C26_dequeue_frame_removes_first_match_witness :
    (gst_kvazaar_enc_dequeue_frame
        { holding_session [] with
          pending_frames := [1, 0, 2, 0].map (fun n =>
            { frame := n, vframe := { plane0 := n, plane1 := 0, plane2 := 0, stride := 0 } }) }
        0).pending_frames
      = [1, 2, 0].map (fun n =>
          { frame := n, vframe := { plane0 := n, plane1 := 0, plane2 := 0, stride := 0 } })
    ∧ (gst_kvazaar_enc_dequeue_frame
        { holding_session [] with
          pending_frames := [1, 0, 2, 0].map (fun n =>
            { frame := n, vframe := { plane0 := n, plane1 := 0, plane2 := 0, stride := 0 } }) }
        0).calls
      = [Call.frame_unmap 0] :=
  (C26_dequeue_frame_removes_first_match
      { holding_session [] with
        pending_frames := [1, 0, 2, 0].map (fun n =>
          { frame := n, vframe := { plane0 := n, plane1 := 0, plane2 := 0, stride := 0 } }) }
      0).1
    [{ frame := 1, vframe := { plane0 := 1, plane1 := 0, plane2 := 0, stride := 0 } }]
    [{ frame := 2, vframe := { plane0 := 2, plane1 := 0, plane2 := 0, stride := 0 } },
      { frame := 0, vframe := { plane0 := 0, plane1 := 0, plane2 := 0, stride := 0 } }]
    { frame := 0, vframe := { plane0 := 0, plane1 := 0, plane2 := 0, stride := 0 } }
    (by decide) (by decide) (by decide)

/-! ### The option string -/

theorem parse_options_loop_accepted {E : Type} (env : Env E) (tokens : List (List Char)) :
    ∀ s : GstKvazaarEnc E, accepts_all env.api s.kvazaarconfig (tokens.map option_pair) = true →
      parse_options_loop env tokens s
        = ({ s with
              kvazaarconfig := config_after env.api s.kvazaarconfig (tokens.map option_pair),
              calls := s.calls ++ (tokens.map option_pair).map parse_call }, 0) := by
  induction tokens with
  | nil =>
    intro s _
    simp [parse_options_loop, config_after]
  | cons token rest ih =>
    intro s h
    simp only [List.map_cons, accepts_all, option_pair, Bool.and_eq_true, decide_eq_true_eq] at h
    unfold parse_options_loop
    simp only [config_parse_call]
    rw [if_neg h.1]
    have h2 := ih (config_parse_call env s (String.mk (strsep_eq token).1)
      ((strsep_eq token).2.map String.mk)).1 h.2
    simp only [config_parse_call] at h2
    rw [h2]
    simp [config_after, option_pair, parse_call]

theorem parse_options_loop_rejected {E : Type} (env : Env E)
    (pre : List (String × Option String)) :
    ∀ (tokens : List (List Char)) (s : GstKvazaarEnc E) (p : String × Option String)
      (post : List (String × Option String)),
      tokens.map option_pair = pre ++ p :: post →
      accepts_all env.api s.kvazaarconfig pre = true →
      (env.api.config_parse (config_after env.api s.kvazaarconfig pre) p.1 p.2).2 = 0 →
      parse_options_loop env tokens s
        = ({ s with
              kvazaarconfig :=
                (env.api.config_parse (config_after env.api s.kvazaarconfig pre) p.1 p.2).1,
              calls := s.calls ++ (pre ++ [p]).map parse_call }, 1) := by
  induction pre with
  | nil =>
    intro tokens s p post ht _ hrej
    cases tokens with
    | nil => simp at ht
    | cons token rest =>
      simp only [List.map_cons, List.nil_append, List.cons.injEq] at ht
      obtain ⟨hp, _⟩ := ht
      subst hp
      simp only [config_after, option_pair] at hrej
      unfold parse_options_loop
      simp only [config_parse_call]
      rw [if_pos hrej]
      simp [config_after, option_pair, parse_call]
  | cons q pre ih =>
    intro tokens s p post ht hacc hrej
    cases tokens with
    | nil => simp at ht
    | cons token rest =>
      simp only [List.map_cons, List.cons_append, List.cons.injEq] at ht
      obtain ⟨hq, hrest⟩ := ht
      subst hq
      simp only [accepts_all, option_pair, Bool.and_eq_true, decide_eq_true_eq] at hacc
      simp only [config_after, option_pair] at hrej
      unfold parse_options_loop
      simp only [config_parse_call]
      rw [if_neg hacc.1]
      have h2 := ih rest (config_parse_call env s (String.mk (strsep_eq token).1)
        ((strsep_eq token).2.map String.mk)).1 p post hrest hacc.2 hrej
      simp only [config_parse_call] at h2
      rw [h2]
      simp [config_after, option_pair, parse_call]

/-- C21: for every option string and every engine: when the pairs before the
k-th (`pre`) are accepted in turn and the k-th (`p`) is rejected,
`parse_kvazaar_options` returns 1 and the engine's parser has been called
with `pre` and then `p`, each once and in this order, and with no later pair;
when every pair is accepted it returns 0 and the parser has been called with
every pair, each once and in order. -/
theorem C21_parse_kvazaar_options_stops_at_first_rejected {E : Type} (env : Env E)
    (s : GstKvazaarEnc E) (array : String) :
    (∀ (pre post : List (String × Option String)) (p : String × Option String),
        option_pairs array = pre ++ p :: post →
        accepts_all env.api s.kvazaarconfig pre = true →
        (env.api.config_parse (config_after env.api s.kvazaarconfig pre) p.1 p.2).2 = 0 →
        (parse_kvazaar_options env s array).2 = 1
          ∧ (parse_kvazaar_options env s array).1.calls
            = s.calls ++ (pre ++ [p]).map parse_call)
      ∧ (accepts_all env.api s.kvazaarconfig (option_pairs array) = true →
          (parse_kvazaar_options env s array).2 = 0
            ∧ (parse_kvazaar_options env s array).1.calls
              = s.calls ++ (option_pairs array).map parse_call) := by
  constructor
  · intro pre post p hsplit hacc hrej
    unfold parse_kvazaar_options
    rw [parse_options_loop_rejected env pre _ s p post hsplit hacc hrej]
    exact ⟨rfl, rfl⟩
  · intro hacc
    unfold parse_kvazaar_options
    rw [parse_options_loop_accepted env _ s hacc]
    exact ⟨rfl, rfl⟩

/-- Witness for C21: the option string `a=1,bad=2,c=3` and an engine that
rejects the option `bad`. -/
theorem C21_parse_kvazaar_options_stops_at_first_rejected_witness :
    option_pairs "a=1,bad=2,c=3" = [("a", some "1"), ("bad", some "2"), ("c", some "3")]
      ∧ (parse_kvazaar_options (script_env [] rejects_bad) (configured_session rejects_bad [])
          "a=1,bad=2,c=3").2 = 1
      ∧ (parse_kvazaar_options (script_env [] rejects_bad) (configured_session rejects_bad [])
          "a=1,bad=2,c=3").1.calls
        = (configured_session rejects_bad []).calls
          ++ ([("a", some "1")] ++ [("bad", some "2")]).map parse_call :=
  ⟨by decide,
    (C21_parse_kvazaar_options_stops_at_first_rejected (script_env [] rejects_bad)
      (configured_session rejects_bad []) "a=1,bad=2,c=3").1
      [("a", some "1")] [("c", some "3")] ("bad", some "2") (by decide) (by decide) (by decide)⟩

theorem config_after_append {E : Type} (api : kvz_api E) (pre : List (String × Option String)) :
    ∀ (cfg : kvz_config) (p : String × Option String),
      config_after api cfg (pre ++ [p])
        = (api.config_parse (config_after api cfg pre) p.1 p.2).1 := by
  induction pre with
  | nil => intro cfg p; rfl
  | cons q pre ih =>
    intro cfg p
    simp only [List.cons_append, config_after]
    exact ih _ p

theorem accepts_split {E : Type} (api : kvz_api E) (pairs : List (String × Option String)) :
    ∀ cfg : kvz_config, accepts_all api cfg pairs = true
      ∨ ∃ pre p post, pairs = pre ++ p :: post ∧ accepts_all api cfg pre = true
          ∧ (api.config_parse (config_after api cfg pre) p.1 p.2).2 = 0 := by
  induction pairs with
  | nil => intro cfg; left; rfl
  | cons q pairs ih =>
    intro cfg
    by_cases hq : (api.config_parse cfg q.1 q.2).2 = 0
    · right
      exact ⟨[], q, pairs, rfl, rfl, hq⟩
    · rcases ih (api.config_parse cfg q.1 q.2).1 with h | ⟨pre, p, post, h1, h2, h3⟩
      · left
        simp [accepts_all, hq, h]
      · right
        refine ⟨q :: pre, p, post, by rw [h1]; rfl, ?_, h3⟩
        simp [accepts_all, hq, h2]

/-- The pairs `parse_kvazaar_options` hands to the engine's parser are the
first `m` pairs of the option string, all of them when it returns 0; the
configuration it leaves is the one the parser made of them. -/
theorem parse_kvazaar_options_prefix {E : Type} (env : Env E) (s : GstKvazaarEnc E)
    (array : String) :
    ∃ m, m ≤ (option_pairs array).length
      ∧ (parse_kvazaar_options env s array).1.calls
        = s.calls ++ ((option_pairs array).take m).map parse_call
      ∧ (parse_kvazaar_options env s array).1.kvazaarconfig
        = config_after env.api s.kvazaarconfig ((option_pairs array).take m)
      ∧ ((parse_kvazaar_options env s array).2 = 0 → m = (option_pairs array).length) := by
  rcases accepts_split env.api (option_pairs array) s.kvazaarconfig with
    h | ⟨pre, p, post, h1, h2, h3⟩
  · refine ⟨(option_pairs array).length, le_refl _, ?_, ?_, fun _ => rfl⟩
    · unfold parse_kvazaar_options
      rw [parse_options_loop_accepted env _ s h, List.take_length]
      rfl
    · unfold parse_kvazaar_options
      rw [parse_options_loop_accepted env _ s h, List.take_length]
      rfl
  · have ht : (option_pairs array).take (pre.length + 1) = pre ++ [p] := by
      rw [h1, List.take_append_eq_append_take]
      simp
    refine ⟨pre.length + 1, by rw [h1]; simp, ?_, ?_, ?_⟩
    · unfold parse_kvazaar_options
      rw [parse_options_loop_rejected env pre _ s p post h1 h2 h3, ht]
    · unfold parse_kvazaar_options
      rw [parse_options_loop_rejected env pre _ s p post h1 h2 h3, ht, config_after_append]
    · intro h0
      unfold parse_kvazaar_options at h0
      rw [parse_options_loop_rejected env pre _ s p post h1 h2 h3] at h0
      simp at h0

theorem strtok_aux_comma_join (segs : List (List Char)) :
    ∀ (seg cur : List Char), (∀ x ∈ seg :: segs, ',' ∉ x) →
      strtok_aux [','] (comma_join (seg :: segs)) cur
        = (if cur ++ seg = [] then [] else [cur ++ seg]) ++ segs.filter (fun x => x ≠ []) := by
  induction segs with
  | nil =>
    intro seg cur h
    have hs : ∀ c ∈ seg, c ∉ [','] := by
      intro c hc hmem
      simp only [List.mem_singleton] at hmem
      exact h seg (List.mem_cons_self _ _) (hmem ▸ hc)
    have := strtok_aux_token [','] seg hs [] cur
    simp only [List.append_nil] at this
    simp only [comma_join, this, strtok_aux, List.filter_nil, List.append_nil]
  | cons seg2 segs ih =>
    intro seg cur h
    have hs : ∀ c ∈ seg, c ∉ [','] := by
      intro c hc hmem
      simp only [List.mem_singleton] at hmem
      exact h seg (List.mem_cons_self _ _) (hmem ▸ hc)
    have h2 : ∀ x ∈ seg2 :: segs, ',' ∉ x := fun x hx => h x (List.mem_cons_of_mem _ hx)
    have ih2 := ih seg2 [] h2
    simp only [List.nil_append] at ih2
    show strtok_aux [','] (seg ++ ',' :: comma_join (seg2 :: segs)) cur = _
    rw [strtok_aux_token [','] seg hs, strtok_aux]
    simp only [List.mem_singleton, if_true, ih2]
    by_cases hcs : cur ++ seg = []
    · simp only [hcs, if_true, List.nil_append]
      by_cases h2e : seg2 = []
      · simp [h2e]
      · simp [h2e]
    · simp only [hcs, if_false]
      by_cases h2e : seg2 = []
      · simp [h2e]
      · simp [h2e]

theorem strsep_eq_split (k v : List Char) (hk : '=' ∉ k) :
    strsep_eq (k ++ '=' :: v) = (k, some v) := by
  have h1 : ∀ c ∈ k, (c != '=') = true := by
    intro c hc
    simp only [bne_iff_ne, ne_eq]
    intro hce
    exact hk (hce ▸ hc)
  unfold strsep_eq
  rw [List.takeWhile_append_of_pos h1, List.dropWhile_append_of_pos h1]
  simp [List.takeWhile, List.dropWhile]

theorem strsep_eq_whole (t : List Char) (ht : '=' ∉ t) : strsep_eq t = (t, none) := by
  have h1 : ∀ c ∈ t, (c != '=') = true := by
    intro c hc
    simp only [bne_iff_ne, ne_eq]
    intro hce
    exact ht (hce ▸ hc)
  unfold strsep_eq
  rw [List.takeWhile_eq_self_iff.2 h1, List.dropWhile_eq_nil_iff.2 h1]

theorem init_encoder_open_config {E : Type} (env : Env E) (s : GstKvazaarEnc E) :
    (init_encoder_open env s).1.kvazaarconfig
      = (parse_kvazaar_options env s s.kvz_opts).1.kvazaarconfig := by
  unfold init_encoder_open
  dsimp only
  split <;> rfl

/-- C22: the pairs of an option string made of comma-free segments joined by
commas are those of its non-empty segments, in order; the name of a pair is
the part of the token before its first `=` and the value everything after it
(`k=v=w` gives `k` and `v=w`; without `=` the value is NULL).  The parser is
handed the first `m` of these pairs, each once and in order (all of them
when `parse_kvazaar_options` returns 0, see C21).  In
`gst_kvazaar_enc_init_encoder` these calls follow the calls of all other
layers (close, direct fields, preset, overrides, ROI), start from the
configuration those layers left, and are followed only by `encoder_open`,
with the configuration the parser made of them. -/
theorem C22_option_string_pairs_come_last {E : Type} (env : Env E) (s : GstKvazaarEnc E)
    (segs : List (List Char)) (info : GstVideoInfo)
    (hseg : ∀ seg ∈ segs, ',' ∉ seg)
    (hopts : s.kvz_opts = String.mk (comma_join segs))
    (hin : s.input_state = some info)
    (hret : (gst_kvazaar_enc_init_encoder env s).2 ≠ Outcome.aborted) :
    option_pairs s.kvz_opts = (segs.filter (fun x => x ≠ [])).map option_pair
      ∧ (∀ k v : List Char, '=' ∉ k → option_pair (k ++ '=' :: v) = (String.mk k, some (String.mk v)))
      ∧ (∀ t : List Char, '=' ∉ t → option_pair t = (String.mk t, none))
      ∧ option_pair "k=v=w".toList = ("k", some "v=w")
      ∧ ∃ m, m ≤ (option_pairs s.kvz_opts).length
        ∧ ((parse_kvazaar_options env
              (init_encoder_roi env (init_encoder_overrides env (init_encoder_preset env
                (init_encoder_base (gst_kvazaar_enc_close_encoder s) info)))).1
              s.kvz_opts).2 = 0 → m = (option_pairs s.kvz_opts).length)
        ∧ (gst_kvazaar_enc_init_encoder env s).1.calls
          = (init_encoder_roi env (init_encoder_overrides env (init_encoder_preset env
                (init_encoder_base (gst_kvazaar_enc_close_encoder s) info)))).1.calls
            ++ ((option_pairs s.kvz_opts).take m).map parse_call
            ++ [Call.encoder_open (gst_kvazaar_enc_init_encoder env s).1.kvazaarconfig]
        ∧ (gst_kvazaar_enc_init_encoder env s).1.kvazaarconfig
          = config_after env.api
              (init_encoder_roi env (init_encoder_overrides env (init_encoder_preset env
                (init_encoder_base (gst_kvazaar_enc_close_encoder s) info)))).1.kvazaarconfig
              ((option_pairs s.kvz_opts).take m) := by
  refine ⟨?_, ?_, ?_, by decide, ?_⟩
  · rw [hopts]
    unfold option_pairs strtok
    cases segs with
    | nil => rfl
    | cons seg segs =>
      show List.map option_pair (strtok_aux [','] (comma_join (seg :: segs)) []) = _
      rw [strtok_aux_comma_join segs seg [] hseg]
      by_cases hs : seg = []
      · simp [hs]
      · simp [hs]
  · intro k v hk
    unfold option_pair
    rw [strsep_eq_split k v hk]
    rfl
  · intro t ht
    unfold option_pair
    rw [strsep_eq_whole t ht]
    rfl
  · have hkept : InitKept s (init_encoder_roi env (init_encoder_overrides env
        (init_encoder_preset env (init_encoder_base (gst_kvazaar_enc_close_encoder s) info)))).1 :=
      ((((close_encoder_kept s).trans (init_encoder_base_kept _ _)).trans
        (init_encoder_preset_kept _ _)).trans (init_encoder_overrides_kept _ _)).trans
        (init_encoder_roi_kept _ _)
    have hko : (init_encoder_roi env (init_encoder_overrides env (init_encoder_preset env
        (init_encoder_base (gst_kvazaar_enc_close_encoder s) info)))).1.kvz_opts = s.kvz_opts := by
      obtain ⟨_, _, _, _, _, _, _, _, _, h⟩ := hkept
      rw [h]
    have hinit : gst_kvazaar_enc_init_encoder env s
        = init_encoder_open env (init_encoder_roi env (init_encoder_overrides env
            (init_encoder_preset env
              (init_encoder_base (gst_kvazaar_enc_close_encoder s) info)))).1 := by
      unfold gst_kvazaar_enc_init_encoder at hret ⊢
      simp only [hin] at hret ⊢
      generalize (init_encoder_roi env (init_encoder_overrides env (init_encoder_preset env
        (init_encoder_base (gst_kvazaar_enc_close_encoder s) info)))) = y at hret ⊢
      obtain ⟨y1, v⟩ := y
      cases v with
      | aborted => exact absurd rfl hret
      | returned u => rfl
    generalize (init_encoder_roi env (init_encoder_overrides env (init_encoder_preset env
        (init_encoder_base (gst_kvazaar_enc_close_encoder s) info)))).1 = x at hko hinit ⊢
    obtain ⟨m, hm, hcalls, hcfg, hall⟩ := parse_kvazaar_options_prefix env x s.kvz_opts
    refine ⟨m, hm, hall, ?_, ?_⟩
    · rw [hinit, (init_encoder_open_spec env x).1, hko, hcalls]
    · rw [hinit, init_encoder_open_config, hko, hcfg]

/-- Witness for C22: the option string `a=1,,k=v=w` on an engine that accepts
every option. -/
theorem C22_option_string_pairs_come_last_witness :
    comma_join ["a=1".toList, [], "k=v=w".toList] = "a=1,,k=v=w".toList
      ∧ option_pairs (configured_session accept_all [PropValue.kvz_opts "a=1,,k=v=w"]).kvz_opts
        = ["a=1".toList, "k=v=w".toList].map option_pair
      ∧ parsed_pairs (gst_kvazaar_enc_init_encoder (script_env [] accept_all)
          (configured_session accept_all [PropValue.kvz_opts "a=1,,k=v=w"])).1.calls
        = [("a", some "1"), ("k", some "v=w")] :=
  ⟨by decide,
    (C22_option_string_pairs_come_last (script_env [] accept_all)
      (configured_session accept_all [PropValue.kvz_opts "a=1,,k=v=w"])
      ["a=1".toList, [], "k=v=w".toList] video_info (by decide) (by decide) (by decide)
      (by decide)).1,
    by decide⟩

/-! ### The flush loop -/

theorem flush_loop_iter {E : Type} (env : Env E) (send : Bool) (k : Nat) :
    ∀ (s : GstKvazaarEnc E) (fuel : Nat), k < fuel →
      (∀ i, i < k → drain_continues env send (drain_iter env send i s) = true) →
      drain_continues env send (drain_iter env send k s) = false →
      (gst_kvazaar_enc_encode_frame env (drain_iter env send k s) none none send).ret
        ≠ Outcome.aborted →
      flush_loop env send fuel s = some (drain_iter env send (k + 1) s, Outcome.returned ()) := by
  induction k with
  | zero =>
    intro s fuel hf _ hstop hret
    obtain ⟨f, rfl⟩ : ∃ f, fuel = f + 1 := ⟨fuel - 1, by omega⟩
    simp only [drain_iter] at hstop hret ⊢
    cases hr : (gst_kvazaar_enc_encode_frame env s none none send).ret with
    | aborted => exact absurd hr hret
    | returned v =>
      simp only [drain_continues, hr, Outcome.returned.injEq, Bool.and_eq_false_imp,
        decide_eq_true_eq, decide_eq_false_iff_not] at hstop
      simp only [flush_loop, hr]
      have hc : ¬ (v = GST_FLOW_OK ∧ 0 < (gst_kvazaar_enc_encode_frame env s none none send).len_out) :=
        fun h => hstop h.1 h.2
      rw [if_neg hc]
  | succ k ih =>
    intro s fuel hf hcont hstop hret
    obtain ⟨f, rfl⟩ : ∃ f, fuel = f + 1 := ⟨fuel - 1, by omega⟩
    have h0 := hcont 0 (by omega)
    simp only [drain_iter, drain_continues, Bool.and_eq_true, decide_eq_true_eq] at h0
    simp only [flush_loop, h0.1, h0.2, and_self, if_true]
    exact ih (gst_kvazaar_enc_encode_frame env s none none send).enc f (by omega)
      (fun i hi => hcont (i + 1) (by omega)) hstop hret

/-- C25: on an open session, when the first `k` drains each return
`GST_FLOW_OK` with output and the next one does not (it reports zero bytes
or returns another result), `gst_kvazaar_enc_flush_frames` makes exactly
these `k + 1` drains, each with a NULL picture, a NULL frame and the given
`send`, and returns; at least one drain is made.  A drain in which the
engine reports success and zero bytes returns `GST_FLOW_OK` with length 0.
On a closed session the instance is returned as it is, without any call. -/
theorem C25_flush_frames_drains_until_no_output {E : Type} (env : Env E) (s : GstKvazaarEnc E)
    (send : Bool) (k fuel : Nat)
    (hopen : s.kvazaarenc ≠ none) (hfuel : k < fuel)
    (hcont : ∀ i, i < k → drain_continues env send (drain_iter env send i s) = true)
    (hstop : drain_continues env send (drain_iter env send k s) = false)
    (hret : (gst_kvazaar_enc_encode_frame env (drain_iter env send k s) none none send).ret
      ≠ Outcome.aborted) :
    gst_kvazaar_enc_flush_frames env fuel s send
        = some (drain_iter env send (k + 1) s, Outcome.returned ())
      ∧ (∀ (t : GstKvazaarEnc E) (o : kvz_encode_out),
          (gst_kvazaar_enc_encode_frame env t none none send).engine = some o →
          0 ≤ o.ret → o.len_out = 0 →
          (gst_kvazaar_enc_encode_frame env t none none send).ret = Outcome.returned GST_FLOW_OK
            ∧ (gst_kvazaar_enc_encode_frame env t none none send).len_out = 0
            ∧ drain_continues env send t = false)
      ∧ (∀ (t : GstKvazaarEnc E) (n : Nat), t.kvazaarenc = none →
          gst_kvazaar_enc_flush_frames env n t send = some (t, Outcome.returned ())) := by
  refine ⟨?_, ?_, ?_⟩
  · obtain ⟨e, he⟩ := Option.ne_none_iff_exists'.1 hopen
    unfold gst_kvazaar_enc_flush_frames
    simp only [he]
    exact flush_loop_iter env send k s fuel hfuel hcont hstop hret
  · intro t o ho h1 h2
    obtain ⟨s3, heq, _⟩ := encode_frame_engine env t none none send o ho
    have hlt : ¬ o.ret < 0 := by omega
    have hr : (gst_kvazaar_enc_encode_frame env t none none send).ret
          = Outcome.returned GST_FLOW_OK
        ∧ (gst_kvazaar_enc_encode_frame env t none none send).len_out = 0 := by
      rw [heq]
      unfold encode_frame_output
      simp only [hlt, h2, if_false, if_true]
      exact ⟨trivial, trivial⟩
    refine ⟨hr.1, hr.2, ?_⟩
    simp [drain_continues, hr.2]
  · intro t n ht
    unfold gst_kvazaar_enc_flush_frames
    simp only [ht]

/-- Witness for C25: the reference engine with a latency of one picture holds
frame 0; the first drain of the flush gives its output, the second reports
zero bytes and ends the flush. -/
theorem C25_flush_frames_drains_until_no_output_witness :
    (gst_kvazaar_enc_flush_frames (poc_env 1 (fun _ => GST_FLOW_OK)) 5
        (session_after (poc_env 1 (fun _ => GST_FLOW_OK)) 10
          [Op.set_format video_info, Op.handle_frame (input_frame 0)]) true).map
          (fun r => engine_calls r.1.calls)
        = some [EngineCall.opened, EngineCall.picture, EngineCall.drain, EngineCall.drain]
      ∧ gst_kvazaar_enc_flush_frames (poc_env 1 (fun _ => GST_FLOW_OK)) 5
          (session_after (poc_env 1 (fun _ => GST_FLOW_OK)) 10
            [Op.set_format video_info, Op.handle_frame (input_frame 0)]) true
        = some (drain_iter (poc_env 1 (fun _ => GST_FLOW_OK)) true (1 + 1)
            (session_after (poc_env 1 (fun _ => GST_FLOW_OK)) 10
              [Op.set_format video_info, Op.handle_frame (input_frame 0)]),
            Outcome.returned ()) :=
  ⟨by decide,
    (C25_flush_frames_drains_until_no_output (poc_env 1 (fun _ => GST_FLOW_OK))
      (session_after (poc_env 1 (fun _ => GST_FLOW_OK)) 10
        [Op.set_format video_info, Op.handle_frame (input_frame 0)]) true 1 5
      (by decide) (by decide) (by decide) (by decide) (by decide)).1⟩

/-! ### The preset layer and the fields copied before it -/

theorem parsed_values_append (name : String) (a b : List Call) :
    parsed_values name (a ++ b) = parsed_values name a ++ parsed_values name b := by
  induction a with
  | nil => rfl
  | cons c a ih =>
    cases c <;> simp [parsed_values, ih]
    split <;> simp

theorem parsed_values_pairs (name : String) (ps : List (String × Option String))
    (h : ∀ p ∈ ps, p.1 ≠ name) : parsed_values name (ps.map parse_call) = [] := by
  induction ps with
  | nil => rfl
  | cons p ps ih =>
    have hp := h p (List.mem_cons_self _ _)
    have ih2 := ih (fun q hq => h q (List.mem_cons_of_mem _ hq))
    simp [parse_call, parsed_values, hp, ih2]

theorem parse_if_values {E : Type} (env : Env E) (c : Prop) [Decidable c] (s : GstKvazaarEnc E)
    (name key : String) (value : Option String) (hne : name ≠ key) :
    parsed_values key (parse_if env c s name value).calls = parsed_values key s.calls := by
  unfold parse_if
  split
  · simp [config_parse_call, parsed_values_append, parsed_values, hne]
  · rfl

theorem assign_if_values {E : Type} (c : Prop) [Decidable c] (s : GstKvazaarEnc E)
    (f : kvz_config → kvz_config) (key : String) :
    parsed_values key (assign_if c s f).calls = parsed_values key s.calls := by
  unfold assign_if
  split <;> rfl

theorem init_encoder_overrides_values {E : Type} (env : Env E) (s : GstKvazaarEnc E) :
    parsed_values "preset" (init_encoder_overrides env s).calls
      = parsed_values "preset" s.calls := by
  unfold init_encoder_overrides
  repeat' first
    | exact assign_if_values _ _ _ _
    | (refine (parse_if_values _ _ _ _ _ _ (by decide)).trans ?_)
    | (refine (assign_if_values _ _ _ _).trans ?_)

theorem init_encoder_roi_values {E : Type} (env : Env E) (s : GstKvazaarEnc E) (key : String) :
    parsed_values key (init_encoder_roi env s).1.calls = parsed_values key s.calls := by
  unfold init_encoder_roi
  split
  · split <;> rfl
  · rfl

theorem close_encoder_values {E : Type} (s : GstKvazaarEnc E) (key : String) :
    parsed_values key (gst_kvazaar_enc_close_encoder s).calls = parsed_values key s.calls := by
  unfold gst_kvazaar_enc_close_encoder
  split
  · simp [parsed_values_append, parsed_values]
  · rfl

/-- The preset layer: one `config_parse` call with the name `preset` and the
nick of the selected preset when a preset is selected, no call otherwise. -/
theorem init_encoder_preset_calls {E : Type} (env : Env E) (s : GstKvazaarEnc E) :
    (init_encoder_preset env s).calls
      = s.calls ++ (if s.preset ≠ GST_KVAZAAR_ENC_NO_PRESET
          then [Call.config_parse "preset" (some (preset_types.getD s.preset ""))] else []) := by
  unfold init_encoder_preset parse_if
  split
  · rfl
  · simp

/-- The override part keeps the fields copied before the preset, provided the
engine's parser keeps them for the options that are parsed among the
overrides. -/
theorem init_encoder_overrides_base {E : Type} (env : Env E) (s : GstKvazaarEnc E)
    (hkeep : ∀ cfg name value, name ∈ parsed_override_keys s →
      base_fields (env.api.config_parse cfg name value).1 = base_fields cfg) :
    base_fields (init_encoder_overrides env s).kvazaarconfig = base_fields s.kvazaarconfig := by
  have hP : ∀ (c : Prop) [Decidable c] (name : String) (value : Option String),
      (c → name ∈ parsed_override_keys s) → ∀ cfg,
      base_fields (parse_cfg env c name value cfg) = base_fields cfg := by
    intro c _ name value hn cfg
    unfold parse_cfg
    split
    · rename_i hc
      exact hkeep cfg name value (hn hc)
    · rfl
  have h1 := hP (s.pu_depth_inter ≠ "") "pu-depth-inter"
    (some s.pu_depth_inter) (by intro hc; simp [parsed_override_keys, hc])
  have h2 := hP (s.pu_depth_intra ≠ "") "pu-depth-intra"
    (some s.pu_depth_intra) (by intro hc; simp [parsed_override_keys, hc])
  have h3 := hP (s.deblock_set = true) "deblock"
    (some s.deblock) (by intro hc; simp [parsed_override_keys, hc])
  have h4 := hP (s.subme ≠ GST_KVAZAAER_ENC_SUBME_DEFAULT) "subme"
    (some (subme_types.getD s.subme "")) (by intro hc; simp [parsed_override_keys, hc])
  have h5 := hP (s.sao ≠ GST_KVAZAAER_ENC_SAO_DEFAULT) "sao"
    (some (sao_types.getD s.sao "")) (by intro hc; simp [parsed_override_keys, hc])
  have h6 := hP (s.gop_set = true) "gop"
    (some s.gop) (by intro hc; simp [parsed_override_keys, hc])
  have hA : ∀ (c : Prop) [Decidable c] (t : GstKvazaarEnc E) (f : kvz_config → kvz_config),
      (∀ cfg, base_fields (f cfg) = base_fields cfg) →
      base_fields (assign_if c t f).kvazaarconfig = base_fields t.kvazaarconfig := by
    intro c _ t f hf
    rw [assign_if_config]
    split
    · exact hf _
    · rfl
  have hB : ∀ (c : Prop) [Decidable c] (t : GstKvazaarEnc E) (name : String)
      (value : Option String),
      (∀ cfg, base_fields (parse_cfg env c name value cfg) = base_fields cfg) →
      base_fields (parse_if env c t name value).kvazaarconfig = base_fields t.kvazaarconfig := by
    intro c _ t name value h
    rw [parse_if_config]
    exact h _
  unfold init_encoder_overrides
  repeat' first
    | rfl
    | (intro cfg; rfl)
    | exact h1
    | exact h2
    | exact h3
    | exact h4
    | exact h5
    | exact h6
    | (refine Eq.trans (hB _ _ _ _ ?_) ?_)
    | (refine Eq.trans (hA _ _ _ ?_) ?_)

/-- C23, counterexample: no preset is selected (the property has its value
`GST_KVAZAAR_ENC_NO_PRESET`) and the option string is `preset=ultrafast`:
`gst_kvazaar_enc_init_encoder` passes the name `preset` to the engine's parser,
with the value of the option string. -/
theorem C23_option_string_passes_preset :
    (configured_session accept_all [PropValue.kvz_opts "preset=ultrafast"]).preset
        = GST_KVAZAAR_ENC_NO_PRESET
      ∧ parsed_values "preset" (gst_kvazaar_enc_init_encoder (script_env [] accept_all)
          (configured_session accept_all [PropValue.kvz_opts "preset=ultrafast"])).1.calls
        = [some "ultrafast"]
      ∧ parsed_values "preset" (gst_kvazaar_enc_init_encoder (script_env [] accept_all)
          (configured_session accept_all
            [PropValue.preset 3, PropValue.kvz_opts "preset=ultrafast"])).1.calls
        = [some "veryfast", some "ultrafast"] := by
  decide

/-- C23 as the code has it: with an input state, the layers of
`gst_kvazaar_enc_init_encoder` before the option string pass the name `preset`
to the engine's parser exactly when the preset property differs from
`GST_KVAZAAR_ENC_NO_PRESET`, once, with the nick of the selected preset from
the table `preset_types` (last part); the same holds for the whole call when
the option string holds no option named `preset` of its own (first part).
With no preset, no option parsed among the overrides and an empty option
string the resolved `qp`, `target_bitrate`, `intra_period`, `vps_period`,
`calc_psnr`, `add_encoder_info` and `aud_enable` are the instance's `qp`,
`bitrate`, `intra_period`, `vps_period`, not `no_psnr`, not `no_info` and
`aud_enable`. -/
theorem C23_preset_is_parsed_only_when_selected {E : Type} (env : Env E) (s : GstKvazaarEnc E)
    (info : GstVideoInfo) (hin : s.input_state = some info) :
    ((∀ p ∈ option_pairs s.kvz_opts, p.1 ≠ "preset") →
        parsed_values "preset" (gst_kvazaar_enc_init_encoder env s).1.calls
          = parsed_values "preset" s.calls
            ++ (if s.preset ≠ GST_KVAZAAR_ENC_NO_PRESET
                then [some (preset_types.getD s.preset "")] else []))
      ∧ (List.range 11).map (fun (n : Nat) => preset_types.getD n "")
        = ["none", "ultrafast", "superfast", "veryfast", "faster", "fast", "medium", "slow",
            "slower", "veryslow", "placebo"]
      ∧ (s.preset = GST_KVAZAAR_ENC_NO_PRESET → parsed_override_keys s = [] → s.kvz_opts = "" →
          base_fields (gst_kvazaar_enc_init_encoder env s).1.kvazaarconfig
            = [s.qp, (s.bitrate : Int), s.intra_period, s.vps_period,
                if s.no_psnr then 0 else 1, if s.no_info then 0 else 1,
                if s.aud_enable then 1 else 0])
      ∧ parsed_values "preset" (init_encoder_roi env (init_encoder_overrides env
            (init_encoder_preset env
              (init_encoder_base (gst_kvazaar_enc_close_encoder s) info)))).1.calls
        = parsed_values "preset" s.calls
          ++ (if s.preset ≠ GST_KVAZAAR_ENC_NO_PRESET
              then [some (preset_types.getD s.preset "")] else []) := by
  have hkc : InitKept s (gst_kvazaar_enc_close_encoder s) := close_encoder_kept s
  have hkb : InitKept s (init_encoder_base (gst_kvazaar_enc_close_encoder s) info) :=
    hkc.trans (init_encoder_base_kept _ _)
  have hkp : InitKept s (init_encoder_preset env
      (init_encoder_base (gst_kvazaar_enc_close_encoder s) info)) :=
    hkb.trans (init_encoder_preset_kept _ _)
  have hkr : InitKept s (init_encoder_roi env (init_encoder_overrides env (init_encoder_preset env
      (init_encoder_base (gst_kvazaar_enc_close_encoder s) info)))).1 :=
    (hkp.trans (init_encoder_overrides_kept _ _)).trans (init_encoder_roi_kept _ _)
  have hpre : (init_encoder_base (gst_kvazaar_enc_close_encoder s) info).preset = s.preset := by
    obtain ⟨_, _, _, _, _, _, _, _, _, h⟩ := hkb
    rw [h]
  have hlayers : parsed_values "preset" (init_encoder_roi env (init_encoder_overrides env
        (init_encoder_preset env
          (init_encoder_base (gst_kvazaar_enc_close_encoder s) info)))).1.calls
      = parsed_values "preset" s.calls
        ++ (if s.preset ≠ GST_KVAZAAR_ENC_NO_PRESET
            then [some (preset_types.getD s.preset "")] else []) := by
    rw [init_encoder_roi_values, init_encoder_overrides_values, init_encoder_preset_calls,
      parsed_values_append, hpre]
    have hb : (init_encoder_base (gst_kvazaar_enc_close_encoder s) info).calls
        = (gst_kvazaar_enc_close_encoder s).calls := rfl
    rw [hb, close_encoder_values]
    split <;> simp [parsed_values]
  refine ⟨?_, by decide, ?_, hlayers⟩
  · intro hnokey
    unfold gst_kvazaar_enc_init_encoder
    simp only [hin]
    have hko : (init_encoder_roi env (init_encoder_overrides env (init_encoder_preset env
        (init_encoder_base (gst_kvazaar_enc_close_encoder s) info)))).1.kvz_opts = s.kvz_opts := by
      obtain ⟨_, _, _, _, _, _, _, _, _, h⟩ := hkr
      rw [h]
    generalize (init_encoder_roi env (init_encoder_overrides env (init_encoder_preset env
        (init_encoder_base (gst_kvazaar_enc_close_encoder s) info)))) = x at hlayers hko ⊢
    obtain ⟨x1, v⟩ := x
    cases v with
    | aborted => exact hlayers
    | returned u =>
      simp only at hlayers hko ⊢
      obtain ⟨m, _, hcalls, _, _⟩ := parse_kvazaar_options_prefix env x1 x1.kvz_opts
      rw [(init_encoder_open_spec env x1).1, hcalls, parsed_values_append, parsed_values_append,
        hlayers, hko, parsed_values_pairs "preset" _
          (fun p hp => hnokey p (List.mem_of_mem_take hp))]
      simp [parsed_values]
  · intro hnone hkeys hopts
    obtain ⟨rw, rh, dq, hres⟩ := init_encoder_resolved env s info hin hopts
    rw [hres]
    have hkeysp : parsed_override_keys (init_encoder_preset env
        (init_encoder_base (gst_kvazaar_enc_close_encoder s) info)) = [] := by
      obtain ⟨_, _, _, _, _, _, _, _, _, h⟩ := hkp
      rw [h]
      exact hkeys
    have hover := init_encoder_overrides_base env (init_encoder_preset env
      (init_encoder_base (gst_kvazaar_enc_close_encoder s) info))
      (by
        intro cfg name value hn
        rw [hkeysp] at hn
        exact absurd hn (List.not_mem_nil name))
    have hp0 : init_encoder_preset env
        (init_encoder_base (gst_kvazaar_enc_close_encoder s) info)
        = init_encoder_base (gst_kvazaar_enc_close_encoder s) info := by
      unfold init_encoder_preset parse_if
      rw [hpre, if_neg (by rw [hnone]; simp)]
    rw [hp0] at hover
    show base_fields (init_encoder_overrides env (init_encoder_preset env
      (init_encoder_base (gst_kvazaar_enc_close_encoder s) info))).kvazaarconfig = _
    rw [hp0, hover]
    obtain ⟨_, _, _, _, _, _, _, _, _, h⟩ := hkc
    rw [h]
    rfl

/-- Witness for C23: the preset `veryfast` is selected, and no preset. -/
theorem C23_preset_is_parsed_only_when_selected_witness :
    parsed_values "preset" (gst_kvazaar_enc_init_encoder (script_env [] accept_all)
        (configured_session accept_all [PropValue.preset 3])).1.calls = [some "veryfast"]
      ∧ parsed_values "preset" (gst_kvazaar_enc_init_encoder (script_env [] accept_all)
        (configured_session accept_all [PropValue.qp 25])).1.calls = []
      ∧ base_fields (gst_kvazaar_enc_init_encoder (script_env [] accept_all)
          (configured_session accept_all [PropValue.qp 25])).1.kvazaarconfig
        = [25, 0, 0, 0, 1, 1, 0] :=
  ⟨(C23_preset_is_parsed_only_when_selected (script_env [] accept_all)
      (configured_session accept_all [PropValue.preset 3]) video_info rfl).1 (by decide),
    (C23_preset_is_parsed_only_when_selected (script_env [] accept_all)
      (configured_session accept_all [PropValue.qp 25]) video_info rfl).1 (by decide),
    (C23_preset_is_parsed_only_when_selected (script_env [] accept_all)
      (configured_session accept_all [PropValue.qp 25]) video_info rfl).2.2.1
      (by decide) (by decide) (by decide)⟩

/-! ### Access-unit extractor -/

theorem writeBytes_below (w : List Nat) : ∀ (out : Int → Nat) (j k : Int), k < j →
    writeBytes out j w k = out k := by
  induction w with
  | nil => intro out j k _; rfl
  | cons b w ih =>
    intro out j k hk
    have h1 : k ≠ j := by omega
    rw [writeBytes, ih _ _ _ (by omega), Function.update_noteq h1]

theorem writeBytes_at (w : List Nat) : ∀ (out : Int → Nat) (j : Int) (k : Nat), k < w.length →
    writeBytes out j w (j + (k : Int)) = w.getD k 0 := by
  induction w with
  | nil => intro out j k hk; simp at hk
  | cons b w ih =>
    intro out j k hk
    cases k with
    | zero =>
      rw [writeBytes, Nat.cast_zero, add_zero, writeBytes_below w _ _ _ (by omega)]
      simp
    | succ k =>
      have h := ih (Function.update out j b) (j + 1) k (by simpa using hk)
      have e : j + ((k + 1 : Nat) : Int) = j + 1 + (k : Int) := by push_cast; ring
      rw [writeBytes, e, h]
      simp

theorem writeBytes_append (w v : List Nat) : ∀ (out : Int → Nat) (j : Int),
    writeBytes out j (w ++ v) = writeBytes (writeBytes out j w) (j + (w.length : Int)) v := by
  induction w with
  | nil => intro out j; simp [writeBytes]
  | cons b w ih =>
    intro out j
    have e : j + ((w.length + 1 : Nat) : Int) = j + 1 + (w.length : Int) := by push_cast; ring
    show writeBytes (Function.update out j b) (j + 1) (w ++ v) = _
    rw [ih]
    simp only [writeBytes, List.length_cons, e]

/-- The first `n` bytes of a buffer into which `w` was written from index 0. -/
theorem range_map_writeBytes (w : List Nat) (out : Int → Nat) (n : Nat) (hn : n ≤ w.length) :
    (List.range n).map (fun (k : Nat) => writeBytes out 0 w (Int.ofNat k)) = w.take n := by
  apply List.ext_getElem
  · simp [hn]
  · intro i h1 h2
    simp only [List.length_map, List.length_range] at h1
    have := writeBytes_at w out 0 i (by omega)
    simp only [zero_add] at this
    simp [this, List.getD_eq_getElem?_getD, List.getElem?_eq_getElem (show i < w.length by omega)]

/-- Without a terminating start code the loop writes the bytes that survive
the removal of emulation bytes and leaves `len` equal to the write index. -/
theorem nal_loop_no_start (l : List Nat) : ∀ (j : Int) (z len : Nat) (out : Int → Nat),
    reachesStartCode z l = false → 0 ≤ j → (len : Int) = j + l.length → len < 4294967296 →
    nal_loop l j z len out
      = (writeBytes out j (dropEmulation z l), j.toNat + (dropEmulation z l).length) := by
  induction l with
  | nil =>
    intro j z len out _ hj hlen _
    simp only [nal_loop, dropEmulation, writeBytes, List.length_nil, add_zero, Prod.mk.injEq,
      true_and]
    simp at hlen
    omega
  | cons b l ih =>
    intro j z len out hr hj hlen hlt
    simp only [List.length_cons, Nat.cast_add, Nat.cast_one] at hlen
    unfold reachesStartCode at hr
    unfold nal_loop dropEmulation
    by_cases hb0 : b = 0
    · simp only [hb0, if_true] at hr ⊢
      rw [ih (j + 1) (z + 1) len _ hr (by omega) (by omega) hlt]
      simp only [writeBytes, List.length_cons, Prod.mk.injEq, true_and]
      omega
    · simp only [hb0, if_false] at hr ⊢
      by_cases hb3 : b = 3 ∧ z = 2
      · have hb1 : ¬ (b = 1 ∧ z = 3) := by omega
        simp only [hb1, if_false] at hr
        simp only [hb3, and_self, if_true]
        have hl : (len + 4294967296 - 1) % 4294967296 = len - 1 := by omega
        rw [hl, ih j 0 (len - 1) out hr hj (by omega) (by omega)]
      · by_cases hb1 : b = 1 ∧ z = 3
        · simp [hb1] at hr
        · simp only [hb1, if_false] at hr
          simp only [hb3, hb1, if_false]
          rw [ih (j + 1) 0 len _ hr (by omega) (by omega) hlt]
          simp only [writeBytes, List.length_cons, Prod.mk.injEq, true_and]
          omega

/-- When the scan reaches `0x01` with the counter at 3, the loop stops there:
the buffer holds what was written before and `len` is the write index minus 3. -/
theorem nal_loop_start (l t : List Nat) : ∀ (j : Int) (z len : Nat) (out : Int → Nat),
    reachesStartCode z l = false → zeroRun z l = 3 →
    nal_loop (l ++ 1 :: t) j z len out
      = (writeBytes out j (dropEmulation z l),
          ((j + (dropEmulation z l).length - 3) % 4294967296).toNat) := by
  induction l with
  | nil =>
    intro j z len out _ hz
    simp only [zeroRun] at hz
    simp [nal_loop, dropEmulation, writeBytes, hz]
  | cons b l ih =>
    intro j z len out hr hz
    unfold reachesStartCode at hr
    unfold zeroRun at hz
    simp only [List.cons_append]
    unfold nal_loop dropEmulation
    by_cases hb0 : b = 0
    · simp only [hb0, if_true] at hr hz ⊢
      rw [ih (j + 1) (z + 1) len _ hr hz]
      simp only [writeBytes, List.length_cons, Prod.mk.injEq, true_and]
      congr 2
      push_cast
      ring
    · simp only [hb0, if_false] at hr hz ⊢
      by_cases hb3 : b = 3 ∧ z = 2
      · have hb1 : ¬ (b = 1 ∧ z = 3) := by omega
        simp only [hb1, if_false] at hr
        simp only [hb3, and_self, if_true]
        rw [ih j 0 _ out hr hz]
      · by_cases hb1 : b = 1 ∧ z = 3
        · simp [hb1] at hr
        · simp only [hb1, if_false] at hr
          simp only [hb3, hb1, if_false]
          rw [ih (j + 1) 0 len _ hr hz]
          simp only [writeBytes, List.length_cons, Prod.mk.injEq, true_and]
          congr 2
          push_cast
          ring

theorem zeroRun_append (l m : List Nat) : ∀ z, zeroRun z (l ++ m) = zeroRun (zeroRun z l) m := by
  induction l with
  | nil => intro z; rfl
  | cons b l ih => intro z; simp only [List.cons_append, zeroRun]; split <;> exact ih _

theorem dropEmulation_append_zeros (l : List Nat) (n : Nat) : ∀ z,
    dropEmulation z (l ++ List.replicate n 0) = dropEmulation z l ++ List.replicate n 0 := by
  induction l with
  | nil =>
    intro z
    induction n generalizing z with
    | zero => rfl
    | succ n ihn =>
      have := ihn (z + 1)
      simp only [List.nil_append, dropEmulation] at this ⊢
      simp [List.replicate_succ, dropEmulation, this]
  | cons b l ih =>
    intro z
    simp only [List.cons_append, dropEmulation]
    split
    · simp [ih]
    · split <;> simp [ih]

theorem dropEmulation_length_le (l : List Nat) : ∀ z : Nat,
    (dropEmulation z l).length ≤ l.length := by
  induction l with
  | nil => intro z; simp [dropEmulation]
  | cons b l ih =>
    intro z
    unfold dropEmulation
    split
    · simpa using ih _
    · split
      · exact Nat.le_succ_of_le (ih _)
      · simpa using ih _

theorem zeroRun_trailing (l : List Nat) : ∀ (z n : Nat), zeroRun z l = n →
    (l = List.replicate (n - z) 0 ∧ z ≤ n) ∨ ∃ body, l = body ++ List.replicate n 0 := by
  induction l with
  | nil =>
    intro z n h
    simp only [zeroRun] at h
    left
    subst h
    simp
  | cons b l ih =>
    intro z n h
    unfold zeroRun at h
    by_cases hb : b = 0
    · simp only [hb, if_true] at h
      rcases ih _ _ h with ⟨h1, h2⟩ | ⟨body, h1⟩
      · left
        refine ⟨?_, by omega⟩
        have e : n - z = (n - (z + 1)) + 1 := by omega
        rw [hb, h1, e, List.replicate_succ]
      · right
        exact ⟨b :: body, by rw [h1]; rfl⟩
    · simp only [hb, if_false] at h
      right
      rcases ih _ _ h with ⟨h1, _⟩ | ⟨body, h1⟩
      · exact ⟨[b], by rw [h1]; rfl⟩
      · exact ⟨b :: body, by rw [h1]; rfl⟩

/-- The extractor on a chunk cut at the `0x01` that the scan reaches with the
zero-run counter at 3, after the bytes `pre`. -/
theorem bytestream_to_nal_at_start_code (uninit : Int → Nat)
    (s pre t : List Nat) (hs : s.length = 4)
    (hlen : (s ++ pre ++ 1 :: t).length < 4294967296)
    (hfirst : reachesStartCode 0 pre = false) (hrun : zeroRun 0 pre = 3) :
    (gst_kvazaar_enc_bytestream_to_nal uninit ⟨s ++ pre ++ 1 :: t⟩).data
        = dropEmulation 0 (pre.take (pre.length - 3))
      ∧ (gst_kvazaar_enc_bytestream_to_nal uninit ⟨s ++ pre ++ 1 :: t⟩).len
        = (dropEmulation 0 (pre.take (pre.length - 3))).length
      ∧ pre.drop (pre.length - 3) = [0, 0, 0]
      ∧ gst_kvazaar_enc_bytestream_to_nal uninit
          ⟨[0x00, 0x00, 0x00, 0x01, 0xAA, 0x00, 0x00, 0x03, 0x01, 0xBB, 0x00, 0x00, 0x00, 0x01, 0xCC]⟩
        = ⟨[0xAA, 0x00, 0x00, 0x01, 0xBB]⟩
      ∧ (gst_kvazaar_enc_bytestream_to_nal uninit
          ⟨[0x00, 0x00, 0x00, 0x01, 0xAA, 0x00, 0x00, 0x03, 0x01, 0xBB, 0x00, 0x00, 0x00, 0x01, 0xCC]⟩).len
        = 5 := by
  have hbody : ∃ body, pre = body ++ List.replicate 3 0 := by
    rcases zeroRun_trailing pre 0 3 hrun with ⟨h1, _⟩ | h
    · exact ⟨[], by simpa using h1⟩
    · exact h
  obtain ⟨body, rfl⟩ := hbody
  have htake : (body ++ List.replicate 3 0).take ((body ++ List.replicate 3 0).length - 3) = body := by
    simp
  have hdrop : (body ++ List.replicate 3 0).drop ((body ++ List.replicate 3 0).length - 3)
      = [0, 0, 0] := by
    simp [List.replicate]
  have hdata : (gst_kvazaar_enc_bytestream_to_nal uninit
      ⟨s ++ (body ++ List.replicate 3 0) ++ 1 :: t⟩).data = dropEmulation 0 body := by
    unfold gst_kvazaar_enc_bytestream_to_nal
    have hd : (s ++ (body ++ List.replicate 3 0) ++ 1 :: t).drop 4
        = (body ++ List.replicate 3 0) ++ 1 :: t := by
      rw [List.append_assoc, List.drop_append_eq_append_drop, List.drop_of_length_le (by omega), hs]
      simp
    simp only [hd]
    rw [nal_loop_start _ _ _ _ _ _ hfirst hrun, dropEmulation_append_zeros]
    simp only [List.length_append, List.length_replicate, Nat.cast_add, Nat.cast_ofNat, zero_add]
    have e : (((dropEmulation 0 body).length : Int) + 3 - 3) % 4294967296
        = ((dropEmulation 0 body).length : Int) := by
      have h1 : (dropEmulation 0 body).length ≤ body.length := dropEmulation_length_le body 0
      simp only [List.length_append, List.length_cons, List.length_replicate] at hlen
      omega
    rw [e, Int.toNat_ofNat]
    have := range_map_writeBytes (dropEmulation 0 body ++ List.replicate 3 0) uninit
      (dropEmulation 0 body).length (by simp)
    rw [this]
    simp
  refine ⟨?_, ?_, hdrop, ?_, ?_⟩
  · rw [htake]; exact hdata
  · rw [htake, kvz_data_chunk.len, hdata]
  · simp [gst_kvazaar_enc_bytestream_to_nal, nal_loop, kvz_data_chunk.len, List.range_succ,
      Function.update]
  · simp [gst_kvazaar_enc_bytestream_to_nal, nal_loop, kvz_data_chunk.len, List.range_succ,
      Function.update]

/-- A scan that reaches a `0x01` with the counter at 3 splits at the first such
byte. -/
theorem reachesStartCode_split (l : List Nat) : ∀ z : Nat, reachesStartCode z l = true →
    ∃ pre t, l = pre ++ 1 :: t ∧ reachesStartCode z pre = false ∧ zeroRun z pre = 3 := by
  induction l with
  | nil => intro z h; simp [reachesStartCode] at h
  | cons b l ih =>
    intro z h
    unfold reachesStartCode at h
    by_cases hb0 : b = 0
    · simp only [hb0, if_true] at h
      obtain ⟨pre, t, hl, h1, h2⟩ := ih _ h
      refine ⟨b :: pre, t, by rw [hl]; rfl, ?_, ?_⟩
      · unfold reachesStartCode
        simp only [hb0, if_true]
        exact h1
      · unfold zeroRun
        simp only [hb0, if_true]
        exact h2
    · simp only [hb0, if_false] at h
      by_cases hb1 : b = 1 ∧ z = 3
      · exact ⟨[], l, by rw [hb1.1]; rfl, rfl, hb1.2⟩
      · simp only [hb1, if_false] at h
        obtain ⟨pre, t, hl, h1, h2⟩ := ih _ h
        refine ⟨b :: pre, t, by rw [hl]; rfl, ?_, ?_⟩
        · unfold reachesStartCode
          simp only [hb0, hb1, if_false]
          exact h1
        · unfold zeroRun
          simp only [hb0, if_false]
          exact h2

/-- C2: for every input chunk of length at least 4 in which the scan from
offset 4 reaches a `0x01` byte while the zero-run counter is exactly 3, the
bytes from offset 4 on are `pre ++ 01 ++ t` with `pre` ending in the three
zero bytes of that start code, and `gst_kvazaar_enc_bytestream_to_nal` returns
exactly the bytes of `pre` without those three zero bytes, with every `0x03`
that was reached with the counter at 2 removed; the returned length is the
number of those bytes.  In particular `00 00 00 01 AA 00 00 03 01 BB 00 00 00
01 CC` gives `AA 00 00 01 BB`, length 5. -/
theorem C2_bytestream_to_nal_stops_at_start_code (uninit : Int → Nat) (input : kvz_data_chunk)
    (h4 : 4 ≤ input.len) (h32 : input.len < 4294967296)
    (hreach : reachesStartCode 0 (input.data.drop 4) = true) :
    (∃ pre t, input.data.drop 4 = pre ++ 1 :: t
        ∧ reachesStartCode 0 pre = false ∧ zeroRun 0 pre = 3
        ∧ pre.drop (pre.length - 3) = [0, 0, 0]
        ∧ (gst_kvazaar_enc_bytestream_to_nal uninit input).data
          = dropEmulation 0 (pre.take (pre.length - 3))
        ∧ (gst_kvazaar_enc_bytestream_to_nal uninit input).len
          = (dropEmulation 0 (pre.take (pre.length - 3))).length)
      ∧ gst_kvazaar_enc_bytestream_to_nal uninit
          ⟨[0x00, 0x00, 0x00, 0x01, 0xAA, 0x00, 0x00, 0x03, 0x01, 0xBB, 0x00, 0x00, 0x00, 0x01, 0xCC]⟩
        = ⟨[0xAA, 0x00, 0x00, 0x01, 0xBB]⟩
      ∧ (gst_kvazaar_enc_bytestream_to_nal uninit
          ⟨[0x00, 0x00, 0x00, 0x01, 0xAA, 0x00, 0x00, 0x03, 0x01, 0xBB, 0x00, 0x00, 0x00, 0x01, 0xCC]⟩).len
        = 5 := by
  obtain ⟨pre, t, hl, h1, h2⟩ := reachesStartCode_split _ 0 hreach
  have hinput : input = ⟨input.data.take 4 ++ pre ++ 1 :: t⟩ := by
    cases input with
    | mk data =>
      simp only [kvz_data_chunk.mk.injEq]
      simp only at hl
      rw [List.append_assoc, ← hl, List.take_append_drop]
  have hs : (input.data.take 4).length = 4 := by
    rw [List.length_take]
    exact Nat.min_eq_left h4
  have hlen : (input.data.take 4 ++ pre ++ 1 :: t).length < 4294967296 := by
    have := congrArg kvz_data_chunk.len hinput
    simp only [kvz_data_chunk.len] at this h32
    rw [← this]
    exact h32
  have h := bytestream_to_nal_at_start_code uninit (input.data.take 4) pre t hs hlen h1 h2
  rw [← hinput] at h
  exact ⟨⟨pre, t, hl, h1, h2, h.2.2.1, h.1, h.2.1⟩, h.2.2.2⟩

/-- Witness for C2: the sample input. -/
theorem C2_bytestream_to_nal_stops_at_start_code_witness :
    4 ≤ sample_stream.len ∧ reachesStartCode 0 (sample_stream.data.drop 4) = true
      ∧ ∃ pre t, sample_stream.data.drop 4 = pre ++ 1 :: t
        ∧ reachesStartCode 0 pre = false ∧ zeroRun 0 pre = 3
        ∧ pre.drop (pre.length - 3) = [0, 0, 0]
        ∧ (gst_kvazaar_enc_bytestream_to_nal (fun _ => 0) sample_stream).data
          = dropEmulation 0 (pre.take (pre.length - 3))
        ∧ (gst_kvazaar_enc_bytestream_to_nal (fun _ => 0) sample_stream).len
          = (dropEmulation 0 (pre.take (pre.length - 3))).length :=
  ⟨by decide, by decide,
    (C2_bytestream_to_nal_stops_at_start_code (fun _ => 0) sample_stream
      (by decide) (by decide) (by decide)).1⟩

theorem dropEmulation_count (l : List Nat) : ∀ z : Nat,
    (dropEmulation z l).length + countEmulation z l = l.length := by
  induction l with
  | nil => intro z; rfl
  | cons b l ih =>
    intro z
    unfold dropEmulation countEmulation
    split
    · simp only [List.length_cons]
      have := ih (z + 1)
      omega
    · split
      · simp only [List.length_cons]
        have := ih 0
        omega
      · simp only [List.length_cons]
        have := ih 0
        omega

/-- C24: for every input chunk of length `n ≥ 4` (below 2^32, `len` being a
`uint32_t`) in which the scan from offset 4 never reaches a `0x01` byte with
the zero-run counter exactly 3, `gst_kvazaar_enc_bytestream_to_nal` returns
all of `input[4 .. n)` without the `0x03` bytes that were reached with the
counter at 2, and the returned length is `n - 4` minus the number of these
bytes.  A `0x01` after four zero bytes does not end the scan: `09 09 09 09 00
00 00 00 01 07` gives `00 00 00 00 01 07`. -/
theorem C24_bytestream_to_nal_without_start_code (uninit : Int → Nat) (input : kvz_data_chunk)
    (h4 : 4 ≤ input.len) (h32 : input.len < 4294967296)
    (hno : reachesStartCode 0 (input.data.drop 4) = false) :
    (gst_kvazaar_enc_bytestream_to_nal uninit input).data = dropEmulation 0 (input.data.drop 4)
      ∧ (gst_kvazaar_enc_bytestream_to_nal uninit input).len
        = input.len - 4 - countEmulation 0 (input.data.drop 4)
      ∧ reachesStartCode 0 [0, 0, 0, 0, 1, 7] = false
      ∧ gst_kvazaar_enc_bytestream_to_nal uninit ⟨[9, 9, 9, 9, 0, 0, 0, 0, 1, 7]⟩
        = ⟨[0, 0, 0, 0, 1, 7]⟩ := by
  have hl : (input.data.drop 4).length = input.len - 4 := by
    simp [kvz_data_chunk.len]
  have hcount := dropEmulation_count (input.data.drop 4) 0
  have hdata : (gst_kvazaar_enc_bytestream_to_nal uninit input).data
      = dropEmulation 0 (input.data.drop 4) := by
    unfold gst_kvazaar_enc_bytestream_to_nal
    have hlen : (input.len + 4294967296 - 4) % 4294967296 = input.len - 4 := by omega
    simp only [hlen]
    rw [nal_loop_no_start (input.data.drop 4) 0 0 (input.len - 4) uninit hno (le_refl 0)
      (by rw [hl]; simp) (by omega)]
    simp only [Int.toNat_zero, zero_add]
    rw [range_map_writeBytes _ _ _ (le_refl _), List.take_length]
  refine ⟨hdata, ?_, by decide, ?_⟩
  · rw [kvz_data_chunk.len, hdata]
    omega
  · simp [gst_kvazaar_enc_bytestream_to_nal, nal_loop, kvz_data_chunk.len, List.range_succ,
      Function.update]

/-- Witness for C24: the chunk `09 09 09 09 05 00 00 03 02 00 00 00 00 01`,
in which one `0x03` is dropped and the `0x01` follows four zero bytes. -/
theorem C24_bytestream_to_nal_without_start_code_witness :
    (gst_kvazaar_enc_bytestream_to_nal (fun _ => 0)
        ⟨[9, 9, 9, 9, 5, 0, 0, 3, 2, 0, 0, 0, 0, 1]⟩).data
        = [5, 0, 0, 2, 0, 0, 0, 0, 1]
      ∧ (gst_kvazaar_enc_bytestream_to_nal (fun _ => 0)
        ⟨[9, 9, 9, 9, 5, 0, 0, 3, 2, 0, 0, 0, 0, 1]⟩).len
        = (⟨[9, 9, 9, 9, 5, 0, 0, 3, 2, 0, 0, 0, 0, 1]⟩ : kvz_data_chunk).len - 4
          - countEmulation 0 ((⟨[9, 9, 9, 9, 5, 0, 0, 3, 2, 0, 0, 0, 0, 1]⟩ :
              kvz_data_chunk).data.drop 4) :=
  ⟨by decide,
    (C24_bytestream_to_nal_without_start_code (fun _ => 0)
      ⟨[9, 9, 9, 9, 5, 0, 0, 3, 2, 0, 0, 0, 0, 1]⟩ (by decide) (by decide) (by decide)).2.1⟩

theorem reachesStartCode_append (l m : List Nat) : ∀ z : Nat,
    reachesStartCode z l = false →
    reachesStartCode z (l ++ m) = reachesStartCode (zeroRun z l) m := by
  induction l with
  | nil => intro z _; rfl
  | cons b l ih =>
    intro z h
    unfold reachesStartCode at h
    by_cases hb0 : b = 0
    · simp only [hb0, if_true] at h
      simp only [List.cons_append, reachesStartCode, zeroRun, hb0, if_true]
      exact ih _ h
    · simp only [hb0, if_false] at h
      by_cases hb1 : b = 1 ∧ z = 3
      · simp [hb1] at h
      · simp only [hb1, if_false] at h
        simp only [List.cons_append, reachesStartCode, zeroRun, hb0, hb1, if_false]
        exact ih _ h

/-- The scan of an escaped stream never reaches a start code, drops exactly
the inserted bytes, and ends with a zero run of at most 2. -/
theorem escape_scan (p : List Nat) : ∀ z : Nat, z ≤ 2 →
    dropEmulation z (escape z p) = p
      ∧ reachesStartCode z (escape z p) = false
      ∧ zeroRun z (escape z p) ≤ 2
      ∧ (p.getLast? ≠ none → p.getLast? ≠ some 0 → zeroRun z (escape z p) = 0) := by
  induction p with
  | nil =>
    intro z hz
    exact ⟨rfl, rfl, hz, fun h => absurd rfl h⟩
  | cons b p ih =>
    intro z hz
    have hlast : (b :: p).getLast? ≠ some 0 →
        (p = [] ∧ b ≠ 0) ∨ (p.getLast? ≠ none ∧ p.getLast? ≠ some 0) := by
      intro h
      cases p with
      | nil =>
        left
        refine ⟨rfl, ?_⟩
        intro hb
        exact h (by simp [hb])
      | cons c q =>
        right
        rw [List.getLast?_cons_cons] at h
        exact ⟨by simp [List.getLast?_eq_getLast], h⟩
    unfold escape
    by_cases hb0 : b = 0
    · subst hb0
      by_cases hz2 : z = 2
      · have hc : z = 2 ∧ (0 : Nat) ≤ 3 := ⟨hz2, by omega⟩
        obtain ⟨i1, i2, i3, i4⟩ := ih 1 (by omega)
        simp only [hc, and_self, if_true, dropEmulation, reachesStartCode, zeroRun,
          show ¬ ((3 : Nat) = 0) by decide, show ¬ ((3 : Nat) = 1 ∧ 2 = 3) by decide,
          if_false, zero_add]
        refine ⟨by rw [i1], i2, i3, ?_⟩
        intro _ h
        rcases hlast h with ⟨_, hb⟩ | ⟨h1, h2⟩
        · exact absurd rfl hb
        · exact i4 h1 h2
      · have hc : ¬ (z = 2 ∧ (0 : Nat) ≤ 3) := fun h => hz2 h.1
        obtain ⟨i1, i2, i3, i4⟩ := ih (z + 1) (by omega)
        simp only [hc, if_false, if_true, dropEmulation, reachesStartCode, zeroRun]
        refine ⟨by rw [i1], i2, i3, ?_⟩
        intro _ h
        rcases hlast h with ⟨_, hb⟩ | ⟨h1, h2⟩
        · exact absurd rfl hb
        · exact i4 h1 h2
    · obtain ⟨i1, i2, i3, i4⟩ := ih 0 (by omega)
      have hfin : (b :: p).getLast? ≠ some 0 → zeroRun 0 (escape 0 p) = 0 := by
        intro h
        rcases hlast h with ⟨hp, _⟩ | ⟨h1, h2⟩
        · rw [hp]
          rfl
        · exact i4 h1 h2
      by_cases hc : z = 2 ∧ b ≤ 3
      · simp only [hc, and_self, if_true, hb0, if_false]
        simp only [dropEmulation, reachesStartCode, zeroRun, hc.1]
        simp only [show ¬ ((3 : Nat) = 0) by decide, show ¬ ((3 : Nat) = 1 ∧ 2 = 3) by decide,
          show ¬ (b = 3 ∧ 0 = 2) by omega, show ¬ (b = 1 ∧ 0 = 3) by omega,
          if_false, if_true, and_self, hb0]
        exact ⟨by rw [i1], i2, i3, fun _ h => hfin h⟩
      · simp only [hc, if_false, hb0]
        simp only [dropEmulation, reachesStartCode, zeroRun, hb0, if_false]
        have h3 : ¬ (b = 3 ∧ z = 2) := fun h => hc ⟨h.2, by omega⟩
        have h1 : ¬ (b = 1 ∧ z = 3) := by omega
        simp only [h3, h1, if_false]
        exact ⟨by rw [i1], i2, i3, fun _ h => hfin h⟩

/-- C28: for every payload `p` that does not end in `0x00`, every 4-byte
prefix `s` and every tail `t` (the chunk being shorter than 2^32 bytes),
`gst_kvazaar_enc_bytestream_to_nal` applied to `s`, the escaped payload, the
start code `00 00 00 01` and `t` returns exactly `p`, of length `|p|`. -/
theorem C28_bytestream_to_nal_undoes_escape (uninit : Int → Nat) (s p t : List Nat)
    (hs : s.length = 4) (hlast : p.getLast? ≠ some 0)
    (hlen : (s ++ escape 0 p ++ [0, 0, 0, 1] ++ t).length < 4294967296) :
    gst_kvazaar_enc_bytestream_to_nal uninit ⟨s ++ escape 0 p ++ [0, 0, 0, 1] ++ t⟩ = ⟨p⟩
      ∧ (gst_kvazaar_enc_bytestream_to_nal uninit ⟨s ++ escape 0 p ++ [0, 0, 0, 1] ++ t⟩).len
        = p.length := by
  obtain ⟨e1, e2, _, e4⟩ := escape_scan p 0 (by omega)
  have hrun0 : zeroRun 0 (escape 0 p) = 0 := by
    by_cases hp : p.getLast? = none
    · have : p = [] := by simpa using hp
      rw [this]
      rfl
    · exact e4 hp hlast
  have hl : s ++ escape 0 p ++ [0, 0, 0, 1] ++ t = s ++ (escape 0 p ++ [0, 0, 0]) ++ 1 :: t := by
    simp
  have hfirst : reachesStartCode 0 (escape 0 p ++ [0, 0, 0]) = false := by
    rw [reachesStartCode_append _ _ _ e2, hrun0]
    rfl
  have hrun : zeroRun 0 (escape 0 p ++ [0, 0, 0]) = 3 := by
    rw [zeroRun_append, hrun0]
    rfl
  rw [hl] at hlen ⊢
  have h := bytestream_to_nal_at_start_code uninit s (escape 0 p ++ [0, 0, 0]) t hs hlen
    hfirst hrun
  have htake : (escape 0 p ++ [0, 0, 0]).take ((escape 0 p ++ [0, 0, 0]).length - 3)
      = escape 0 p := by
    simp
  rw [htake, e1] at h
  refine ⟨?_, h.2.1⟩
  have hd := h.1
  generalize gst_kvazaar_enc_bytestream_to_nal uninit _ = r at hd ⊢
  cases r
  simp only at hd
  rw [hd]

/-- Witness for C28: the payload `00 00 00 01 02 00 00 03` is escaped to `00
00 03 00 01 02 00 00 03 03`. -/
theorem C28_bytestream_to_nal_undoes_escape_witness :
    escape 0 [0, 0, 0, 1, 2, 0, 0, 3] = [0, 0, 3, 0, 1, 2, 0, 0, 3, 3]
      ∧ gst_kvazaar_enc_bytestream_to_nal (fun _ => 0)
          ⟨[0, 0, 0, 1] ++ escape 0 [0, 0, 0, 1, 2, 0, 0, 3] ++ [0, 0, 0, 1] ++ [0x42, 1]⟩
        = ⟨[0, 0, 0, 1, 2, 0, 0, 3]⟩ :=
  ⟨by decide,
    (C28_bytestream_to_nal_undoes_escape (fun _ => 0) [0, 0, 0, 1] [0, 0, 0, 1, 2, 0, 0, 3]
      [0x42, 1] (by decide) (by decide) (by decide)).1⟩

theorem nal_trace_loop (l : List Nat) : ∀ st : NalState,
    (nal_trace l st).2 = nal_loop l st.j st.zeros st.len st.out := by
  induction l with
  | nil => intro st; rfl
  | cons b l ih =>
    intro st
    unfold nal_trace nal_loop
    split
    · exact ih _
    · split
      · exact ih _
      · split
        · rfl
        · exact ih _

/-- The loop keeps its invariant, leaves the buffer outside `[0, n-4)` as it
was, and ends with a length of at most `n - 4`. -/
theorem nal_trace_inv (n : Nat) (hn : n < 2147483648) (l : List Nat) : ∀ st : NalState,
    NalInv n st → st.i + (l.length : Int) = (n : Int) →
    (∀ s1 ∈ (nal_trace l st).1, NalInv n s1)
      ∧ (∀ k : Int, (k < 0 ∨ (n : Int) - 4 ≤ k) → (nal_trace l st).2.1 k = st.out k)
      ∧ (nal_trace l st).2.2 ≤ n - 4 := by
  induction l with
  | nil =>
    intro st hinv hi
    obtain ⟨h1, h2, h3, h4, h5⟩ := hinv
    simp only [List.length_nil, Nat.cast_zero, add_zero] at hi
    refine ⟨?_, fun _ _ => rfl, ?_⟩
    · intro s1 hs1
      simp only [nal_trace, List.mem_singleton] at hs1
      rw [hs1]
      exact ⟨h1, h2, h3, h4, h5⟩
    · simp only [nal_trace]
      omega
  | cons b l ih =>
    intro st hinv hi
    obtain ⟨h1, h2, h3, h4, h5⟩ := hinv
    simp only [List.length_cons, Nat.cast_add, Nat.cast_one] at hi
    have hpos : (0 : Int) ≤ (l.length : Int) := Int.natCast_nonneg _
    have hwrite : ∀ (b : Nat) (k : Int), (k < 0 ∨ (n : Int) - 4 ≤ k) →
        Function.update st.out st.j b k = st.out k := by
      intro b k hk
      have hne : k ≠ st.j := by omega
      exact Function.update_noteq hne _ _
    unfold nal_trace
    by_cases hb0 : b = 0
    · simp only [hb0, if_true]
      have hnext : NalInv n
          ⟨st.i + 1, st.j + 1, st.zeros + 1, st.len, Function.update st.out st.j 0⟩ := by
        refine ⟨by simp only [Nat.cast_add, Nat.cast_one]; omega, by simp only; omega,
          by simp only; omega, by simp only; omega, ?_⟩
        intro k hk1 hk2
        simp only [Nat.cast_add, Nat.cast_one] at hk1 hk2
        show Function.update st.out st.j 0 k = 0
        by_cases hkj : k = st.j
        · rw [hkj]
          simp
        · rw [Function.update_noteq hkj]
          exact h5 k (by omega) (by omega)
      obtain ⟨i1, i2, i3⟩ := ih _ hnext (by simp only; omega)
      refine ⟨?_, ?_, i3⟩
      · intro s1 hs1
        rcases List.mem_cons.1 hs1 with rfl | hs1
        · exact ⟨h1, h2, h3, h4, h5⟩
        · exact i1 s1 hs1
      · intro k hk
        rw [i2 k hk]
        exact hwrite 0 k hk
    · simp only [hb0, if_false]
      by_cases hb3 : b = 3 ∧ st.zeros = 2
      · simp only [hb3, and_self, if_true]
        have hlen : (st.len + 4294967296 - 1) % 4294967296 = st.len - 1 := by omega
        have hnext : NalInv n
            ⟨st.i + 1, st.j, 0, (st.len + 4294967296 - 1) % 4294967296, st.out⟩ := by
          refine ⟨by simp only [Nat.cast_zero]; omega, by simp only; omega,
            by simp only; omega, by simp only [hlen]; omega, ?_⟩
          intro k hk1 hk2
          simp only [Nat.cast_zero, sub_zero] at hk1 hk2
          omega
        obtain ⟨i1, i2, i3⟩ := ih _ hnext (by simp only; omega)
        refine ⟨?_, i2, i3⟩
        intro s1 hs1
        rcases List.mem_cons.1 hs1 with rfl | hs1
        · exact ⟨h1, h2, h3, h4, h5⟩
        · exact i1 s1 hs1
      · simp only [hb3, if_false]
        by_cases hb1 : b = 1 ∧ st.zeros = 3
        · simp only [hb1, and_self, if_true]
          refine ⟨?_, ?_, ?_⟩
          · intro s1 hs1
            simp only [List.mem_singleton] at hs1
            rw [hs1]
            exact ⟨h1, h2, h3, h4, h5⟩
          · intro _ _
            trivial
          · have hz := hb1.2
            omega
        · simp only [hb1, if_false]
          have hnext : NalInv n
              ⟨st.i + 1, st.j + 1, 0, st.len, Function.update st.out st.j b⟩ := by
            refine ⟨by simp only [Nat.cast_zero]; omega, by simp only; omega,
              by simp only; omega, by simp only; omega, ?_⟩
            intro k hk1 hk2
            simp only [Nat.cast_zero, sub_zero] at hk1 hk2
            omega
          obtain ⟨i1, i2, i3⟩ := ih _ hnext (by simp only; omega)
          refine ⟨?_, ?_, i3⟩
          · intro s1 hs1
            rcases List.mem_cons.1 hs1 with rfl | hs1
            · exact ⟨h1, h2, h3, h4, h5⟩
            · exact i1 s1 hs1
          · intro k hk
            rw [i2 k hk]
            exact hwrite b k hk

/-- C29: for every input chunk of length `n ≥ 4` (below 2^31, so that the
`int` indices are exact), every state in which the loop of
`gst_kvazaar_enc_bytestream_to_nal` tests its condition has `zeros ≤ j ≤ i -
4` and `i ≤ n`, and the last `zeros` bytes written are `0x00`; so the write
of an iteration (`i < n`) lands at an index in `[0, n-4)`, `j - 3` is not
negative where the counter is 3, the buffer outside `[0, n-4)` is left as it
was, and the returned length is at most `n - 4`.  The states are those of
the loop the function runs. -/
theorem C29_write_index_stays_in_bounds (uninit : Int → Nat) (input : kvz_data_chunk)
    (h4 : 4 ≤ input.len) (h31 : input.len < 2147483648) :
    (∀ st ∈ (nal_trace (input.data.drop 4)
          ⟨4, 0, 0, (input.len + 4294967296 - 4) % 4294967296, uninit⟩).1,
        (st.zeros : Int) ≤ st.j ∧ st.j ≤ st.i - 4 ∧ st.i ≤ (input.len : Int)
          ∧ (∀ k : Int, st.j - (st.zeros : Int) ≤ k → k < st.j → st.out k = 0)
          ∧ (st.i < (input.len : Int) → 0 ≤ st.j ∧ st.j < (input.len : Int) - 4)
          ∧ (st.zeros = 3 → 0 ≤ st.j - 3))
      ∧ (nal_trace (input.data.drop 4)
          ⟨4, 0, 0, (input.len + 4294967296 - 4) % 4294967296, uninit⟩).2
        = nal_loop (input.data.drop 4) 0 0 ((input.len + 4294967296 - 4) % 4294967296) uninit
      ∧ (∀ k : Int, (k < 0 ∨ (input.len : Int) - 4 ≤ k) →
          (nal_loop (input.data.drop 4) 0 0 ((input.len + 4294967296 - 4) % 4294967296)
            uninit).1 k = uninit k)
      ∧ (gst_kvazaar_enc_bytestream_to_nal uninit input).len ≤ input.len - 4 := by
  have hlen : (input.len + 4294967296 - 4) % 4294967296 = input.len - 4 := by omega
  have hl : (input.data.drop 4).length = input.len - 4 := by
    simp [kvz_data_chunk.len]
  have hinit : NalInv input.len ⟨4, 0, 0, (input.len + 4294967296 - 4) % 4294967296, uninit⟩ := by
    refine ⟨by simp, by simp, by simp only; omega, by simp only [hlen]; omega, ?_⟩
    intro k hk1 hk2
    simp only [Nat.cast_zero, sub_zero] at hk1 hk2
    omega
  obtain ⟨i1, i2, i3⟩ := nal_trace_inv input.len h31 (input.data.drop 4) _ hinit
    (by simp only [hl]; omega)
  have hloop := nal_trace_loop (input.data.drop 4)
    ⟨4, 0, 0, (input.len + 4294967296 - 4) % 4294967296, uninit⟩
  refine ⟨?_, hloop, ?_, ?_⟩
  · intro st hst
    obtain ⟨h1, h2, h3, _, h5⟩ := i1 st hst
    refine ⟨h1, h2, h3, h5, ?_, ?_⟩
    · intro hi
      omega
    · intro hz
      omega
  · intro k hk
    rw [← hloop]
    exact i2 k hk
  · rw [hloop] at i3
    simp only [gst_kvazaar_enc_bytestream_to_nal, kvz_data_chunk.len, List.length_map,
      List.length_range] at i3 ⊢
    exact i3

/-- Witness for C29: the sample byte stream. -/
theorem C29_write_index_stays_in_bounds_witness :
    4 ≤ sample_stream.len ∧ sample_stream.len < 2147483648
      ∧ (gst_kvazaar_enc_bytestream_to_nal (fun _ => 0) sample_stream).len
        ≤ sample_stream.len - 4 :=
  ⟨by decide, by decide,
    (C29_write_index_stays_in_bounds (fun _ => 0) sample_stream (by decide)
      (by decide)).2.2.2⟩

end GstKvazaar
